import Mathlib

/-
Verification of the kotoba web-testing tool (src/kotoba) against its
natural-language specification.  The Python sources are shallowly embedded:
pure logic becomes Lean functions, the browser / filesystem / model
boundaries become explicit oracle records, Python exceptions become
`Except PyErr`, and Python's `re` backtracking engine is embedded as a
small fuel-based matcher with Python's leftmost / first-alternative /
lazy-vs-greedy semantics.
-/

namespace Kotoba

/-- Python exception model: just enough structure to distinguish the
exception classes the embedded code can raise, each carrying `str(e)`. -/
inductive PyErr where
  | reError (msg : String)        -- re.error (pattern failed to compile)
  | valueError (msg : String)     -- ValueError
  | runtimeError (msg : String)   -- RuntimeError
  | unboundLocal (name : String)  -- UnboundLocalError
  | attrError (msg : String)      -- AttributeError
  | constructorError (tag : String) -- yaml.constructor.ConstructorError (unknown tag)
  | exc (msg : String)            -- any other exception injected by an oracle
deriving Repr, DecidableEq

/-- `str(e)` for an exception, as used by the runners' `str(e)` handlers. -/
def PyErr.text : PyErr → String
  | .reError m => m
  | .valueError m => m
  | .runtimeError m => m
  | .unboundLocal n =>
      "cannot access local variable " ++ String.singleton (Char.ofNat 39) ++ n ++
      String.singleton (Char.ofNat 39) ++ " where it is not associated with a value"
  | .attrError m => m
  | .constructorError tag =>
      "could not determine a constructor for the tag " ++
      String.singleton (Char.ofNat 39) ++ tag ++ String.singleton (Char.ofNat 39)
  | .exc m => m

/-- A Python scalar value as it appears in `Assertion.expected`
(`Union[str, bool, int, float]`; the float case never arises in the
embedded code paths). -/
inductive EVal where
  | s (v : String)
  | i (v : Int)
  | b (v : Bool)
deriving Repr, DecidableEq

/-- Python `str()` of an `EVal`. -/
def EVal.pyStr : EVal → String
  | .s v => v
  | .i v => toString v
  | .b true => "True"
  | .b false => "False"

/-- Python `str()` of an optional value (`str(None) = "None"`). -/
def pyStrOpt : Option EVal → String
  | none => "None"
  | some v => v.pyStr

/-! ## Python string helpers -/

/-- The apostrophe character, used when assembling Python messages. -/
def apos : String := String.singleton (Char.ofNat 39)

/-- Characters stripped by Python `str.strip()` with no argument
(the whitespace actually reachable in the embedded code paths). -/
def isPyWs (c : Char) : Bool :=
  c = ' ' || c = '\t' || c = '\n' || c = '\r' ||
  c = Char.ofNat 11 || c = Char.ofNat 12 || c = Char.ofNat 0x3000

/-- Python `str.strip(chars)` over an explicit character predicate. -/
def pyStripWith (p : Char → Bool) (s : String) : String :=
  String.mk (((s.toList.dropWhile p).reverse.dropWhile p).reverse)

/-- Python `str.strip()` (no argument). -/
def pyStripWs (s : String) : String := pyStripWith isPyWs s

/-- The quote-strip set of `AssertionPatternMatcher.parse`:
the Python literal `'「」""''\'\'""'` concatenates to the four characters
`「`, `」`, `"`, `'` (the source file uses straight ASCII quotes). -/
def quoteStripSet (c : Char) : Bool :=
  c = Char.ofNat 0x300C || c = Char.ofNat 0x300D || c = '"' || c = Char.ofNat 39

/-- Strip surrounding quote characters, as `.strip('「」""''\'\'""')`. -/
def stripQuotes (s : String) : String := pyStripWith quoteStripSet s

/-- `needle.isPrefixOf hay` on character lists. -/
def listIsPrefix : List Char → List Char → Bool
  | [], _ => true
  | _ :: _, [] => false
  | a :: as, b :: bs => a = b && listIsPrefix as bs

/-- Python substring containment (`needle in hay`). -/
def listHasSub (needle : List Char) : List Char → Bool
  | [] => listIsPrefix needle []
  | c :: cs => listIsPrefix needle (c :: cs) || listHasSub needle cs

/-- Python `sub in s`. -/
def strContains (s sub : String) : Bool := listHasSub sub.toList s.toList

/-- Python `s.startswith(pre)`. -/
def pyStartsWith (s pre : String) : Bool := listIsPrefix pre.toList s.toList

/-- Python `s.endswith(suf)`. -/
def pyEndsWith (s suf : String) : Bool :=
  listIsPrefix suf.toList.reverse s.toList.reverse

/-- ASCII lower-casing of one character (written as an explicit table so
that it reduces definitionally). -/
def charLower : Char → Char
  | 'A' => 'a' | 'B' => 'b' | 'C' => 'c' | 'D' => 'd' | 'E' => 'e'
  | 'F' => 'f' | 'G' => 'g' | 'H' => 'h' | 'I' => 'i' | 'J' => 'j'
  | 'K' => 'k' | 'L' => 'l' | 'M' => 'm' | 'N' => 'n' | 'O' => 'o'
  | 'P' => 'p' | 'Q' => 'q' | 'R' => 'r' | 'S' => 's' | 'T' => 't'
  | 'U' => 'u' | 'V' => 'v' | 'W' => 'w' | 'X' => 'x' | 'Y' => 'y'
  | 'Z' => 'z'
  | c => c

/-- Python `str.lower()` (ASCII case folding; no evaluated code path
lowercases a non-ASCII cased letter). -/
def pyLower (s : String) : String := String.mk (s.toList.map charLower)

/-- Replacement worker for `str.replace`: at each position, if `needle`
is a prefix, emit `repl` and skip it, otherwise keep one character.  The
fuel (one unit per consumed character) keeps the recursion structural;
`pyReplace` supplies fuel equal to the subject length, which is always
enough because every step consumes at least one character. -/
def listReplaceF (needle repl : List Char) : Nat → List Char → List Char
  | _, [] => []
  | 0, l => l
  | f + 1, c :: cs =>
      if needle ≠ [] ∧ listIsPrefix needle (c :: cs) then
        repl ++ listReplaceF needle repl f (cs.drop (needle.length - 1))
      else
        c :: listReplaceF needle repl f cs

/-- Python `s.replace(needle, repl)` (all occurrences, left to right;
only called with nonempty needles in the embedded code). -/
def pyReplace (s needle repl : String) : String :=
  if needle = "" then s
  else String.mk (listReplaceF needle.toList repl.toList s.toList.length s.toList)

/-- Python `int(str)` on a decimal digit string (the only shape reachable:
captures of `\d+`); anything else raises `ValueError`. -/
def pyIntOfString (s : String) : Except PyErr Int :=
  if s ≠ "" && s.toList.all (fun c => c.isDigit) then
    .ok (Int.ofNat (s.toList.foldl (fun n c => n * 10 + (c.toNat - 48)) 0))
  else
    .error (.valueError ("invalid literal for int() with base 10: " ++ s))

/-- Python `int(x)` on an `Assertion.expected` value. -/
def pyIntOf : Option EVal → Except PyErr Int
  | some (.i n) => .ok n
  | some (.b true) => .ok 1
  | some (.b false) => .ok 0
  | some (.s s) => pyIntOfString (pyStripWs s)
  | none => .error (.exc "int() argument must not be None")

/-! ## Embedded Python `re` engine

A fuel-indexed backtracking matcher with Python semantics: leftmost
search position wins, alternation prefers the left branch, `?`, `*`, `+`
are greedy, and their `??`, `*?`, `+?` forms are lazy.  Captures record
character spans; an overwriting capture shadows an earlier one, and
backtracked attempts discard their captures (each attempt threads its own
capture list). -/

/-- One item of a character class. -/
inductive ClassItem where
  | single (c : Char)
  | range (lo hi : Char)
  | spaceClass              -- Python `\s`
  | digitClass              -- Python `\d`
deriving Repr, DecidableEq

/-- Membership of a character in one class item. -/
def ClassItem.mtch (c : Char) : ClassItem → Bool
  | .single d => c = d
  | .range lo hi => lo ≤ c && c ≤ hi
  | .spaceClass => isPyWs c
  | .digitClass => c.isDigit

/-- Regular-expression abstract syntax (the subset Python's `re` needs for
the embedded patterns). -/
inductive RE where
  | eps
  | ch (c : Char)
  | cls (neg : Bool) (items : List ClassItem)
  | dot
  | seq (a b : RE)
  | alt (a b : RE)
  | grp (i : Nat) (r : RE)
  | quest (greedy : Bool) (r : RE)
  | star (greedy : Bool) (r : RE)
  | rep1 (greedy : Bool) (r : RE)
deriving Repr, DecidableEq

/-- Capture list: group index with its character span (start, stop).
Lookup returns the most recent (front-most) entry. -/
abbrev Caps := List (Nat × Nat × Nat)

/-- Character at position `p` of the subject. -/
def charAt (cs : List Char) (p : Nat) : Option Char := (cs.drop p).head?

/-- Does character `c` satisfy the class `(neg, items)`? -/
def classMatches (neg : Bool) (items : List ClassItem) (c : Char) : Bool :=
  (items.any (ClassItem.mtch c)) != neg

/-- The backtracking matcher in continuation style.  `k` receives the
position and captures after `r`; the fuel bounds the call depth and is
chosen large enough at every call site (a fuel exhaustion would surface
as a spurious non-match and is cross-checked on every concrete input). -/
def reMatch : Nat → List Char → RE → Nat → Caps →
    (Nat → Caps → Option (Nat × Caps)) → Option (Nat × Caps)
  | 0, _, _, _, _, _ => none
  | _ + 1, _, .eps, p, caps, k => k p caps
  | _ + 1, cs, .ch c, p, caps, k =>
      match charAt cs p with
      | some c2 => if c2 = c then k (p + 1) caps else none
      | none => none
  | _ + 1, cs, .cls neg items, p, caps, k =>
      match charAt cs p with
      | some c2 => if classMatches neg items c2 then k (p + 1) caps else none
      | none => none
  | _ + 1, cs, .dot, p, caps, k =>
      match charAt cs p with
      | some c2 => if c2 = '\n' then none else k (p + 1) caps
      | none => none
  | fuel + 1, cs, .seq a b, p, caps, k =>
      reMatch fuel cs a p caps (fun p2 caps2 => reMatch fuel cs b p2 caps2 k)
  | fuel + 1, cs, .alt a b, p, caps, k =>
      match reMatch fuel cs a p caps k with
      | some res => some res
      | none => reMatch fuel cs b p caps k
  | fuel + 1, cs, .grp i r, p, caps, k =>
      reMatch fuel cs r p caps (fun p2 caps2 => k p2 ((i, p, p2) :: caps2))
  | fuel + 1, cs, .quest true r, p, caps, k =>
      match reMatch fuel cs r p caps k with
      | some res => some res
      | none => k p caps
  | fuel + 1, cs, .quest false r, p, caps, k =>
      match k p caps with
      | some res => some res
      | none => reMatch fuel cs r p caps k
  | fuel + 1, cs, .star true r, p, caps, k =>
      match reMatch fuel cs r p caps
          (fun p2 caps2 => reMatch fuel cs (.star true r) p2 caps2 k) with
      | some res => some res
      | none => k p caps
  | fuel + 1, cs, .star false r, p, caps, k =>
      match k p caps with
      | some res => some res
      | none =>
          reMatch fuel cs r p caps
            (fun p2 caps2 => reMatch fuel cs (.star false r) p2 caps2 k)
  | fuel + 1, cs, .rep1 g r, p, caps, k =>
      reMatch fuel cs r p caps
        (fun p2 caps2 => reMatch fuel cs (.star g r) p2 caps2 k)

/-- A successful match: the overall span and the captured group spans. -/
structure RMatch where
  startPos : Nat
  stopPos : Nat
  caps : Caps
deriving Repr, DecidableEq

/-- Fuel used for every search; ample for the embedded patterns and
subjects (bounds call depth, not work, so oversizing is free). -/
def reFuel : Nat := 4000

/-- Try to match at positions `p, p+1, ...` (`left` positions remain). -/
def reSearchFrom (cs : List Char) (r : RE) : Nat → Nat → Option RMatch
  | _, 0 => none
  | p, left + 1 =>
      match reMatch reFuel cs r p [] (fun p2 caps => some (p2, caps)) with
      | some (stop, caps) => some { startPos := p, stopPos := stop, caps := caps }
      | none => reSearchFrom cs r (p + 1) left

/-- Python `re.search(r, s)`: leftmost successful start position. -/
def reSearch (r : RE) (s : String) : Option RMatch :=
  reSearchFrom s.toList r 0 (s.toList.length + 1)

/-- Substring of the subject by character span. -/
def spanStr (cs : List Char) (s e : Nat) : String :=
  String.mk ((cs.drop s).take (e - s))

/-- `m.group(i)` (1-based), `none` when the group did not participate. -/
def RMatch.group (m : RMatch) (cs : List Char) (i : Nat) : Option String :=
  (m.caps.find? (fun t => t.1 = i)).map (fun t => spanStr cs t.2.1 t.2.2)

/-- `m.group()`: the whole matched substring. -/
def RMatch.whole (m : RMatch) (cs : List Char) : String :=
  spanStr cs m.startPos m.stopPos

/-! Builder helpers used by the embedded pattern table. -/

/-- Literal string. -/
def rstr (s : String) : RE := s.toList.foldr (fun c r => RE.seq (RE.ch c) r) RE.eps

/-- Concatenation of a list. -/
def rcat (l : List RE) : RE := l.foldr RE.seq RE.eps

/-- Ordered alternation (left branch preferred, as in Python). -/
def ralt : List RE → RE
  | [] => RE.eps
  | [r] => r
  | r :: rest => RE.alt r (ralt rest)

/-- Greedy optional (`r?`). -/
def ropt (r : RE) : RE := RE.quest true r

/-- Positive class from an explicit character list. -/
def oneofCs (cs : List Char) : RE := RE.cls false (cs.map ClassItem.single)

/-- Negated class from an explicit character list. -/
def noneofCs (cs : List Char) : RE := RE.cls true (cs.map ClassItem.single)

/-- `(.+?)` as a capture group: lazy one-or-more of `.`. -/
def lazyDotGroup (i : Nat) : RE := RE.grp i (RE.rep1 false RE.dot)

/-- `(\d+)` as a capture group. -/
def digitsGroup (i : Nat) : RE := RE.grp i (RE.rep1 true (RE.cls false [ClassItem.digitClass]))

/-- `\s+`. -/
def wsPlus : RE := RE.rep1 true (RE.cls false [ClassItem.spaceClass])

/-- `\s*`. -/
def wsStar : RE := RE.star true (RE.cls false [ClassItem.spaceClass])

/-! ## Assertion data model (src/kotoba/assertions.py) -/

/-- The 27 declared assertion types (`AssertionType`). -/
inductive AssertionType where
  | TEXT_EXISTS
  | TEXT_NOT_EXISTS
  | TEXT_EQUALS
  | TEXT_CONTAINS
  | TEXT_MATCHES
  | ELEMENT_EXISTS
  | ELEMENT_NOT_EXISTS
  | ELEMENT_VISIBLE
  | ELEMENT_HIDDEN
  | ELEMENT_COUNT
  | ATTRIBUTE_EQUALS
  | ATTRIBUTE_CONTAINS
  | ATTRIBUTE_EXISTS
  | URL_EQUALS
  | URL_CONTAINS
  | URL_MATCHES
  | URL_STARTS_WITH
  | URL_ENDS_WITH
  | TITLE_EQUALS
  | TITLE_CONTAINS
  | TITLE_MATCHES
  | INPUT_VALUE_EQUALS
  | INPUT_VALUE_CONTAINS
  | CHECKBOX_CHECKED
  | CHECKBOX_UNCHECKED
  | ELEMENT_ENABLED
  | ELEMENT_DISABLED
deriving Repr, DecidableEq

/-- Python `f"{assertion.type}"` (enum repr used by the unimplemented
branch message). -/
def AssertionType.pyText : AssertionType → String
  | .TEXT_EXISTS => "AssertionType.TEXT_EXISTS"
  | .TEXT_NOT_EXISTS => "AssertionType.TEXT_NOT_EXISTS"
  | .TEXT_EQUALS => "AssertionType.TEXT_EQUALS"
  | .TEXT_CONTAINS => "AssertionType.TEXT_CONTAINS"
  | .TEXT_MATCHES => "AssertionType.TEXT_MATCHES"
  | .ELEMENT_EXISTS => "AssertionType.ELEMENT_EXISTS"
  | .ELEMENT_NOT_EXISTS => "AssertionType.ELEMENT_NOT_EXISTS"
  | .ELEMENT_VISIBLE => "AssertionType.ELEMENT_VISIBLE"
  | .ELEMENT_HIDDEN => "AssertionType.ELEMENT_HIDDEN"
  | .ELEMENT_COUNT => "AssertionType.ELEMENT_COUNT"
  | .ATTRIBUTE_EQUALS => "AssertionType.ATTRIBUTE_EQUALS"
  | .ATTRIBUTE_CONTAINS => "AssertionType.ATTRIBUTE_CONTAINS"
  | .ATTRIBUTE_EXISTS => "AssertionType.ATTRIBUTE_EXISTS"
  | .URL_EQUALS => "AssertionType.URL_EQUALS"
  | .URL_CONTAINS => "AssertionType.URL_CONTAINS"
  | .URL_MATCHES => "AssertionType.URL_MATCHES"
  | .URL_STARTS_WITH => "AssertionType.URL_STARTS_WITH"
  | .URL_ENDS_WITH => "AssertionType.URL_ENDS_WITH"
  | .TITLE_EQUALS => "AssertionType.TITLE_EQUALS"
  | .TITLE_CONTAINS => "AssertionType.TITLE_CONTAINS"
  | .TITLE_MATCHES => "AssertionType.TITLE_MATCHES"
  | .INPUT_VALUE_EQUALS => "AssertionType.INPUT_VALUE_EQUALS"
  | .INPUT_VALUE_CONTAINS => "AssertionType.INPUT_VALUE_CONTAINS"
  | .CHECKBOX_CHECKED => "AssertionType.CHECKBOX_CHECKED"
  | .CHECKBOX_UNCHECKED => "AssertionType.CHECKBOX_UNCHECKED"
  | .ELEMENT_ENABLED => "AssertionType.ELEMENT_ENABLED"
  | .ELEMENT_DISABLED => "AssertionType.ELEMENT_DISABLED"

/-- The parameter-kind tag of a pattern-table entry.  `parse` handles the
seven named kinds; every other tag (kept verbatim in `other`) falls
through to the next pattern, because the Python `if`/`elif` chain has no
branch for it and the loop continues. -/
inductive ParamKind where
  | text
  | selector
  | url
  | title
  | selector_value
  | selector_count
  | html_element
  | other (tag : String)
deriving Repr, DecidableEq

/-- One entry of `AssertionPatternMatcher.PATTERNS`.  `creg` is the
result of `re.compile` on the entry's effective pattern string (after
Python implicit string-literal concatenation): two entries of the source
table are syntactically invalid (`(?:？|?)` has a bare quantifier after
`|`) and carry the `re.error` message that Python raises when
`re.search` first compiles them. -/
structure PatEntry where
  creg : Except String RE
  ty : AssertionType
  kind : ParamKind
deriving Repr

/-! ## The embedded pattern table (187 entries, source order) -/

/-- Pattern table entry 0. -/
def pat000 : PatEntry :=
  { creg := Except.ok (rcat [RE.grp 1 (RE.rep1 false (RE.dot)), rstr "が", ropt (ralt [rstr "表示されて", rstr "出て", rstr "見えて"]), ralt [rstr "いる", rstr "いること", rstr "いることを"], ralt [rstr "確認", rstr "チェック", rstr "検証"], ropt (ralt [rstr "する", rstr "します", rstr "してください", rstr "お願いします"])]),
    ty := AssertionType.TEXT_EXISTS, kind := ParamKind.text }

/-- Pattern table entry 1. -/
def pat001 : PatEntry :=
  { creg := Except.ok (rcat [RE.cls false [ClassItem.single '「'], RE.grp 1 (RE.rep1 false (RE.dot)), RE.cls false [ClassItem.single '」'], rstr "が", ralt [rstr "表示", rstr "存在", rstr "出現"], ralt [rstr "している", rstr "することを", rstr "することを確認"], ropt (ralt [rstr "する", rstr "します", rstr "してください", rstr "お願いします"])]),
    ty := AssertionType.TEXT_EXISTS, kind := ParamKind.text }

/-- Pattern table entry 2. -/
def pat002 : PatEntry :=
  { creg := Except.ok (rcat [RE.cls false [ClassItem.single '「'], RE.grp 1 (RE.rep1 false (RE.dot)), RE.cls false [ClassItem.single '」'], rstr "という", ralt [rstr "テキスト", rstr "文字", rstr "メッセージ"], rstr "が", ralt [rstr "表示", rstr "存在"], ralt [rstr "している", rstr "することを確認"], ropt (ralt [rstr "する", rstr "します", rstr "してください", rstr "お願いします"])]),
    ty := AssertionType.TEXT_EXISTS, kind := ParamKind.text }

/-- Pattern table entry 3. -/
def pat003 : PatEntry :=
  { creg := Except.ok (rcat [RE.grp 1 (RE.rep1 false (RE.dot)), rstr "が", ropt (ralt [rstr "表示されて", rstr "出て", rstr "見えて"]), ralt [rstr "いない", rstr "いないこと", rstr "いないことを"], ralt [rstr "確認", rstr "チェック", rstr "検証"], ropt (ralt [rstr "する", rstr "します", rstr "してください", rstr "お願いします"])]),
    ty := AssertionType.TEXT_NOT_EXISTS, kind := ParamKind.text }

/-- Pattern table entry 4. -/
def pat004 : PatEntry :=
  { creg := Except.ok (rcat [RE.cls false [ClassItem.single '「'], RE.grp 1 (RE.rep1 false (RE.dot)), RE.cls false [ClassItem.single '」'], rstr "が", ropt (ralt [rstr "表示されて", rstr "存在して"]), ralt [rstr "いない", rstr "いないことを確認"], ropt (ralt [rstr "する", rstr "します", rstr "してください", rstr "お願いします"])]),
    ty := AssertionType.TEXT_NOT_EXISTS, kind := ParamKind.text }

/-- Pattern table entry 5. -/
def pat005 : PatEntry :=
  { creg := Except.ok (rcat [RE.cls false [ClassItem.single '「'], RE.grp 1 (RE.rep1 false (RE.dot)), RE.cls false [ClassItem.single '」'], rstr "という", ralt [rstr "テキスト", rstr "文字", rstr "メッセージ"], rstr "が", ropt (ralt [rstr "表示されて", rstr "存在して"]), ralt [rstr "いない", rstr "いないことを確認"], ropt (ralt [rstr "する", rstr "します", rstr "してください", rstr "お願いします"])]),
    ty := AssertionType.TEXT_NOT_EXISTS, kind := ParamKind.text }

/-- Pattern table entry 6. -/
def pat006 : PatEntry :=
  { creg := Except.ok (rcat [RE.grp 1 (RE.rep1 false (RE.dot)), ralt [rstr "ボタン", rstr "リンク", rstr "フィールド", rstr "要素", rstr "項目"], rstr "が", ralt [rstr "存在", rstr "表示", rstr "出現"], ralt [rstr "している", rstr "することを確認"]]),
    ty := AssertionType.ELEMENT_EXISTS, kind := ParamKind.selector }

/-- Pattern table entry 7. -/
def pat007 : PatEntry :=
  { creg := Except.ok (rcat [RE.grp 1 (RE.rep1 false (RE.dot)), rstr "が", ralt [rstr "見える", rstr "表示されている", rstr "存在することを確認"]]),
    ty := AssertionType.ELEMENT_VISIBLE, kind := ParamKind.selector }

/-- Pattern table entry 8. -/
def pat008 : PatEntry :=
  { creg := Except.ok (rcat [RE.grp 1 (RE.rep1 false (RE.dot)), ralt [rstr "ボタン", rstr "リンク", rstr "フィールド", rstr "要素", rstr "項目"], rstr "が", ropt (ralt [rstr "存在して", rstr "表示されて"]), ralt [rstr "いない", rstr "いないことを確認"]]),
    ty := AssertionType.ELEMENT_NOT_EXISTS, kind := ParamKind.selector }

/-- Pattern table entry 9. -/
def pat009 : PatEntry :=
  { creg := Except.ok (rcat [RE.grp 1 (RE.rep1 false (RE.dot)), rstr "が", ralt [rstr "見えない", rstr "表示されていない", rstr "存在しないことを確認"]]),
    ty := AssertionType.ELEMENT_HIDDEN, kind := ParamKind.selector }

/-- Pattern table entry 10. -/
def pat010 : PatEntry :=
  { creg := Except.ok (rcat [rstr "URLが", RE.grp 1 (RE.rep1 false (RE.dot)), ralt [rstr "で終わる", rstr "になっている", rstr "であることを確認"], ropt (ralt [rstr "する", rstr "します", rstr "してください", rstr "お願いします"])]),
    ty := AssertionType.URL_CONTAINS, kind := ParamKind.url }

/-- Pattern table entry 11. -/
def pat011 : PatEntry :=
  { creg := Except.ok (rcat [rstr "URLに", ropt (RE.cls false [ClassItem.single '「']), RE.grp 1 (RE.rep1 false (RE.dot)), ropt (RE.cls false [ClassItem.single '」']), rstr "が含まれる", ropt (rstr "ことを確認"), ropt (ralt [rstr "する", rstr "します", rstr "してください", rstr "お願いします"])]),
    ty := AssertionType.URL_CONTAINS, kind := ParamKind.url }

/-- Pattern table entry 12. -/
def pat012 : PatEntry :=
  { creg := Except.ok (rcat [ropt (rstr "ページの"), rstr "URLが", RE.cls false [ClassItem.single '「'], RE.grp 1 (RE.rep1 false (RE.dot)), RE.cls false [ClassItem.single '」'], ralt [rstr "と一致", rstr "であることを確認"], ropt (ralt [rstr "する", rstr "します", rstr "してください", rstr "お願いします"])]),
    ty := AssertionType.URL_EQUALS, kind := ParamKind.url }

/-- Pattern table entry 13. -/
def pat013 : PatEntry :=
  { creg := Except.ok (rcat [rstr "URLが", ropt (RE.cls false [ClassItem.single '「']), RE.grp 1 (RE.rep1 false (RE.dot)), ropt (RE.cls false [ClassItem.single '」']), rstr "で始まることを確認", ropt (ralt [rstr "する", rstr "します", rstr "してください", rstr "お願いします"])]),
    ty := AssertionType.URL_STARTS_WITH, kind := ParamKind.url }

/-- Pattern table entry 14. -/
def pat014 : PatEntry :=
  { creg := Except.ok (rcat [rstr "URLが", ropt (RE.cls false [ClassItem.single '「']), RE.grp 1 (RE.rep1 false (RE.dot)), ropt (RE.cls false [ClassItem.single '」']), rstr "で終わることを確認", ropt (ralt [rstr "する", rstr "します", rstr "してください", rstr "お願いします"])]),
    ty := AssertionType.URL_ENDS_WITH, kind := ParamKind.url }

/-- Pattern table entry 15. -/
def pat015 : PatEntry :=
  { creg := Except.ok (rcat [ropt (rstr "ページ"), rstr "タイトルが", RE.cls false [ClassItem.single '「'], RE.grp 1 (RE.rep1 false (RE.dot)), RE.cls false [ClassItem.single '」'], ralt [rstr "であることを確認", rstr "と一致"], ropt (ralt [rstr "する", rstr "します", rstr "してください", rstr "お願いします"])]),
    ty := AssertionType.TITLE_EQUALS, kind := ParamKind.title }

/-- Pattern table entry 16. -/
def pat016 : PatEntry :=
  { creg := Except.ok (rcat [ropt (rstr "ページ"), rstr "タイトルに", ropt (RE.cls false [ClassItem.single '「']), RE.grp 1 (RE.rep1 false (RE.dot)), ropt (RE.cls false [ClassItem.single '」']), rstr "が含まれる", ropt (rstr "ことを確認"), ropt (ralt [rstr "する", rstr "します", rstr "してください", rstr "お願いします"])]),
    ty := AssertionType.TITLE_CONTAINS, kind := ParamKind.title }

/-- Pattern table entry 17. -/
def pat017 : PatEntry :=
  { creg := Except.ok (rcat [RE.grp 1 (RE.rep1 false (RE.dot)), ralt [rstr "フィールド", rstr "入力欄"], rstr "の値が「", RE.grp 2 (RE.rep1 false (RE.dot)), rstr "」", ralt [rstr "であることを確認", rstr "と一致"]]),
    ty := AssertionType.INPUT_VALUE_EQUALS, kind := ParamKind.selector_value }

/-- Pattern table entry 18. -/
def pat018 : PatEntry :=
  { creg := Except.ok (rcat [RE.grp 1 (RE.rep1 false (RE.dot)), ralt [rstr "チェックボックス", rstr "チェック"], rstr "が", ralt [rstr "チェックされて", rstr "選択されて"], ralt [rstr "いる", rstr "いることを確認"]]),
    ty := AssertionType.CHECKBOX_CHECKED, kind := ParamKind.selector }

/-- Pattern table entry 19. -/
def pat019 : PatEntry :=
  { creg := Except.ok (rcat [RE.grp 1 (RE.rep1 false (RE.dot)), ralt [rstr "チェックボックス", rstr "チェック"], rstr "が", ropt (ralt [rstr "チェックされて", rstr "選択されて"]), ralt [rstr "いない", rstr "いないことを確認"]]),
    ty := AssertionType.CHECKBOX_UNCHECKED, kind := ParamKind.selector }

/-- Pattern table entry 20. -/
def pat020 : PatEntry :=
  { creg := Except.ok (rcat [RE.grp 1 (RE.rep1 false (RE.dot)), rstr "が", RE.grp 2 (RE.rep1 true (RE.cls false [ClassItem.digitClass])), ralt [rstr "個", rstr "件", rstr "つ"], ralt [rstr "表示", rstr "存在"], ralt [rstr "している", rstr "することを確認"]]),
    ty := AssertionType.ELEMENT_COUNT, kind := ParamKind.selector_count }

/-- Pattern table entry 21. -/
def pat021 : PatEntry :=
  { creg := Except.ok (rcat [RE.grp 1 (RE.rep1 false (RE.dot)), rstr "の", ralt [rstr "数が", rstr "件数が"], RE.grp 2 (RE.rep1 true (RE.cls false [ClassItem.digitClass])), ralt [rstr "であることを確認", rstr "と一致"]]),
    ty := AssertionType.ELEMENT_COUNT, kind := ParamKind.selector_count }

/-- Pattern table entry 22. -/
def pat022 : PatEntry :=
  { creg := Except.ok (rcat [RE.grp 1 (ralt [rcat [rstr "h", RE.cls false [ClassItem.range '1' '6']], rstr "div", rstr "span", rstr "p", rstr "table", rstr "form", rstr "input", rstr "button"]), rstr "要素が", ropt (ralt [rstr "表示されて", rstr "存在して"]), ralt [rstr "いる", rstr "いることを確認"]]),
    ty := AssertionType.ELEMENT_EXISTS, kind := ParamKind.html_element }

/-- Pattern table entry 23. -/
def pat023 : PatEntry :=
  { creg := Except.ok (rcat [RE.grp 1 (ralt [rcat [rstr "h", RE.cls false [ClassItem.range '1' '6']], rstr "div", rstr "span", rstr "p", rstr "table", rstr "form", rstr "input", rstr "button"]), rstr "タグが", ropt (ralt [rstr "表示されて", rstr "存在して"]), ralt [rstr "いる", rstr "いることを確認"]]),
    ty := AssertionType.ELEMENT_EXISTS, kind := ParamKind.html_element }

/-- Pattern table entry 24. -/
def pat024 : PatEntry :=
  { creg := Except.ok (rcat [ralt [rstr "verify", rstr "check", rstr "confirm", rstr "assert"], ropt (rcat [wsPlus, rstr "that"]), wsPlus, RE.cls false [ClassItem.single (Char.ofNat 34), ClassItem.single (Char.ofNat 39)], RE.grp 1 (RE.rep1 false (RE.dot)), RE.cls false [ClassItem.single (Char.ofNat 34), ClassItem.single (Char.ofNat 39)], wsPlus, ralt [rstr "is", rcat [rstr "exist", ropt (RE.ch 's')], rcat [rstr "appear", ropt (RE.ch 's')], rcat [rstr "is", wsPlus, ralt [rstr "visible", rstr "displayed", rstr "present"]]]]),
    ty := AssertionType.TEXT_EXISTS, kind := ParamKind.text }

/-- Pattern table entry 25. -/
def pat025 : PatEntry :=
  { creg := Except.ok (rcat [ralt [rstr "verify", rstr "check", rstr "confirm", rstr "assert"], ropt (rcat [wsPlus, rstr "that"]), wsPlus, RE.cls false [ClassItem.single (Char.ofNat 34), ClassItem.single (Char.ofNat 39)], RE.grp 1 (RE.rep1 false (RE.dot)), RE.cls false [ClassItem.single (Char.ofNat 34), ClassItem.single (Char.ofNat 39)], wsPlus, ralt [rcat [rstr "is", wsPlus, rstr "not"], rcat [rstr "does", wsPlus, rstr "not", wsPlus, rstr "exist"], rcat [rstr "is", wsPlus, ralt [rcat [rstr "not", wsPlus, rstr "visible"], rstr "hidden", rstr "absent"]]]]),
    ty := AssertionType.TEXT_NOT_EXISTS, kind := ParamKind.text }

/-- Pattern table entry 26. -/
def pat026 : PatEntry :=
  { creg := Except.ok (rcat [ralt [rstr "verify", rstr "check", rstr "confirm", rstr "assert"], ropt (rcat [wsPlus, rstr "that"]), wsPlus, ropt (rcat [rstr "the", wsPlus]), rstr "url", wsPlus, rstr "contains", wsPlus, RE.cls false [ClassItem.single (Char.ofNat 34), ClassItem.single (Char.ofNat 39)], RE.grp 1 (RE.rep1 false (RE.dot)), RE.cls false [ClassItem.single (Char.ofNat 34), ClassItem.single (Char.ofNat 39)]]),
    ty := AssertionType.URL_CONTAINS, kind := ParamKind.url }

/-- Pattern table entry 27. -/
def pat027 : PatEntry :=
  { creg := Except.ok (rcat [ralt [rstr "verify", rstr "check", rstr "confirm", rstr "assert"], ropt (rcat [wsPlus, rstr "that"]), wsPlus, ropt (rcat [rstr "the", wsPlus]), rstr "url", wsPlus, rstr "starts", wsPlus, rstr "with", wsPlus, RE.cls false [ClassItem.single (Char.ofNat 34), ClassItem.single (Char.ofNat 39)], RE.grp 1 (RE.rep1 false (RE.dot)), RE.cls false [ClassItem.single (Char.ofNat 34), ClassItem.single (Char.ofNat 39)]]),
    ty := AssertionType.URL_STARTS_WITH, kind := ParamKind.url }

/-- Pattern table entry 28. -/
def pat028 : PatEntry :=
  { creg := Except.ok (rcat [ralt [rstr "verify", rstr "check", rstr "confirm", rstr "assert"], ropt (rcat [wsPlus, rstr "that"]), wsPlus, ropt (rcat [rstr "the", wsPlus]), rstr "url", wsPlus, rstr "ends", wsPlus, rstr "with", wsPlus, RE.cls false [ClassItem.single (Char.ofNat 34), ClassItem.single (Char.ofNat 39)], RE.grp 1 (RE.rep1 false (RE.dot)), RE.cls false [ClassItem.single (Char.ofNat 34), ClassItem.single (Char.ofNat 39)]]),
    ty := AssertionType.URL_ENDS_WITH, kind := ParamKind.url }

/-- Pattern table entry 29. -/
def pat029 : PatEntry :=
  { creg := Except.ok (rcat [ralt [rstr "verify", rstr "check", rstr "confirm", rstr "assert"], ropt (rcat [wsPlus, rstr "that"]), wsPlus, ropt (rcat [rstr "the", wsPlus]), rstr "title", wsPlus, rstr "contains", wsPlus, RE.cls false [ClassItem.single (Char.ofNat 34), ClassItem.single (Char.ofNat 39)], RE.grp 1 (RE.rep1 false (RE.dot)), RE.cls false [ClassItem.single (Char.ofNat 34), ClassItem.single (Char.ofNat 39)]]),
    ty := AssertionType.TITLE_CONTAINS, kind := ParamKind.title }

/-- Pattern table entry 30. -/
def pat030 : PatEntry :=
  { creg := Except.ok (rcat [ralt [rstr "verify", rstr "check", rstr "confirm", rstr "assert"], ropt (rcat [wsPlus, rstr "that"]), wsPlus, ropt (rcat [rstr "the", wsPlus]), rstr "title", wsPlus, ralt [rstr "is", rstr "equals"], wsPlus, RE.cls false [ClassItem.single (Char.ofNat 34), ClassItem.single (Char.ofNat 39)], RE.grp 1 (RE.rep1 false (RE.dot)), RE.cls false [ClassItem.single (Char.ofNat 34), ClassItem.single (Char.ofNat 39)]]),
    ty := AssertionType.TITLE_EQUALS, kind := ParamKind.title }

/-- Pattern table entry 31. -/
def pat031 : PatEntry :=
  { creg := Except.ok (rcat [ralt [rstr "验证", rstr "检查", rstr "确认", rstr "断言"], RE.cls false [ClassItem.single (Char.ofNat 34), ClassItem.single (Char.ofNat 39)], RE.grp 1 (RE.rep1 false (RE.dot)), RE.cls false [ClassItem.single (Char.ofNat 34), ClassItem.single (Char.ofNat 39)], ralt [rstr "存在", rstr "显示", rstr "出现"]]),
    ty := AssertionType.TEXT_EXISTS, kind := ParamKind.text }

/-- Pattern table entry 32. -/
def pat032 : PatEntry :=
  { creg := Except.ok (rcat [ralt [rstr "验证", rstr "检查", rstr "确认", rstr "断言"], RE.cls false [ClassItem.single (Char.ofNat 34), ClassItem.single (Char.ofNat 39)], RE.grp 1 (RE.rep1 false (RE.dot)), RE.cls false [ClassItem.single (Char.ofNat 34), ClassItem.single (Char.ofNat 39)], ralt [rstr "不存在", rstr "未显示", rstr "不出现"]]),
    ty := AssertionType.TEXT_NOT_EXISTS, kind := ParamKind.text }

/-- Pattern table entry 33. -/
def pat033 : PatEntry :=
  { creg := Except.ok (rcat [ralt [rstr "验证", rstr "检查", rstr "确认", rstr "断言"], ralt [rstr "网址", rstr "URL"], rstr "包含", RE.cls false [ClassItem.single (Char.ofNat 34), ClassItem.single (Char.ofNat 39)], RE.grp 1 (RE.rep1 false (RE.dot)), RE.cls false [ClassItem.single (Char.ofNat 34), ClassItem.single (Char.ofNat 39)]]),
    ty := AssertionType.URL_CONTAINS, kind := ParamKind.url }

/-- Pattern table entry 34. -/
def pat034 : PatEntry :=
  { creg := Except.ok (rcat [ralt [rstr "验证", rstr "检查", rstr "确认", rstr "断言"], ralt [rstr "网址", rstr "URL"], rstr "以", RE.cls false [ClassItem.single (Char.ofNat 34), ClassItem.single (Char.ofNat 39)], RE.grp 1 (RE.rep1 false (RE.dot)), RE.cls false [ClassItem.single (Char.ofNat 34), ClassItem.single (Char.ofNat 39)], rstr "开头"]),
    ty := AssertionType.URL_STARTS_WITH, kind := ParamKind.url }

/-- Pattern table entry 35. -/
def pat035 : PatEntry :=
  { creg := Except.ok (rcat [ralt [rstr "验证", rstr "检查", rstr "确认", rstr "断言"], ralt [rstr "网址", rstr "URL"], rstr "以", RE.cls false [ClassItem.single (Char.ofNat 34), ClassItem.single (Char.ofNat 39)], RE.grp 1 (RE.rep1 false (RE.dot)), RE.cls false [ClassItem.single (Char.ofNat 34), ClassItem.single (Char.ofNat 39)], rstr "结尾"]),
    ty := AssertionType.URL_ENDS_WITH, kind := ParamKind.url }

/-- Pattern table entry 36. -/
def pat036 : PatEntry :=
  { creg := Except.ok (rcat [ralt [rstr "验证", rstr "检查", rstr "确认", rstr "断言"], rstr "标题包含", RE.cls false [ClassItem.single (Char.ofNat 34), ClassItem.single (Char.ofNat 39)], RE.grp 1 (RE.rep1 false (RE.dot)), RE.cls false [ClassItem.single (Char.ofNat 34), ClassItem.single (Char.ofNat 39)]]),
    ty := AssertionType.TITLE_CONTAINS, kind := ParamKind.title }

/-- Pattern table entry 37. -/
def pat037 : PatEntry :=
  { creg := Except.ok (rcat [ralt [rstr "验证", rstr "检查", rstr "确认", rstr "断言"], rstr "标题", ralt [rstr "是", rstr "等于"], RE.cls false [ClassItem.single (Char.ofNat 34), ClassItem.single (Char.ofNat 39)], RE.grp 1 (RE.rep1 false (RE.dot)), RE.cls false [ClassItem.single (Char.ofNat 34), ClassItem.single (Char.ofNat 39)]]),
    ty := AssertionType.TITLE_EQUALS, kind := ParamKind.title }

/-- Pattern table entry 38. -/
def pat038 : PatEntry :=
  { creg := Except.ok (rcat [ropt (RE.cls false [ClassItem.single '「']), RE.grp 1 (RE.rep1 false (RE.dot)), ropt (RE.cls false [ClassItem.single '」']), ralt [rstr "って", rcat [rstr "という", ralt [rstr "の", rstr "もの"]]], ralt [rstr "が", rstr "は"], ralt [rstr "あるか", rstr "存在するか", rstr "見えるか"], ralt [rstr "確認", rstr "チェック"], ropt (ralt [rstr "する", rstr "します", rstr "してください"])]),
    ty := AssertionType.TEXT_EXISTS, kind := ParamKind.text }

/-- Pattern table entry 39. -/
def pat039 : PatEntry :=
  { creg := Except.ok (rcat [ropt (RE.cls false [ClassItem.single '「']), RE.grp 1 (RE.rep1 false (RE.dot)), ropt (RE.cls false [ClassItem.single '」']), ralt [rstr "は", rstr "が"], ralt [rstr "表示されて", rstr "見えて"], ralt [rstr "いますか", rstr "いるでしょうか", rstr "いるか"], ropt (ralt [rstr "？", rstr "?"])]),
    ty := AssertionType.TEXT_EXISTS, kind := ParamKind.text }

/-- Pattern table entry 40. -/
def pat040 : PatEntry :=
  { creg := Except.ok (rcat [ropt (RE.cls false [ClassItem.single '「']), RE.grp 1 (RE.rep1 false (RE.dot)), ropt (RE.cls false [ClassItem.single '」']), ralt [rstr "が", rstr "って"], ralt [rstr "ちゃんと", rstr "きちんと", rstr "正しく"], ralt [rstr "表示", rstr "出て"], ralt [rstr "る", rstr "いる"], ralt [rstr "か", rstr "かな", rstr "だろうか"], ralt [rstr "確認", rstr "見る"]]),
    ty := AssertionType.TEXT_EXISTS, kind := ParamKind.text }

/-- Pattern table entry 41. -/
def pat041 : PatEntry :=
  { creg := Except.ok (rcat [ropt (RE.cls false [ClassItem.single '「']), RE.grp 1 (RE.rep1 false (RE.dot)), ropt (RE.cls false [ClassItem.single '」']), ralt [rstr "が", rstr "って"], ralt [rstr "表示されてる", rstr "出てる", rstr "見える"], ralt [rstr "よね", rstr "ね", rstr "な"], ropt (ralt [rstr "？", rstr "?"])]),
    ty := AssertionType.TEXT_EXISTS, kind := ParamKind.text }

/-- Pattern table entry 42. -/
def pat042 : PatEntry :=
  { creg := Except.ok (rcat [ropt (RE.cls false [ClassItem.single '「']), RE.grp 1 (RE.rep1 false (RE.dot)), ropt (RE.cls false [ClassItem.single '」']), ralt [rstr "が", rstr "の"], ralt [rstr "表示状況", rstr "存在状況", rstr "可視性"], ralt [rstr "を", rstr "について"], ralt [rstr "確認", rstr "検証", rstr "チェック"], ropt (ralt [rstr "する", rstr "します", rstr "してください"])]),
    ty := AssertionType.TEXT_EXISTS, kind := ParamKind.text }

/-- Pattern table entry 43. -/
def pat043 : PatEntry :=
  { creg := Except.ok (rcat [ropt (RE.cls false [ClassItem.single '「']), RE.grp 1 (RE.rep1 false (RE.dot)), ropt (RE.cls false [ClassItem.single '」']), ralt [rstr "について", rstr "に関して"], ralt [rstr "表示", rstr "存在"], ralt [rstr "確認", rstr "検証", rstr "チェック"], ralt [rstr "を行う", rstr "を実施"], ropt (ralt [rstr "する", rstr "します", rstr "してください"])]),
    ty := AssertionType.TEXT_EXISTS, kind := ParamKind.text }

/-- Pattern table entry 44. -/
def pat044 : PatEntry :=
  { creg := Except.ok (rcat [ropt (RE.cls false [ClassItem.single '「']), RE.grp 1 (RE.rep1 false (RE.dot)), ropt (RE.cls false [ClassItem.single '」']), ralt [rstr "の", rstr "が"], ralt [rstr "画面表示", rstr "画面出力", rstr "レンダリング"], ralt [rstr "を", rstr "について"], ralt [rstr "確認", rstr "検証"], ropt (ralt [rstr "する", rstr "します", rstr "してください"])]),
    ty := AssertionType.TEXT_EXISTS, kind := ParamKind.text }

/-- Pattern table entry 45. -/
def pat045 : PatEntry :=
  { creg := Except.ok (rcat [rstr "もし", ropt (RE.cls false [ClassItem.single '「']), RE.grp 1 (RE.rep1 false (RE.dot)), ropt (RE.cls false [ClassItem.single '」']), ralt [rstr "が", rstr "って"], ralt [rstr "表示", rstr "存在"], ropt (ralt [rstr "されて", rstr "して"]), ralt [rstr "いる", rstr "いたら"], ralt [rstr "なら", rstr "場合"], ralt [rstr "確認", rstr "チェック"], ropt (ralt [rstr "する", rstr "します"])]),
    ty := AssertionType.TEXT_EXISTS, kind := ParamKind.text }

/-- Pattern table entry 46. -/
def pat046 : PatEntry :=
  { creg := Except.ok (rcat [ropt (RE.cls false [ClassItem.single '「']), RE.grp 1 (RE.rep1 false (RE.dot)), ropt (RE.cls false [ClassItem.single '」']), ralt [rstr "が", rstr "って"], ralt [rstr "正常に", rstr "適切に"], ralt [rstr "表示", rstr "出力", rstr "レンダリング"], ralt [rstr "されている", rstr "されてる"], ralt [rstr "こと", rstr "ことを"], ralt [rstr "確認", rstr "検証"], ropt (ralt [rstr "する", rstr "します"])]),
    ty := AssertionType.TEXT_EXISTS, kind := ParamKind.text }

/-- Pattern table entry 47. -/
def pat047 : PatEntry :=
  { creg := Except.ok (rcat [ropt (RE.cls false [ClassItem.single '「']), RE.grp 1 (RE.rep1 false (RE.dot)), ropt (RE.cls false [ClassItem.single '」']), ralt [rstr "が", rstr "って"], ralt [rstr "間違いなく", rstr "確実に", rstr "絶対に"], ralt [rstr "表示", rstr "存在"], ralt [rstr "している", rstr "してる"], ralt [rstr "はず", rstr "だろう"], ropt (ralt [rstr "だから", rstr "なので"]), ralt [rstr "確認", rstr "チェック"], ropt (ralt [rstr "する", rstr "します"])]),
    ty := AssertionType.TEXT_EXISTS, kind := ParamKind.text }

/-- Pattern table entry 48. -/
def pat048 : PatEntry :=
  { creg := Except.ok (rcat [ropt (RE.cls false [ClassItem.single '「']), RE.grp 1 (RE.rep1 false (RE.dot)), ropt (RE.cls false [ClassItem.single '」']), ralt [rstr "が", rstr "って"], ralt [rstr "やっぱり", rstr "結局", rstr "案の定"], ralt [rstr "表示", rstr "出て"], ralt [rstr "いる", rstr "いた"], ralt [rstr "か", rstr "かな", rstr "だろうか"], ralt [rstr "確認", rstr "見る"], ropt (rstr "します")]),
    ty := AssertionType.TEXT_EXISTS, kind := ParamKind.text }

/-- Pattern table entry 49. -/
def pat049 : PatEntry :=
  { creg := Except.ok (rcat [ropt (ralt [rstr "現在の", rstr "今の", rstr "このページの"]), ralt [rstr "URL", rstr "アドレス", rstr "リンク"], ralt [rstr "が", rstr "に", rstr "で"], ropt (RE.cls false [ClassItem.single '「']), RE.grp 1 (RE.rep1 false (RE.dot)), ropt (RE.cls false [ClassItem.single '」']), ralt [rstr "が", rstr "を"], ralt [rstr "含んで", rstr "含ま", rstr "入って"], ralt [rstr "いる", rstr "いること", rstr "いることを"], ralt [rstr "確認", rstr "チェック", rstr "検証"], ropt (ralt [rstr "する", rstr "します", rstr "してください"])]),
    ty := AssertionType.URL_CONTAINS, kind := ParamKind.url }

/-- Pattern table entry 50. -/
def pat050 : PatEntry :=
  { creg := Except.ok (rcat [ropt (ralt [rstr "ページの", rstr "サイトの"]), ralt [rstr "URL", rstr "アドレス"], ralt [rstr "が", rstr "は"], ropt (RE.cls false [ClassItem.single '「']), RE.grp 1 (RE.rep1 false (RE.dot)), ropt (RE.cls false [ClassItem.single '」']), ralt [rstr "から", rstr "で"], ralt [rstr "始まって", rstr "スタートして"], ralt [rstr "いる", rstr "いること", rstr "いることを"], ralt [rstr "確認", rstr "チェック", rstr "検証"], ropt (ralt [rstr "する", rstr "します", rstr "してください"])]),
    ty := AssertionType.URL_STARTS_WITH, kind := ParamKind.url }

/-- Pattern table entry 51. -/
def pat051 : PatEntry :=
  { creg := Except.ok (rcat [ralt [rstr "URL", rstr "アドレス"], ralt [rstr "の", rstr "が"], ralt [rstr "末尾", rstr "最後"], ralt [rstr "が", rstr "は", rstr "に"], ropt (RE.cls false [ClassItem.single '「']), RE.grp 1 (RE.rep1 false (RE.dot)), ropt (RE.cls false [ClassItem.single '」']), ralt [rstr "で", rstr "と"], ralt [rstr "終わって", rstr "なって"], ralt [rstr "いる", rstr "いること", rstr "いることを"], ralt [rstr "確認", rstr "チェック", rstr "検証"], ropt (ralt [rstr "する", rstr "します", rstr "してください"])]),
    ty := AssertionType.URL_ENDS_WITH, kind := ParamKind.url }

/-- Pattern table entry 52. -/
def pat052 : PatEntry :=
  { creg := Except.ok (rcat [ropt (ralt [rstr "ページの", rstr "サイトの", rstr "この"]), ralt [rstr "タイトル", rstr "題名", rstr "見出し"], ralt [rstr "が", rstr "に", rstr "で"], ropt (RE.cls false [ClassItem.single '「']), RE.grp 1 (RE.rep1 false (RE.dot)), ropt (RE.cls false [ClassItem.single '」']), ralt [rstr "が", rstr "を"], ralt [rstr "含んで", rstr "含ま", rstr "入って"], ralt [rstr "いる", rstr "いること", rstr "いることを"], ralt [rstr "確認", rstr "チェック", rstr "検証"], ropt (ralt [rstr "する", rstr "します", rstr "してください"])]),
    ty := AssertionType.TITLE_CONTAINS, kind := ParamKind.title }

/-- Pattern table entry 53. -/
def pat053 : PatEntry :=
  { creg := Except.ok (rcat [ropt (ralt [rstr "ページの", rstr "サイトの"]), ralt [rstr "タイトル", rstr "題名", rstr "見出し"], ralt [rstr "が", rstr "は"], ropt (RE.cls false [ClassItem.single '「']), RE.grp 1 (RE.rep1 false (RE.dot)), ropt (RE.cls false [ClassItem.single '」']), ralt [rstr "と", rstr "に", rstr "で"], ralt [rstr "一致", rstr "同じ", rstr "マッチ"], ralt [rstr "している", rstr "してる", rstr "することを"], ralt [rstr "確認", rstr "チェック", rstr "検証"], ropt (ralt [rstr "する", rstr "します", rstr "してください"])]),
    ty := AssertionType.TITLE_EQUALS, kind := ParamKind.title }

/-- Pattern table entry 54. -/
def pat054 : PatEntry :=
  { creg := Except.ok (rcat [ropt (RE.cls false [ClassItem.single '「']), RE.grp 1 (RE.rep1 false (RE.dot)), ropt (RE.cls false [ClassItem.single '」']), ralt [rstr "が", rstr "って"], ropt (ralt [rstr "表示されて", rstr "出て", rstr "見えて"]), ralt [rstr "いない", rstr "ない"], ralt [rstr "こと", rstr "ことを", rstr "はず"], ropt (ralt [rstr "を", rstr "について"]), ralt [rstr "確認", rstr "チェック", rstr "検証"], ropt (ralt [rstr "する", rstr "します", rstr "してください"])]),
    ty := AssertionType.TEXT_NOT_EXISTS, kind := ParamKind.text }

/-- Pattern table entry 55. -/
def pat055 : PatEntry :=
  { creg := Except.ok (rcat [ropt (RE.cls false [ClassItem.single '「']), RE.grp 1 (RE.rep1 false (RE.dot)), ropt (RE.cls false [ClassItem.single '」']), ralt [rstr "が", rstr "って"], ralt [rstr "画面に", rstr "ページに"], ropt (ralt [rstr "表示されて", rstr "出て", rstr "見えて"]), ralt [rstr "いない", rstr "ない", rstr "存在しない"], ralt [rstr "はず", rstr "だろう", rstr "と思う"], ropt (ralt [rstr "だから", rstr "なので"]), ralt [rstr "確認", rstr "チェック"], ropt (ralt [rstr "する", rstr "します"])]),
    ty := AssertionType.TEXT_NOT_EXISTS, kind := ParamKind.text }

/-- Pattern table entry 56. -/
def pat056 : PatEntry :=
  { creg := Except.ok (rcat [ropt (RE.cls false [ClassItem.single '「']), RE.grp 1 (RE.rep1 false (RE.dot)), ropt (RE.cls false [ClassItem.single '」']), ralt [rstr "なんて", rstr "という"], ralt [rstr "テキスト", rstr "文字", rstr "メッセージ"], ralt [rstr "が", rstr "は"], ropt (ralt [rstr "表示されて", rstr "出て"]), ralt [rstr "いない", rstr "ない"], ralt [rstr "はず", rstr "だろう"], ralt [rstr "確認", rstr "チェック"], ropt (ralt [rstr "する", rstr "します"])]),
    ty := AssertionType.TEXT_NOT_EXISTS, kind := ParamKind.text }

/-- Pattern table entry 57. -/
def pat057 : PatEntry :=
  { creg := Except.ok (rcat [ralt [rstr "make sure", rstr "ensure", rstr "verify", rstr "check"], ropt (rcat [wsPlus, rstr "that"]), wsPlus, RE.cls false [ClassItem.single (Char.ofNat 34), ClassItem.single (Char.ofNat 39)], RE.grp 1 (RE.rep1 false (RE.dot)), RE.cls false [ClassItem.single (Char.ofNat 34), ClassItem.single (Char.ofNat 39)], wsPlus, ralt [rcat [rstr "is", wsPlus, ralt [rstr "present", rstr "shown", rstr "displayed", rstr "visible", rstr "there"]], ralt [rstr "appears", rstr "exists", rstr "shows up"]]]),
    ty := AssertionType.TEXT_EXISTS, kind := ParamKind.text }

/-- Pattern table entry 58. -/
def pat058 : PatEntry :=
  { creg := Except.ok (rcat [ralt [rstr "make sure", rstr "ensure", rstr "verify", rstr "check"], ropt (rcat [wsPlus, rstr "that"]), wsPlus, RE.cls false [ClassItem.single (Char.ofNat 34), ClassItem.single (Char.ofNat 39)], RE.grp 1 (RE.rep1 false (RE.dot)), RE.cls false [ClassItem.single (Char.ofNat 34), ClassItem.single (Char.ofNat 39)], wsPlus, ralt [rcat [rstr "is", wsPlus, rstr "not", wsPlus, ralt [rstr "present", rstr "shown", rstr "displayed", rstr "visible", rstr "there"]], rcat [rstr "does", wsPlus, rstr "not", wsPlus, ralt [rstr "appear", rstr "exist", rstr "show up"]]]]),
    ty := AssertionType.TEXT_NOT_EXISTS, kind := ParamKind.text }

/-- Pattern table entry 59. -/
def pat059 : PatEntry :=
  { creg := Except.ok (rcat [ropt (rcat [rstr "i", wsPlus, ralt [rstr "should", rstr "need to", rstr "want to"], wsPlus]), ralt [rstr "see", rstr "find", rstr "locate"], wsPlus, RE.cls false [ClassItem.single (Char.ofNat 34), ClassItem.single (Char.ofNat 39)], RE.grp 1 (RE.rep1 false (RE.dot)), RE.cls false [ClassItem.single (Char.ofNat 34), ClassItem.single (Char.ofNat 39)], wsPlus, ropt (rcat [rstr "on", wsPlus, ropt (rcat [rstr "the", wsPlus]), ralt [rstr "page", rstr "screen"]])]),
    ty := AssertionType.TEXT_EXISTS, kind := ParamKind.text }

/-- Pattern table entry 60. -/
def pat060 : PatEntry :=
  { creg := Except.ok (rcat [ropt (rcat [rstr "the", wsPlus]), ralt [rstr "page", rstr "screen"], wsPlus, ralt [rstr "should", rstr "must", rstr "needs to"], wsPlus, ralt [rstr "show", rstr "display", rstr "contain"], wsPlus, RE.cls false [ClassItem.single (Char.ofNat 34), ClassItem.single (Char.ofNat 39)], RE.grp 1 (RE.rep1 false (RE.dot)), RE.cls false [ClassItem.single (Char.ofNat 34), ClassItem.single (Char.ofNat 39)]]),
    ty := AssertionType.TEXT_EXISTS, kind := ParamKind.text }

/-- Pattern table entry 61. -/
def pat061 : PatEntry :=
  { creg := Except.ok (rcat [ralt [rstr "检查", rstr "确认", rstr "验证"], RE.cls false [ClassItem.single (Char.ofNat 34), ClassItem.single (Char.ofNat 39)], RE.grp 1 (RE.rep1 false (RE.dot)), RE.cls false [ClassItem.single (Char.ofNat 34), ClassItem.single (Char.ofNat 39)], ralt [rstr "是否", rstr "有没有"], ralt [rstr "显示", rstr "出现", rstr "存在"]]),
    ty := AssertionType.TEXT_EXISTS, kind := ParamKind.text }

/-- Pattern table entry 62. -/
def pat062 : PatEntry :=
  { creg := Except.ok (rcat [ralt [rstr "页面", rstr "屏幕"], ralt [rstr "上", rstr "中"], ralt [rstr "应该", rstr "必须", rstr "需要"], ralt [rstr "显示", rstr "包含", rstr "有"], RE.cls false [ClassItem.single (Char.ofNat 34), ClassItem.single (Char.ofNat 39)], RE.grp 1 (RE.rep1 false (RE.dot)), RE.cls false [ClassItem.single (Char.ofNat 34), ClassItem.single (Char.ofNat 39)]]),
    ty := AssertionType.TEXT_EXISTS, kind := ParamKind.text }

/-- Pattern table entry 63. -/
def pat063 : PatEntry :=
  { creg := Except.ok (rcat [ralt [rstr "确保", rstr "保证"], RE.cls false [ClassItem.single (Char.ofNat 34), ClassItem.single (Char.ofNat 39)], RE.grp 1 (RE.rep1 false (RE.dot)), RE.cls false [ClassItem.single (Char.ofNat 34), ClassItem.single (Char.ofNat 39)], ralt [rstr "在", rstr "于"], ralt [rstr "页面", rstr "屏幕"], ralt [rstr "上", rstr "中"], ralt [rstr "显示", rstr "出现"]]),
    ty := AssertionType.TEXT_EXISTS, kind := ParamKind.text }

/-- Pattern table entry 64. -/
def pat064 : PatEntry :=
  { creg := Except.ok (rcat [ropt (RE.cls false [ClassItem.single '「']), RE.grp 1 (RE.rep1 false (RE.dot)), ropt (RE.cls false [ClassItem.single '」']), ralt [rstr "が", rstr "って"], ralt [rstr "出てる", rstr "見える"], ralt [rstr "で", rstr "やん", rstr "やんか", rstr "わ", rstr "な"], ropt (ralt [rstr "？", rstr "?"])]),
    ty := AssertionType.TEXT_EXISTS, kind := ParamKind.text }

/-- Pattern table entry 65. -/
def pat065 : PatEntry :=
  { creg := Except.ok (rcat [ropt (RE.cls false [ClassItem.single '「']), RE.grp 1 (RE.rep1 false (RE.dot)), ropt (RE.cls false [ClassItem.single '」']), ralt [rstr "ちゃんと", rstr "きちんと"], ralt [rstr "表示されてる", rstr "出てる"], ralt [rstr "か", rstr "やろか", rstr "やん"], ralt [rstr "確認", rstr "見る"], ropt (ralt [rstr "し", rstr "しい", rstr "してや"])]),
    ty := AssertionType.TEXT_EXISTS, kind := ParamKind.text }

/-- Pattern table entry 66. -/
def pat066 : PatEntry :=
  { creg := Except.ok (rcat [ropt (RE.cls false [ClassItem.single '「']), RE.grp 1 (RE.rep1 false (RE.dot)), ropt (RE.cls false [ClassItem.single '」']), ralt [rstr "が", rstr "って"], ralt [rstr "表示されとる", rstr "出とる"], ralt [rstr "か", rstr "やろ", rstr "わ"], ralt [rstr "確認", rstr "チェック"]]),
    ty := AssertionType.TEXT_EXISTS, kind := ParamKind.text }

/-- Pattern table entry 67. -/
def pat067 : PatEntry :=
  { creg := Except.ok (rcat [ropt (RE.cls false [ClassItem.single '「']), RE.grp 1 (RE.rep1 false (RE.dot)), ropt (RE.cls false [ClassItem.single '」']), ralt [rstr "が", rstr "って"], ralt [rstr "出てる", rstr "見える"], ralt [rstr "べ", rstr "だべ", rstr "ぺ"], ropt (ralt [rstr "？", rstr "?"])]),
    ty := AssertionType.TEXT_EXISTS, kind := ParamKind.text }

/-- Pattern table entry 68. -/
def pat068 : PatEntry :=
  { creg := Except.ok (rcat [ropt (RE.cls false [ClassItem.single '「']), RE.grp 1 (RE.rep1 false (RE.dot)), ropt (RE.cls false [ClassItem.single '」']), ralt [rstr "ちゃんと", rstr "きちんと"], ralt [rstr "表示されてる", rstr "出てる"], ralt [rstr "べ", rstr "だべ"], ralt [rstr "か", rstr "が"], ralt [rstr "確認", rstr "見る"]]),
    ty := AssertionType.TEXT_EXISTS, kind := ParamKind.text }

/-- Pattern table entry 69. -/
def pat069 : PatEntry :=
  { creg := Except.ok (rcat [ropt (RE.cls false [ClassItem.single '「']), RE.grp 1 (RE.rep1 false (RE.dot)), ropt (RE.cls false [ClassItem.single '」']), ralt [rstr "が", rstr "って"], ralt [rstr "出てる", rstr "見える"], ralt [rstr "と", rstr "ばい", rstr "たい"], ropt (ralt [rstr "？", rstr "?"])]),
    ty := AssertionType.TEXT_EXISTS, kind := ParamKind.text }

/-- Pattern table entry 70. -/
def pat070 : PatEntry :=
  { creg := Except.ok (rcat [ropt (RE.cls false [ClassItem.single '「']), RE.grp 1 (RE.rep1 false (RE.dot)), ropt (RE.cls false [ClassItem.single '」']), ralt [rstr "ちゃんと", rstr "きちんと"], ralt [rstr "表示されてる", rstr "出てる"], ralt [rstr "と", rstr "ばい"], ralt [rstr "確認", rstr "見る"]]),
    ty := AssertionType.TEXT_EXISTS, kind := ParamKind.text }

/-- Pattern table entry 71. -/
def pat071 : PatEntry :=
  { creg := Except.ok (rcat [ralt [rstr "あっ", rstr "おっ", rstr "えっ"], ropt (RE.cls false [ClassItem.single '「']), RE.grp 1 (RE.rep1 false (RE.dot)), ropt (RE.cls false [ClassItem.single '」']), ralt [rstr "が", rstr "って"], ralt [rstr "表示されてる", rstr "出てる", rstr "見える"], ralt [rstr "じゃん", rstr "やん", rstr "ね"], ropt (ralt [rstr "！", rstr "!"]), ropt (ralt [rstr "確認", rstr "チェック"])]),
    ty := AssertionType.TEXT_EXISTS, kind := ParamKind.text }

/-- Pattern table entry 72. -/
def pat072 : PatEntry :=
  { creg := Except.ok (rcat [ralt [rstr "やっぱり", rstr "案の定", rstr "思った通り"], ropt (RE.cls false [ClassItem.single '「']), RE.grp 1 (RE.rep1 false (RE.dot)), ropt (RE.cls false [ClassItem.single '」']), ralt [rstr "が", rstr "って"], ralt [rstr "表示されてる", rstr "出てる", rstr "見える"], ralt [rstr "な", rstr "ね", rstr "わ"], ropt (ralt [rstr "確認", rstr "チェック"])]),
    ty := AssertionType.TEXT_EXISTS, kind := ParamKind.text }

/-- Pattern table entry 73. -/
def pat073 : PatEntry :=
  { creg := Except.ok (rcat [ropt (RE.cls false [ClassItem.single '「']), RE.grp 1 (RE.rep1 false (RE.dot)), ropt (RE.cls false [ClassItem.single '」']), ralt [rstr "が", rstr "って"], ralt [rstr "本当に", rstr "ちゃんと", rstr "きちんと"], ralt [rstr "表示されてる", rstr "出てる", rstr "見える"], ralt [rstr "かな", rstr "だろうか", rstr "のかしら"], ropt (ralt [rstr "？", rstr "?"]), ropt (ralt [rstr "確認", rstr "チェック"])]),
    ty := AssertionType.TEXT_EXISTS, kind := ParamKind.text }

/-- Pattern table entry 74. -/
def pat074 : PatEntry :=
  { creg := Except.ok (rcat [ropt (RE.cls false [ClassItem.single '「']), RE.grp 1 (RE.rep1 false (RE.dot)), ropt (RE.cls false [ClassItem.single '」']), ralt [rstr "が", rstr "って"], ralt [rstr "正しく", rstr "適切に", rstr "問題なく"], ralt [rstr "表示されてる", rstr "出てる", rstr "見える"], ralt [rstr "か", rstr "かな"], ralt [rstr "不安", rstr "心配"], ralt [rstr "だから", rstr "なので"], ralt [rstr "確認", rstr "チェック"]]),
    ty := AssertionType.TEXT_EXISTS, kind := ParamKind.text }

/-- Pattern table entry 75. -/
def pat075 : PatEntry :=
  { creg := Except.ok (rcat [ropt (RE.cls false [ClassItem.single '「']), RE.grp 1 (RE.rep1 false (RE.dot)), ropt (RE.cls false [ClassItem.single '」']), ralt [rstr "が", rstr "って"], ralt [rstr "絶対に", rstr "間違いなく", rstr "確実に", rstr "必ず"], ralt [rstr "表示されてる", rstr "出てる", rstr "見える"], ralt [rstr "はず", rstr "に違いない", rstr "と思う"], ropt (ralt [rstr "確認", rstr "チェック"])]),
    ty := AssertionType.TEXT_EXISTS, kind := ParamKind.text }

/-- Pattern table entry 76. -/
def pat076 : PatEntry :=
  { creg := Except.ok (rcat [ropt (RE.cls false [ClassItem.single '「']), RE.grp 1 (RE.rep1 false (RE.dot)), ropt (RE.cls false [ClassItem.single '」']), ralt [rstr "は", rstr "が"], ralt [rstr "当然", rstr "もちろん", rstr "当たり前に"], ralt [rstr "表示されてる", rstr "出てる", rstr "見える"], ralt [rstr "よね", rstr "でしょ", rstr "はず"], ropt (ralt [rstr "確認", rstr "チェック"])]),
    ty := AssertionType.TEXT_EXISTS, kind := ParamKind.text }

/-- Pattern table entry 77. -/
def pat077 : PatEntry :=
  { creg := Except.ok (rcat [ropt (RE.cls false [ClassItem.single '「']), RE.grp 1 (RE.rep1 false (RE.dot)), ropt (RE.cls false [ClassItem.single '」']), ralt [rstr "が", rstr "の"], ralt [rstr "レンダリング", rstr "描画", rstr "出力"], ralt [rstr "が", rstr "は"], ralt [rstr "正常", rstr "適切", rstr "問題なし"], ralt [rstr "か", rstr "かどうか"], ralt [rstr "確認", rstr "検証", rstr "チェック"]]),
    ty := AssertionType.TEXT_EXISTS, kind := ParamKind.text }

/-- Pattern table entry 78. -/
def pat078 : PatEntry :=
  { creg := Except.ok (rcat [ropt (RE.cls false [ClassItem.single '「']), RE.grp 1 (RE.rep1 false (RE.dot)), ropt (RE.cls false [ClassItem.single '」']), ralt [rstr "が", rstr "の"], ralt [rstr "DOM", rstr "HTML"], ralt [rstr "に", rstr "上で"], ralt [rstr "存在", rstr "表示"], ralt [rstr "している", rstr "してる"], ralt [rstr "か", rstr "かどうか"], ralt [rstr "確認", rstr "検証"]]),
    ty := AssertionType.TEXT_EXISTS, kind := ParamKind.text }

/-- Pattern table entry 79. -/
def pat079 : PatEntry :=
  { creg := Except.ok (rcat [ropt (RE.cls false [ClassItem.single '「']), RE.grp 1 (RE.rep1 false (RE.dot)), ropt (RE.cls false [ClassItem.single '」']), ralt [rstr "の", rstr "が"], ralt [rstr "UI", rstr "画面", rstr "インターフェース"], ralt [rstr "上", rstr "で"], ralt [rstr "表示", rstr "レンダリング"], ralt [rstr "されている", rstr "されてる"], ralt [rstr "確認", rstr "検証"]]),
    ty := AssertionType.TEXT_EXISTS, kind := ParamKind.text }

/-- Pattern table entry 80. -/
def pat080 : PatEntry :=
  { creg := Except.ok (rcat [ropt (RE.cls false [ClassItem.single '「']), RE.grp 1 (RE.rep1 false (RE.dot)), ropt (RE.cls false [ClassItem.single '」']), ralt [rstr "が", rstr "の"], ralt [rstr "期待値", rstr "想定値", rstr "予期値"], ralt [rstr "通り", rstr "どおり"], ralt [rstr "表示", rstr "出力"], ralt [rstr "されている", rstr "されてる"], ralt [rstr "確認", rstr "検証", rstr "テスト"]]),
    ty := AssertionType.TEXT_EXISTS, kind := ParamKind.text }

/-- Pattern table entry 81. -/
def pat081 : PatEntry :=
  { creg := Except.ok (rcat [ropt (RE.cls false [ClassItem.single '「']), RE.grp 1 (RE.rep1 false (RE.dot)), ropt (RE.cls false [ClassItem.single '」']), ralt [rstr "の", rstr "が"], ralt [rstr "表示", rstr "出力"], ralt [rstr "に関する", rstr "について"], ralt [rstr "回帰テスト", rstr "リグレッションテスト", rstr "検証"]]),
    ty := AssertionType.TEXT_EXISTS, kind := ParamKind.text }

/-- Pattern table entry 82. -/
def pat082 : PatEntry :=
  { creg := Except.ok (rcat [ropt (RE.cls false [ClassItem.single '「']), RE.grp 1 (RE.rep1 false (RE.dot)), ropt (RE.cls false [ClassItem.single '」']), ralt [rstr "が", rstr "の"], ralt [rstr "アサーション", rstr "assertion"], ralt [rstr "として", rstr "で"], ralt [rstr "期待", rstr "想定"], ralt [rstr "されている", rstr "されてる"], ralt [rstr "確認", rstr "検証"]]),
    ty := AssertionType.TEXT_EXISTS, kind := ParamKind.text }

/-- Pattern table entry 83. -/
def pat083 : PatEntry :=
  { creg := Except.ok (rcat [ropt (RE.cls false [ClassItem.single '「']), RE.grp 1 (RE.rep1 false (RE.dot)), ropt (RE.cls false [ClassItem.single '」']), ralt [rstr "が", rstr "って"], ralt [rstr "前は", rstr "以前は", rstr "昨日は"], ralt [rstr "表示されて", rstr "出て"], ralt [rstr "いた", rstr "た"], ralt [rstr "か", rstr "かな"], ralt [rstr "確認", rstr "チェック"]]),
    ty := AssertionType.TEXT_EXISTS, kind := ParamKind.text }

/-- Pattern table entry 84. -/
def pat084 : PatEntry :=
  { creg := Except.ok (rcat [ropt (RE.cls false [ClassItem.single '「']), RE.grp 1 (RE.rep1 false (RE.dot)), ropt (RE.cls false [ClassItem.single '」']), ralt [rstr "が", rstr "って"], ralt [rstr "さっき", rstr "先ほど", rstr "今しがた"], ralt [rstr "表示されて", rstr "出て"], ralt [rstr "いた", rstr "た"], ralt [rstr "はず", rstr "と思う"], ralt [rstr "確認", rstr "チェック"]]),
    ty := AssertionType.TEXT_EXISTS, kind := ParamKind.text }

/-- Pattern table entry 85. -/
def pat085 : PatEntry :=
  { creg := Except.ok (rcat [ropt (RE.cls false [ClassItem.single '「']), RE.grp 1 (RE.rep1 false (RE.dot)), ropt (RE.cls false [ClassItem.single '」']), ralt [rstr "が", rstr "って"], ralt [rstr "これから", rstr "今後", rstr "後で"], ralt [rstr "表示される", rstr "出る"], ralt [rstr "はず", rstr "だろう", rstr "と思う"], ralt [rstr "確認", rstr "チェック"]]),
    ty := AssertionType.TEXT_EXISTS, kind := ParamKind.text }

/-- Pattern table entry 86. -/
def pat086 : PatEntry :=
  { creg := Except.ok (rcat [ropt (RE.cls false [ClassItem.single '「']), RE.grp 1 (RE.rep1 false (RE.dot)), ropt (RE.cls false [ClassItem.single '」']), ralt [rstr "が", rstr "って"], ralt [rstr "きっと", rstr "おそらく", rstr "たぶん"], ralt [rstr "表示される", rstr "出る"], ralt [rstr "だろう", rstr "と思う"], ralt [rstr "確認", rstr "チェック"]]),
    ty := AssertionType.TEXT_EXISTS, kind := ParamKind.text }

/-- Pattern table entry 87. -/
def pat087 : PatEntry :=
  { creg := Except.ok (rcat [ralt [rstr "もし", rstr "if"], ropt (RE.cls false [ClassItem.single '「']), RE.grp 1 (RE.rep1 false (RE.dot)), ropt (RE.cls false [ClassItem.single '」']), ralt [rstr "が", rstr "って"], ralt [rstr "表示されて", rstr "出て"], ralt [rstr "いて", rstr "て"], ralt [rstr "、かつ", rstr "、そして", rstr "、なおかつ"], ralt [rstr "正常", rstr "適切", rstr "問題なし"], ralt [rstr "なら", rstr "であれば"], ralt [rstr "確認", rstr "検証"]]),
    ty := AssertionType.TEXT_EXISTS, kind := ParamKind.text }

/-- Pattern table entry 88. -/
def pat088 : PatEntry :=
  { creg := Except.ok (rcat [ropt (RE.cls false [ClassItem.single '「']), RE.grp 1 (RE.rep1 false (RE.dot)), ropt (RE.cls false [ClassItem.single '」']), ralt [rstr "が", rstr "って"], ralt [rstr "表示されて", rstr "出て"], ralt [rstr "いる", rstr "る"], ralt [rstr "こと", rstr "の"], ralt [rstr "を", rstr "について"], ralt [rstr "前提", rstr "条件"], ralt [rstr "として", rstr "に"], ralt [rstr "確認", rstr "検証"]]),
    ty := AssertionType.TEXT_EXISTS, kind := ParamKind.text }

/-- Pattern table entry 89. -/
def pat089 : PatEntry :=
  { creg := Except.ok (rcat [ropt (RE.cls false [ClassItem.single '「']), RE.grp 1 (RE.rep1 false (RE.dot)), ropt (RE.cls false [ClassItem.single '」']), ralt [rstr "が", rstr "って"], ralt [rstr "表示されて", rstr "出て"], ralt [rstr "いない", rstr "ない"], ralt [rstr "かも", rstr "かもしれない", rstr "可能性"], ralt [rstr "だから", rstr "なので"], ralt [rstr "確認", rstr "チェック"]]),
    ty := AssertionType.TEXT_NOT_EXISTS, kind := ParamKind.text }

/-- Pattern table entry 90. -/
def pat090 : PatEntry :=
  { creg := Except.ok (rcat [ropt (RE.cls false [ClassItem.single '「']), RE.grp 1 (RE.rep1 false (RE.dot)), ropt (RE.cls false [ClassItem.single '」']), ralt [rstr "が", rstr "って"], ralt [rstr "もう", rstr "既に"], ralt [rstr "表示されて", rstr "出て"], ralt [rstr "いない", rstr "ない"], ralt [rstr "はず", rstr "だろう", rstr "と思う"], ralt [rstr "確認", rstr "チェック"]]),
    ty := AssertionType.TEXT_NOT_EXISTS, kind := ParamKind.text }

/-- Pattern table entry 91. -/
def pat091 : PatEntry :=
  { creg := Except.ok (rcat [ropt (RE.cls false [ClassItem.single '「']), RE.grp 1 (RE.rep1 false (RE.dot)), ropt (RE.cls false [ClassItem.single '」']), ralt [rstr "が", rstr "の"], ralt [rstr "表示", rstr "出力"], ralt [rstr "について", rstr "に関して"], ralt [rstr "ご確認", rstr "確認"], ralt [rstr "いただき", rstr "して"], ralt [rstr "たい", rstr "ください", rstr "お願いします"]]),
    ty := AssertionType.TEXT_EXISTS, kind := ParamKind.text }

/-- Pattern table entry 92. -/
def pat092 : PatEntry :=
  { creg := Except.ok (rcat [ropt (RE.cls false [ClassItem.single '「']), RE.grp 1 (RE.rep1 false (RE.dot)), ropt (RE.cls false [ClassItem.single '」']), ralt [rstr "の", rstr "が"], ralt [rstr "表示状況", rstr "存在確認"], ralt [rstr "について", rstr "に関して"], ralt [rstr "お調べ", rstr "調査"], ralt [rstr "いただき", rstr "して"], ralt [rstr "たい", rstr "ください"]]),
    ty := AssertionType.TEXT_EXISTS, kind := ParamKind.text }

/-- Pattern table entry 93. -/
def pat093 : PatEntry :=
  { creg := Except.ok (rcat [ropt (RE.cls false [ClassItem.single '「']), RE.grp 1 (RE.rep1 false (RE.dot)), ropt (RE.cls false [ClassItem.single '」']), ralt [rstr "が", rstr "の"], ralt [rstr "表示", rstr "存在"], ralt [rstr "について", rstr "に関して"], ralt [rstr "拝見", rstr "確認"], ralt [rstr "させて", rstr "して"], ralt [rstr "いただき", RE.eps], ralt [rstr "たい", rstr "ます"]]),
    ty := AssertionType.TEXT_EXISTS, kind := ParamKind.text }

/-- Pattern table entry 94. -/
def pat094 : PatEntry :=
  { creg := Except.ok (rcat [ropt (RE.cls false [ClassItem.single '「']), RE.grp 1 (RE.rep1 false (RE.dot)), ropt (RE.cls false [ClassItem.single '」']), ralt [rstr "の", rstr "が"], ralt [rstr "表示確認", rstr "存在確認"], ralt [rstr "を", rstr "について"], ralt [rstr "実施", rstr "行わ"], ralt [rstr "せて", rstr "して"], ralt [rstr "いただき", RE.eps], ralt [rstr "たい", rstr "ます"]]),
    ty := AssertionType.TEXT_EXISTS, kind := ParamKind.text }

/-- Pattern table entry 95. -/
def pat095 : PatEntry :=
  { creg := Except.ok (rcat [ralt [rstr "現在表示中", rstr "表示されている", rstr "アクセス中"], ralt [rstr "の", rstr "している"], ralt [rstr "URL", rstr "アドレス", rstr "ページ"], ralt [rstr "が", rstr "に", rstr "で"], ropt (RE.cls false [ClassItem.single '「']), RE.grp 1 (RE.rep1 false (RE.dot)), ropt (RE.cls false [ClassItem.single '」']), ralt [rstr "が", rstr "を"], ralt [rstr "含んで", rstr "含有して", rstr "内包して"], ralt [rstr "いる", rstr "いること"], ralt [rstr "を", rstr "について"], ralt [rstr "確認", rstr "検証", rstr "チェック"]]),
    ty := AssertionType.URL_CONTAINS, kind := ParamKind.url }

/-- Pattern table entry 96. -/
def pat096 : PatEntry :=
  { creg := Except.ok (rcat [ralt [rstr "ブラウザ", rstr "画面"], ralt [rstr "の", rstr "で"], ralt [rstr "アドレスバー", rstr "URL欄"], ralt [rstr "が", rstr "に", rstr "で"], ropt (RE.cls false [ClassItem.single '「']), RE.grp 1 (RE.rep1 false (RE.dot)), ropt (RE.cls false [ClassItem.single '」']), ralt [rstr "で", rstr "から"], ralt [rstr "開始", rstr "スタート"], ralt [rstr "している", rstr "してる"], ralt [rstr "確認", rstr "検証"]]),
    ty := AssertionType.URL_STARTS_WITH, kind := ParamKind.url }

/-- Pattern table entry 97. -/
def pat097 : PatEntry :=
  { creg := Except.ok (rcat [ralt [rstr "WebページのURL", rstr "サイトアドレス"], ralt [rstr "が", rstr "は"], ropt (RE.cls false [ClassItem.single '「']), RE.grp 1 (RE.rep1 false (RE.dot)), ropt (RE.cls false [ClassItem.single '」']), ralt [rstr "で", rstr "にて"], ralt [rstr "終了", rstr "終わっ", rstr "完了"], ralt [rstr "している", rstr "してる"], ralt [rstr "確認", rstr "検証"]]),
    ty := AssertionType.URL_ENDS_WITH, kind := ParamKind.url }

/-- Pattern table entry 98. -/
def pat098 : PatEntry :=
  { creg := Except.ok (rcat [ralt [rstr "ブラウザ", rstr "タブ"], ralt [rstr "の", rstr "で"], ralt [rstr "タイトルバー", rstr "題名欄", rstr "ヘッダー"], ralt [rstr "が", rstr "に", rstr "で"], ropt (RE.cls false [ClassItem.single '「']), RE.grp 1 (RE.rep1 false (RE.dot)), ropt (RE.cls false [ClassItem.single '」']), ralt [rstr "が", rstr "を"], ralt [rstr "含んで", rstr "含有して"], ralt [rstr "いる", rstr "いること"], ralt [rstr "確認", rstr "検証"]]),
    ty := AssertionType.TITLE_CONTAINS, kind := ParamKind.title }

/-- Pattern table entry 99. -/
def pat099 : PatEntry :=
  { creg := Except.ok (rcat [ralt [rstr "Webページ", rstr "サイト"], ralt [rstr "の", rstr "で"], ralt [rstr "メタタイトル", rstr "ページタイトル"], ralt [rstr "が", rstr "は"], ropt (RE.cls false [ClassItem.single '「']), RE.grp 1 (RE.rep1 false (RE.dot)), ropt (RE.cls false [ClassItem.single '」']), ralt [rstr "と", rstr "に"], ralt [rstr "完全一致", rstr "正確に一致"], ralt [rstr "している", rstr "してる"], ralt [rstr "確認", rstr "検証"]]),
    ty := AssertionType.TITLE_EQUALS, kind := ParamKind.title }

/-- Pattern table entry 100. -/
def pat100 : PatEntry :=
  { creg := Except.ok (rcat [ralt [rstr "yo", rstr "hey", rstr "ok", rstr "so"], ropt (RE.ch ','), wsStar, ralt [rstr "is", rstr "does"], wsStar, RE.cls false [ClassItem.single (Char.ofNat 34), ClassItem.single (Char.ofNat 39)], RE.grp 1 (RE.rep1 false (RE.dot)), RE.cls false [ClassItem.single (Char.ofNat 34), ClassItem.single (Char.ofNat 39)], wsStar, ralt [rstr "show up", rstr "appear", rstr "display", rstr "show"], ropt (rcat [wsPlus, ralt [rstr "on", rstr "in"], wsPlus, ropt (rcat [rstr "the", wsPlus]), ralt [rstr "page", rstr "screen"]])]),
    ty := AssertionType.TEXT_EXISTS, kind := ParamKind.text }

/-- Pattern table entry 101. -/
def pat101 : PatEntry :=
  { creg := Except.ok (rcat [ralt [rcat [rstr "can", wsPlus, ralt [rstr "you", rstr "i", rstr "we"]], rcat [rstr "could", wsPlus, ralt [rstr "you", rstr "i", rstr "we"]]], wsStar, ralt [rstr "see", rstr "find", rstr "spot", rstr "locate"], wsStar, RE.cls false [ClassItem.single (Char.ofNat 34), ClassItem.single (Char.ofNat 39)], RE.grp 1 (RE.rep1 false (RE.dot)), RE.cls false [ClassItem.single (Char.ofNat 34), ClassItem.single (Char.ofNat 39)], ropt (rcat [wsPlus, ralt [rstr "on", rstr "in"], wsPlus, ropt (rcat [rstr "the", wsPlus]), ralt [rstr "page", rstr "screen"]])]),
    ty := AssertionType.TEXT_EXISTS, kind := ParamKind.text }

/-- Pattern table entry 102. -/
def pat102 : PatEntry :=
  { creg := Except.ok (rcat [ralt [rstr "looks like", rstr "seems like", rstr "appears that"], wsStar, RE.cls false [ClassItem.single (Char.ofNat 34), ClassItem.single (Char.ofNat 39)], RE.grp 1 (RE.rep1 false (RE.dot)), RE.cls false [ClassItem.single (Char.ofNat 34), ClassItem.single (Char.ofNat 39)], wsStar, ralt [rstr "is", rstr "shows", rstr "appears", rstr "displays"], ropt (rcat [wsPlus, ralt [rstr "on", rstr "in"], wsPlus, ropt (rcat [rstr "the", wsPlus]), ralt [rstr "page", rstr "screen"]])]),
    ty := AssertionType.TEXT_EXISTS, kind := ParamKind.text }

/-- Pattern table entry 103. -/
def pat103 : PatEntry :=
  { creg := Except.ok (rcat [ropt (rcat [rstr "please", wsPlus]), ralt [rstr "validate", rstr "verify", rstr "confirm", rstr "check"], wsPlus, ropt (rcat [rstr "that", wsPlus]), ropt (rcat [rstr "the", wsPlus]), ralt [rstr "text", rstr "content", rstr "element"], wsPlus, RE.cls false [ClassItem.single (Char.ofNat 34), ClassItem.single (Char.ofNat 39)], RE.grp 1 (RE.rep1 false (RE.dot)), RE.cls false [ClassItem.single (Char.ofNat 34), ClassItem.single (Char.ofNat 39)], wsPlus, ropt (rcat [rstr "is", wsPlus]), ralt [rstr "present", rstr "visible", rstr "displayed", rstr "shown"]]),
    ty := AssertionType.TEXT_EXISTS, kind := ParamKind.text }

/-- Pattern table entry 104. -/
def pat104 : PatEntry :=
  { creg := Except.ok (rcat [ropt (rcat [rstr "we", wsPlus, ralt [rstr "need", rstr "must", rstr "should"], wsPlus, rstr "to", wsPlus]), ralt [rstr "ensure", rstr "verify", rstr "confirm"], wsPlus, ropt (rcat [rstr "that", wsPlus]), RE.cls false [ClassItem.single (Char.ofNat 34), ClassItem.single (Char.ofNat 39)], RE.grp 1 (RE.rep1 false (RE.dot)), RE.cls false [ClassItem.single (Char.ofNat 34), ClassItem.single (Char.ofNat 39)], wsPlus, ralt [rstr "appears", rstr "shows", rstr "displays", rcat [rstr "is", wsPlus, rstr "visible"]]]),
    ty := AssertionType.TEXT_EXISTS, kind := ParamKind.text }

/-- Pattern table entry 105. -/
def pat105 : PatEntry :=
  { creg := Except.ok (rcat [ropt (rcat [rstr "it", wsPlus, rstr "is", wsPlus]), ralt [rstr "required", rstr "necessary", rstr "essential"], wsPlus, ropt (rcat [rstr "that", wsPlus]), RE.cls false [ClassItem.single (Char.ofNat 34), ClassItem.single (Char.ofNat 39)], RE.grp 1 (RE.rep1 false (RE.dot)), RE.cls false [ClassItem.single (Char.ofNat 34), ClassItem.single (Char.ofNat 39)], wsPlus, ralt [rstr "be", rstr "is"], wsPlus, ralt [rstr "present", rstr "visible", rstr "displayed"]]),
    ty := AssertionType.TEXT_EXISTS, kind := ParamKind.text }

/-- Pattern table entry 106. -/
def pat106 : PatEntry :=
  { creg := Except.ok (rcat [ralt [rcat [rstr "do", wsPlus, ralt [rstr "you", rstr "we"]], rcat [rstr "can", wsPlus, ralt [rstr "you", rstr "we"]], rcat [rstr "should", wsPlus, ralt [rstr "we", rstr "i"]]], wsPlus, ralt [rstr "see", rstr "find", rstr "verify", rstr "check"], wsPlus, ropt (rcat [rstr "if", wsPlus]), RE.cls false [ClassItem.single (Char.ofNat 34), ClassItem.single (Char.ofNat 39)], RE.grp 1 (RE.rep1 false (RE.dot)), RE.cls false [ClassItem.single (Char.ofNat 34), ClassItem.single (Char.ofNat 39)], wsPlus, ropt (rcat [rstr "is", wsPlus]), ralt [rstr "there", rstr "present", rstr "visible", rstr "shown"]]),
    ty := AssertionType.TEXT_EXISTS, kind := ParamKind.text }

/-- Pattern table entry 107. -/
def pat107 : PatEntry :=
  { creg := Except.ok (rcat [ralt [rstr "is", rstr "are", rstr "does"], wsPlus, RE.cls false [ClassItem.single (Char.ofNat 34), ClassItem.single (Char.ofNat 39)], RE.grp 1 (RE.rep1 false (RE.dot)), RE.cls false [ClassItem.single (Char.ofNat 34), ClassItem.single (Char.ofNat 39)], wsPlus, ropt (rcat [rstr "currently", wsPlus]), ralt [rstr "showing", rstr "displayed", rstr "visible", rstr "present"], ropt (rcat [wsPlus, ralt [rstr "on", rstr "in"], wsPlus, ropt (rcat [rstr "the", wsPlus]), ralt [rstr "page", rstr "screen"]])]),
    ty := AssertionType.TEXT_EXISTS, kind := ParamKind.text }

/-- Pattern table entry 108. -/
def pat108 : PatEntry :=
  { creg := Except.ok (rcat [ralt [rstr "看看", rstr "瞅瞅", rstr "瞧瞧"], RE.cls false [ClassItem.single (Char.ofNat 34), ClassItem.single (Char.ofNat 39)], RE.grp 1 (RE.rep1 false (RE.dot)), RE.cls false [ClassItem.single (Char.ofNat 34), ClassItem.single (Char.ofNat 39)], ralt [rstr "有没有", rstr "是否"], ralt [rstr "显示", rstr "出现", rstr "存在"], ropt (ralt [rstr "了", rstr "呢", rstr "吗", rstr "嗎"])]),
    ty := AssertionType.TEXT_EXISTS, kind := ParamKind.text }

/-- Pattern table entry 109. -/
def pat109 : PatEntry :=
  { creg := Except.ok (rcat [RE.cls false [ClassItem.single (Char.ofNat 34), ClassItem.single (Char.ofNat 39)], RE.grp 1 (RE.rep1 false (RE.dot)), RE.cls false [ClassItem.single (Char.ofNat 34), ClassItem.single (Char.ofNat 39)], ralt [rstr "应该", rstr "应当", rstr "估计", rstr "可能"], ralt [rstr "会", rstr "要"], ralt [rstr "显示", rstr "出现", rstr "存在"], ralt [rstr "吧", rstr "呢", rstr "了"], ropt (ralt [rstr "，", rstr ","]), ralt [rstr "检查", rstr "确认", rstr "验证"], ralt [rstr "一下", rstr "下"]]),
    ty := AssertionType.TEXT_EXISTS, kind := ParamKind.text }

/-- Pattern table entry 110. -/
def pat110 : PatEntry :=
  { creg := Except.ok (rcat [ralt [rstr "请", rstr "請"], ralt [rstr "您", rstr "你们", rstr "大家"], ralt [rstr "协助", rstr "帮助", rstr "帮忙"], ralt [rstr "确认", rstr "检查", rstr "验证"], RE.cls false [ClassItem.single (Char.ofNat 34), ClassItem.single (Char.ofNat 39)], RE.grp 1 (RE.rep1 false (RE.dot)), RE.cls false [ClassItem.single (Char.ofNat 34), ClassItem.single (Char.ofNat 39)], ralt [rstr "的", rstr "之"], ralt [rstr "显示", rstr "存在", rstr "出现"], ralt [rstr "情况", rstr "状态", rstr "状况"]]),
    ty := AssertionType.TEXT_EXISTS, kind := ParamKind.text }

/-- Pattern table entry 111. -/
def pat111 : PatEntry :=
  { creg := Except.ok (rcat [ralt [rstr "需要", rstr "必须", rstr "须要"], ralt [rstr "对", rstr "针对"], RE.cls false [ClassItem.single (Char.ofNat 34), ClassItem.single (Char.ofNat 39)], RE.grp 1 (RE.rep1 false (RE.dot)), RE.cls false [ClassItem.single (Char.ofNat 34), ClassItem.single (Char.ofNat 39)], ralt [rstr "进行", rstr "开展", rstr "实施"], ralt [rstr "显示", rstr "存在"], ralt [rstr "性", rstr "状态"], ralt [rstr "确认", rstr "检查", rstr "验证"]]),
    ty := AssertionType.TEXT_EXISTS, kind := ParamKind.text }

/-- Pattern table entry 112. -/
def pat112 : PatEntry :=
  { creg := Except.error "nothing to repeat at position 83",
    ty := AssertionType.TEXT_EXISTS, kind := ParamKind.text }

/-- Pattern table entry 113. -/
def pat113 : PatEntry :=
  { creg := Except.error "nothing to repeat at position 92",
    ty := AssertionType.TEXT_EXISTS, kind := ParamKind.text }

/-- Pattern table entry 114. -/
def pat114 : PatEntry :=
  { creg := Except.ok (rcat [ropt (RE.cls false [ClassItem.single '「']), RE.grp 1 (RE.rep1 false (RE.dot)), ropt (RE.cls false [ClassItem.single '」']), ralt [rstr "ボタン", rstr "button", rstr "Button", rstr "按钮", rstr "按鈕"], ralt [rstr "が", rstr "は"], ralt [rstr "表示", rstr "存在", rstr "クリック可能", rstr "押せる", rstr "有効"], ralt [rstr "になって", rstr "で", rstr "に"], ralt [rstr "いる", rstr "いること"], ropt (ralt [rstr "を", rstr "について"]), ralt [rstr "確認", rstr "検証", rstr "チェック"]]),
    ty := AssertionType.ELEMENT_EXISTS, kind := ParamKind.other "button" }

/-- Pattern table entry 115. -/
def pat115 : PatEntry :=
  { creg := Except.ok (rcat [ropt (RE.cls false [ClassItem.single '「']), RE.grp 1 (RE.rep1 false (RE.dot)), ropt (RE.cls false [ClassItem.single '」']), ralt [rstr "を", rstr "の"], ralt [rstr "クリック", rstr "押す", rstr "タップ", rstr "click"], ralt [rstr "できる", rstr "可能"], ralt [rstr "か", rstr "かどうか"], ralt [rstr "確認", rstr "検証", rstr "チェック"]]),
    ty := AssertionType.ELEMENT_ENABLED, kind := ParamKind.other "button" }

/-- Pattern table entry 116. -/
def pat116 : PatEntry :=
  { creg := Except.ok (rcat [ropt (RE.cls false [ClassItem.single '「']), RE.grp 1 (RE.rep1 false (RE.dot)), ropt (RE.cls false [ClassItem.single '」']), ralt [rstr "ボタン", rstr "button"], ralt [rstr "が", rstr "は"], ralt [rstr "無効", rstr "押せない", rstr "クリックできない", rstr "disabled"], ralt [rstr "になって", rstr "で"], ralt [rstr "いる", rstr "いること"], ralt [rstr "確認", rstr "検証"]]),
    ty := AssertionType.ELEMENT_DISABLED, kind := ParamKind.other "button" }

/-- Pattern table entry 117. -/
def pat117 : PatEntry :=
  { creg := Except.ok (rcat [ropt (RE.cls false [ClassItem.single '「']), RE.grp 1 (RE.rep1 false (RE.dot)), ropt (RE.cls false [ClassItem.single '」']), ralt [rstr "リンク", rstr "link", rstr "Link", rstr "链接", rstr "鏈接"], ralt [rstr "が", rstr "は"], ralt [rstr "表示", rstr "存在", rstr "クリック可能", rstr "有効"], ralt [rstr "になって", rstr "で", rstr "に"], ralt [rstr "いる", rstr "いること"], ropt (ralt [rstr "を", rstr "について"]), ralt [rstr "確認", rstr "検証", rstr "チェック"]]),
    ty := AssertionType.ELEMENT_EXISTS, kind := ParamKind.other "link" }

/-- Pattern table entry 118. -/
def pat118 : PatEntry :=
  { creg := Except.ok (rcat [ropt (RE.cls false [ClassItem.single '「']), RE.grp 1 (RE.rep1 false (RE.dot)), ropt (RE.cls false [ClassItem.single '」']), ralt [rstr "へのリンク", rstr "のリンク", rstr "へのリンク先"], ralt [rstr "が", rstr "は"], ralt [rstr "正しく", rstr "適切に"], ralt [rstr "設定", rstr "機能"], ralt [rstr "されて", rstr "して"], ralt [rstr "いる", rstr "いること"], ralt [rstr "確認", rstr "検証"]]),
    ty := AssertionType.ELEMENT_EXISTS, kind := ParamKind.other "link" }

/-- Pattern table entry 119. -/
def pat119 : PatEntry :=
  { creg := Except.ok (rcat [ropt (RE.cls false [ClassItem.single '「']), RE.grp 1 (RE.rep1 false (RE.dot)), ropt (RE.cls false [ClassItem.single '」']), ralt [rstr "入力欄", rstr "フィールド", rstr "テキストボックス", rstr "input", rstr "field"], ralt [rstr "が", rstr "は", rstr "に"], ralt [rstr "空", rstr "から", rstr "empty", rstr "blank"], ralt [rstr "である", rstr "になって", rstr "で"], ralt [rstr "いる", rstr "いること"], ralt [rstr "確認", rstr "検証"]]),
    ty := AssertionType.INPUT_VALUE_EQUALS, kind := ParamKind.other "input_empty" }

/-- Pattern table entry 120. -/
def pat120 : PatEntry :=
  { creg := Except.ok (rcat [ropt (RE.cls false [ClassItem.single '「']), RE.grp 1 (RE.rep1 false (RE.dot)), ropt (RE.cls false [ClassItem.single '」']), ralt [rstr "入力欄", rstr "フィールド", rstr "テキストボックス"], ralt [rstr "に", rstr "へ"], ralt [rstr "何か", rstr "値", rstr "データ"], ralt [rstr "が", rstr "を"], ralt [rstr "入力", rstr "設定"], ralt [rstr "されて", rstr "できて"], ralt [rstr "いる", rstr "いること"], ralt [rstr "確認", rstr "検証"]]),
    ty := AssertionType.INPUT_VALUE_CONTAINS, kind := ParamKind.other "input_any" }

/-- Pattern table entry 121. -/
def pat121 : PatEntry :=
  { creg := Except.ok (rcat [ropt (RE.cls false [ClassItem.single '「']), RE.grp 1 (RE.rep1 false (RE.dot)), ropt (RE.cls false [ClassItem.single '」']), ralt [rstr "プルダウン", rstr "ドロップダウン", rstr "セレクトボックス", rstr "select"], ralt [rstr "で", rstr "から"], ropt (RE.cls false [ClassItem.single '「']), RE.grp 2 (RE.rep1 false (RE.dot)), ropt (RE.cls false [ClassItem.single '」']), ralt [rstr "が", rstr "を"], ralt [rstr "選択", rstr "選ばれて"], ralt [rstr "いる", rstr "いること"], ralt [rstr "確認", rstr "検証"]]),
    ty := AssertionType.INPUT_VALUE_EQUALS, kind := ParamKind.other "select_value" }

/-- Pattern table entry 122. -/
def pat122 : PatEntry :=
  { creg := Except.ok (rcat [ropt (RE.cls false [ClassItem.single '「']), RE.grp 1 (RE.rep1 false (RE.dot)), ropt (RE.cls false [ClassItem.single '」']), ralt [rstr "の選択肢", rstr "のオプション"], ralt [rstr "に", rstr "で"], ropt (RE.cls false [ClassItem.single '「']), RE.grp 2 (RE.rep1 false (RE.dot)), ropt (RE.cls false [ClassItem.single '」']), ralt [rstr "が", rstr "を"], ralt [rstr "含まれて", rstr "存在して"], ralt [rstr "いる", rstr "いること"], ralt [rstr "確認", rstr "検証"]]),
    ty := AssertionType.ELEMENT_EXISTS, kind := ParamKind.other "select_option" }

/-- Pattern table entry 123. -/
def pat123 : PatEntry :=
  { creg := Except.ok (rcat [ralt [rstr "ページ", rstr "画面", rstr "サイト"], ralt [rstr "が", rstr "の"], ralt [rstr "読み込み中", rstr "ローディング中", rstr "loading", rstr "載入中"], ralt [rstr "でない", rstr "ではない"], ralt [rstr "こと", rstr "ことを"], ralt [rstr "確認", rstr "検証"]]),
    ty := AssertionType.ELEMENT_NOT_EXISTS, kind := ParamKind.other "loading" }

/-- Pattern table entry 124. -/
def pat124 : PatEntry :=
  { creg := Except.ok (rcat [ralt [rstr "ローディング", rstr "読み込み", rstr "スピナー", rstr "spinner"], ralt [rstr "が", rstr "は"], ralt [rstr "消えて", rstr "終わって", rstr "完了して"], ralt [rstr "いる", rstr "いること"], ralt [rstr "確認", rstr "検証"]]),
    ty := AssertionType.ELEMENT_NOT_EXISTS, kind := ParamKind.other "loading" }

/-- Pattern table entry 125. -/
def pat125 : PatEntry :=
  { creg := Except.ok (rcat [ralt [rstr "エラー", rstr "error", rstr "Error", rstr "错误", rstr "錯誤"], ralt [rstr "メッセージ", rstr "表示", rstr "画面"], ralt [rstr "が", rstr "は"], ralt [rstr "出て", rstr "表示されて"], ralt [rstr "いない", rstr "ない"], ralt [rstr "こと", rstr "ことを"], ralt [rstr "確認", rstr "検証"]]),
    ty := AssertionType.TEXT_NOT_EXISTS, kind := ParamKind.other "error" }

/-- Pattern table entry 126. -/
def pat126 : PatEntry :=
  { creg := Except.ok (rcat [ralt [rstr "警告", rstr "warning", rstr "Warning", rstr "警告信息"], ralt [rstr "が", rstr "は"], ralt [rstr "表示されて", rstr "出て"], ralt [rstr "いない", rstr "ない"], ralt [rstr "こと", rstr "ことを"], ralt [rstr "確認", rstr "検証"]]),
    ty := AssertionType.TEXT_NOT_EXISTS, kind := ParamKind.other "warning" }

/-- Pattern table entry 127. -/
def pat127 : PatEntry :=
  { creg := Except.ok (rcat [ralt [rstr "成功", rstr "success", rstr "Success", rstr "成功信息"], ralt [rstr "メッセージ", rstr "表示"], ralt [rstr "が", rstr "は"], ralt [rstr "表示されて", rstr "出て"], ralt [rstr "いる", rstr "いること"], ralt [rstr "確認", rstr "検証"]]),
    ty := AssertionType.TEXT_EXISTS, kind := ParamKind.other "success" }

/-- Pattern table entry 128. -/
def pat128 : PatEntry :=
  { creg := Except.ok (rcat [ralt [rstr "完了", rstr "完成", rstr "complete", rstr "Complete"], ralt [rstr "メッセージ", rstr "表示", rstr "画面"], ralt [rstr "が", rstr "は"], ralt [rstr "表示されて", rstr "出て"], ralt [rstr "いる", rstr "いること"], ralt [rstr "確認", rstr "検証"]]),
    ty := AssertionType.TEXT_EXISTS, kind := ParamKind.other "complete" }

/-- Pattern table entry 129. -/
def pat129 : PatEntry :=
  { creg := Except.ok (rcat [ropt (RE.cls false [ClassItem.single '「']), RE.grp 1 (RE.rep1 false (RE.dot)), ropt (RE.cls false [ClassItem.single '」']), ralt [rstr "画像", rstr "イメージ", rstr "image", rstr "Image", rstr "图片", rstr "圖片"], ralt [rstr "が", rstr "は"], ralt [rstr "表示", rstr "ロード", rstr "読み込まれて"], ralt [rstr "いる", rstr "いること"], ralt [rstr "確認", rstr "検証"]]),
    ty := AssertionType.ELEMENT_EXISTS, kind := ParamKind.other "image" }

/-- Pattern table entry 130. -/
def pat130 : PatEntry :=
  { creg := Except.ok (rcat [ralt [rstr "アイコン", rstr "icon", rstr "Icon"], ralt [rstr "の", rstr "で"], ropt (RE.cls false [ClassItem.single '「']), RE.grp 1 (RE.rep1 false (RE.dot)), ropt (RE.cls false [ClassItem.single '」']), ralt [rstr "が", rstr "は"], ralt [rstr "表示", rstr "見えて"], ralt [rstr "いる", rstr "いること"], ralt [rstr "確認", rstr "検証"]]),
    ty := AssertionType.ELEMENT_EXISTS, kind := ParamKind.other "icon" }

/-- Pattern table entry 131. -/
def pat131 : PatEntry :=
  { creg := Except.ok (rcat [ralt [rstr "動画", rstr "ビデオ", rstr "video", rstr "Video", rstr "视频", rstr "視頻"], ralt [rstr "が", rstr "は"], ralt [rstr "再生可能", rstr "再生できる", rstr "playable"], ralt [rstr "な状態", rstr "で"], ralt [rstr "ある", rstr "いる"], ralt [rstr "確認", rstr "検証"]]),
    ty := AssertionType.ELEMENT_EXISTS, kind := ParamKind.other "video" }

/-- Pattern table entry 132. -/
def pat132 : PatEntry :=
  { creg := Except.ok (rcat [ralt [rstr "動画", rstr "ビデオ", rstr "video"], ralt [rstr "プレイヤー", rstr "player"], ralt [rstr "が", rstr "は"], ralt [rstr "表示", rstr "ロード"], ralt [rstr "されて", rstr "して"], ralt [rstr "いる", rstr "いること"], ralt [rstr "確認", rstr "検証"]]),
    ty := AssertionType.ELEMENT_EXISTS, kind := ParamKind.other "video_player" }

/-- Pattern table entry 133. -/
def pat133 : PatEntry :=
  { creg := Except.ok (rcat [ralt [rstr "テーブル", rstr "表", rstr "table", rstr "Table"], ralt [rstr "に", rstr "で"], ropt (RE.cls false [ClassItem.single '「']), RE.grp 1 (RE.rep1 false (RE.dot)), ropt (RE.cls false [ClassItem.single '」']), ralt [rstr "という", rstr "の"], ralt [rstr "データ", rstr "行", rstr "列"], ralt [rstr "が", rstr "は"], ralt [rstr "表示", rstr "含まれて"], ralt [rstr "いる", rstr "いること"], ralt [rstr "確認", rstr "検証"]]),
    ty := AssertionType.TEXT_EXISTS, kind := ParamKind.other "table_data" }

/-- Pattern table entry 134. -/
def pat134 : PatEntry :=
  { creg := Except.ok (rcat [ralt [rstr "テーブル", rstr "表"], ralt [rstr "の", rstr "で"], ralt [rstr "行数", rstr "レコード数", rstr "件数"], ralt [rstr "が", rstr "は"], RE.grp 1 (RE.rep1 true (RE.cls false [ClassItem.digitClass])), ralt [rstr "件", rstr "行", rstr "個"], ralt [rstr "である", rstr "になって"], ralt [rstr "いる", rstr "いること"], ralt [rstr "確認", rstr "検証"]]),
    ty := AssertionType.ELEMENT_COUNT, kind := ParamKind.other "table_rows" }

/-- Pattern table entry 135. -/
def pat135 : PatEntry :=
  { creg := Except.ok (rcat [ralt [rstr "リスト", rstr "一覧", rstr "list", rstr "List"], ralt [rstr "に", rstr "で"], ropt (RE.cls false [ClassItem.single '「']), RE.grp 1 (RE.rep1 false (RE.dot)), ropt (RE.cls false [ClassItem.single '」']), ralt [rstr "が", rstr "は"], ralt [rstr "含まれて", rstr "表示されて"], ralt [rstr "いる", rstr "いること"], ralt [rstr "確認", rstr "検証"]]),
    ty := AssertionType.TEXT_EXISTS, kind := ParamKind.other "list_item" }

/-- Pattern table entry 136. -/
def pat136 : PatEntry :=
  { creg := Except.ok (rcat [ralt [rstr "リスト", rstr "一覧"], ralt [rstr "の", rstr "で"], ralt [rstr "項目数", rstr "アイテム数"], ralt [rstr "が", rstr "は"], RE.grp 1 (RE.rep1 true (RE.cls false [ClassItem.digitClass])), ralt [rstr "個", rstr "件", rstr "つ"], ralt [rstr "である", rstr "になって"], ralt [rstr "いる", rstr "いること"], ralt [rstr "確認", rstr "検証"]]),
    ty := AssertionType.ELEMENT_COUNT, kind := ParamKind.other "list_items" }

/-- Pattern table entry 137. -/
def pat137 : PatEntry :=
  { creg := Except.ok (rcat [ralt [rstr "モーダル", rstr "ダイアログ", rstr "ポップアップ", rstr "modal", rstr "dialog", rstr "popup"], ralt [rstr "が", rstr "は"], ralt [rstr "開いて", rstr "表示されて"], ralt [rstr "いる", rstr "いること"], ralt [rstr "確認", rstr "検証"]]),
    ty := AssertionType.ELEMENT_VISIBLE, kind := ParamKind.other "modal" }

/-- Pattern table entry 138. -/
def pat138 : PatEntry :=
  { creg := Except.ok (rcat [ralt [rstr "モーダル", rstr "ダイアログ", rstr "ポップアップ"], ralt [rstr "が", rstr "は"], ralt [rstr "閉じて", rstr "消えて"], ralt [rstr "いる", rstr "いること"], ralt [rstr "確認", rstr "検証"]]),
    ty := AssertionType.ELEMENT_NOT_EXISTS, kind := ParamKind.other "modal" }

/-- Pattern table entry 139. -/
def pat139 : PatEntry :=
  { creg := Except.ok (rcat [ralt [rstr "アラート", rstr "alert", rstr "Alert"], ralt [rstr "が", rstr "は"], ralt [rstr "表示されて", rstr "出て"], ralt [rstr "いない", rstr "ない"], ralt [rstr "こと", rstr "ことを"], ralt [rstr "確認", rstr "検証"]]),
    ty := AssertionType.ELEMENT_NOT_EXISTS, kind := ParamKind.other "alert" }

/-- Pattern table entry 140. -/
def pat140 : PatEntry :=
  { creg := Except.ok (rcat [ralt [rstr "通知", rstr "notification", rstr "Notification"], ralt [rstr "が", rstr "は"], ralt [rstr "表示されて", rstr "出て"], ralt [rstr "いる", rstr "いること"], ralt [rstr "確認", rstr "検証"]]),
    ty := AssertionType.ELEMENT_EXISTS, kind := ParamKind.other "notification" }

/-- Pattern table entry 141. -/
def pat141 : PatEntry :=
  { creg := Except.ok (rcat [ropt (RE.cls false [ClassItem.single '「']), RE.grp 1 (RE.rep1 false (RE.dot)), ropt (RE.cls false [ClassItem.single '」']), ralt [rstr "メニュー", rstr "menu", rstr "Menu"], ralt [rstr "が", rstr "は"], ralt [rstr "開いて", rstr "展開されて", rstr "表示されて"], ralt [rstr "いる", rstr "いること"], ralt [rstr "確認", rstr "検証"]]),
    ty := AssertionType.ELEMENT_VISIBLE, kind := ParamKind.other "menu" }

/-- Pattern table entry 142. -/
def pat142 : PatEntry :=
  { creg := Except.ok (rcat [ralt [rstr "ナビゲーション", rstr "navigation", rstr "nav"], ralt [rstr "に", rstr "で"], ropt (RE.cls false [ClassItem.single '「']), RE.grp 1 (RE.rep1 false (RE.dot)), ropt (RE.cls false [ClassItem.single '」']), ralt [rstr "が", rstr "は"], ralt [rstr "含まれて", rstr "表示されて"], ralt [rstr "いる", rstr "いること"], ralt [rstr "確認", rstr "検証"]]),
    ty := AssertionType.TEXT_EXISTS, kind := ParamKind.other "nav" }

/-- Pattern table entry 143. -/
def pat143 : PatEntry :=
  { creg := Except.ok (rcat [ropt (RE.cls false [ClassItem.single '「']), RE.grp 1 (RE.rep1 false (RE.dot)), ropt (RE.cls false [ClassItem.single '」']), ralt [rstr "タブ", rstr "tab", rstr "Tab"], ralt [rstr "が", rstr "は"], ralt [rstr "選択", rstr "アクティブ", rstr "active"], ralt [rstr "されて", rstr "になって"], ralt [rstr "いる", rstr "いること"], ralt [rstr "確認", rstr "検証"]]),
    ty := AssertionType.ELEMENT_EXISTS, kind := ParamKind.other "tab_active" }

/-- Pattern table entry 144. -/
def pat144 : PatEntry :=
  { creg := Except.ok (rcat [ralt [rstr "タブ", rstr "tab"], ralt [rstr "の", rstr "で"], ralt [rstr "内容", rstr "コンテンツ"], ralt [rstr "が", rstr "は"], ralt [rstr "正しく", rstr "適切に"], ralt [rstr "表示されて", rstr "切り替わって"], ralt [rstr "いる", rstr "いること"], ralt [rstr "確認", rstr "検証"]]),
    ty := AssertionType.ELEMENT_VISIBLE, kind := ParamKind.other "tab_content" }

/-- Pattern table entry 145. -/
def pat145 : PatEntry :=
  { creg := Except.ok (rcat [ropt (RE.cls false [ClassItem.single '「']), RE.grp 1 (RE.rep1 false (RE.dot)), ropt (RE.cls false [ClassItem.single '」']), ralt [rstr "に", rstr "で"], ralt [rstr "aria-label", rstr "ariaラベル"], ralt [rstr "が", rstr "は"], ralt [rstr "設定", rstr "付与"], ralt [rstr "されて", rstr "して"], ralt [rstr "いる", rstr "いること"], ralt [rstr "確認", rstr "検証"]]),
    ty := AssertionType.ATTRIBUTE_EXISTS, kind := ParamKind.other "aria_label" }

/-- Pattern table entry 146. -/
def pat146 : PatEntry :=
  { creg := Except.ok (rcat [ralt [rstr "スクリーンリーダー", rstr "screen reader"], ralt [rstr "で", rstr "に"], ralt [rstr "読み上げ可能", rstr "アクセス可能"], ralt [rstr "な", rstr "に"], ralt [rstr "なって", rstr "設定されて"], ralt [rstr "いる", rstr "いること"], ralt [rstr "確認", rstr "検証"]]),
    ty := AssertionType.ATTRIBUTE_EXISTS, kind := ParamKind.other "aria" }

/-- Pattern table entry 147. -/
def pat147 : PatEntry :=
  { creg := Except.ok (rcat [ropt (RE.cls false [ClassItem.single '「']), RE.grp 1 (RE.rep1 false (RE.dot)), ropt (RE.cls false [ClassItem.single '」']), ralt [rstr "に", rstr "へ"], ralt [rstr "フォーカス", rstr "focus"], ralt [rstr "が", rstr "は"], ralt [rstr "当たって", rstr "移動して", rstr "設定されて"], ralt [rstr "いる", rstr "いること"], ralt [rstr "確認", rstr "検証"]]),
    ty := AssertionType.ELEMENT_EXISTS, kind := ParamKind.other "focused" }

/-- Pattern table entry 148. -/
def pat148 : PatEntry :=
  { creg := Except.ok (rcat [ralt [rstr "タブキー", rstr "Tab"], ralt [rstr "で", rstr "により"], ralt [rstr "正しく", rstr "適切に"], ralt [rstr "フォーカス移動", rstr "ナビゲーション"], ralt [rstr "できる", rstr "可能"], ralt [rstr "である", rstr "こと"], ralt [rstr "確認", rstr "検証"]]),
    ty := AssertionType.ELEMENT_ENABLED, kind := ParamKind.other "tabbable" }

/-- Pattern table entry 149. -/
def pat149 : PatEntry :=
  { creg := Except.ok (rcat [ralt [rstr "モバイル", rstr "スマホ", rstr "スマートフォン", rstr "mobile"], ralt [rstr "表示", rstr "ビュー", rstr "画面"], ralt [rstr "で", rstr "において"], ropt (RE.cls false [ClassItem.single '「']), RE.grp 1 (RE.rep1 false (RE.dot)), ropt (RE.cls false [ClassItem.single '」']), ralt [rstr "が", rstr "は"], ralt [rstr "正しく", rstr "適切に"], ralt [rstr "表示", rstr "レイアウト"], ralt [rstr "されて", rstr "して"], ralt [rstr "いる", rstr "いること"], ralt [rstr "確認", rstr "検証"]]),
    ty := AssertionType.ELEMENT_VISIBLE, kind := ParamKind.other "mobile" }

/-- Pattern table entry 150. -/
def pat150 : PatEntry :=
  { creg := Except.ok (rcat [ralt [rstr "レスポンシブ", rstr "responsive"], ralt [rstr "デザイン", rstr "表示"], ralt [rstr "が", rstr "は"], ralt [rstr "正常", rstr "適切"], ralt [rstr "に", rstr "で"], ralt [rstr "動作", rstr "機能"], ralt [rstr "して", rstr "されて"], ralt [rstr "いる", rstr "いること"], ralt [rstr "確認", rstr "検証"]]),
    ty := AssertionType.ELEMENT_VISIBLE, kind := ParamKind.other "responsive" }

/-- Pattern table entry 151. -/
def pat151 : PatEntry :=
  { creg := Except.ok (rcat [ralt [rstr "ページ", rstr "画面"], ralt [rstr "が", rstr "は"], RE.grp 1 (RE.rep1 true (RE.cls false [ClassItem.digitClass])), ralt [rstr "秒", rstr "ミリ秒", rstr "ms"], ralt [rstr "以内に", rstr "未満で"], ralt [rstr "表示", rstr "ロード", rstr "読み込み"], ralt [rstr "される", rstr "完了する"], ralt [rstr "こと", rstr "ことを"], ralt [rstr "確認", rstr "検証"]]),
    ty := AssertionType.ELEMENT_VISIBLE, kind := ParamKind.other "performance" }

/-- Pattern table entry 152. -/
def pat152 : PatEntry :=
  { creg := Except.ok (rcat [ralt [rstr "レスポンス", rstr "応答", rstr "response"], ralt [rstr "が", rstr "は"], ralt [rstr "高速", rstr "速い", rstr "早い", rstr "quick", rstr "fast"], ralt [rstr "である", rstr "で"], ralt [rstr "こと", rstr "ことを"], ralt [rstr "確認", rstr "検証"]]),
    ty := AssertionType.ELEMENT_VISIBLE, kind := ParamKind.other "fast_response" }

/-- Pattern table entry 153. -/
def pat153 : PatEntry :=
  { creg := Except.ok (rcat [ralt [rstr "HTTPS", rstr "https", rstr "SSL"], ralt [rstr "で", rstr "により"], ralt [rstr "保護", rstr "暗号化", rstr "secure"], ralt [rstr "されて", rstr "して"], ralt [rstr "いる", rstr "いること"], ralt [rstr "確認", rstr "検証"]]),
    ty := AssertionType.URL_STARTS_WITH, kind := ParamKind.other "https" }

/-- Pattern table entry 154. -/
def pat154 : PatEntry :=
  { creg := Except.ok (rcat [ralt [rstr "セキュア", rstr "secure", rstr "安全"], ralt [rstr "な", rstr "に"], ralt [rstr "接続", rstr "通信"], ralt [rstr "である", rstr "になって"], ralt [rstr "いる", rstr "いること"], ralt [rstr "確認", rstr "検証"]]),
    ty := AssertionType.URL_STARTS_WITH, kind := ParamKind.other "secure" }

/-- Pattern table entry 155. -/
def pat155 : PatEntry :=
  { creg := Except.ok (rcat [ropt (RE.cls false [ClassItem.single '「']), RE.grp 1 (RE.rep1 false (RE.dot)), ropt (RE.cls false [ClassItem.single '」']), ralt [rstr "※", rstr "＊", rstr "★", rstr "☆", rstr "●", rstr "○", rstr "■", rstr "□"], ralt [rstr "マーク", rstr "印", rstr "記号"], ralt [rstr "が", rstr "は"], ralt [rstr "表示", rstr "付いて"], ralt [rstr "いる", rstr "いること"], ralt [rstr "確認", rstr "検証"]]),
    ty := AssertionType.TEXT_EXISTS, kind := ParamKind.other "symbol" }

/-- Pattern table entry 156. -/
def pat156 : PatEntry :=
  { creg := Except.ok (rcat [ralt [rstr "必須", rstr "required"], ralt [rstr "項目", rstr "フィールド"], ralt [rstr "に", rstr "で"], ralt [rstr "※", rstr "＊", rstr "アスタリスク"], ralt [rstr "が", rstr "は"], ralt [rstr "表示", rstr "付いて"], ralt [rstr "いる", rstr "いること"], ralt [rstr "確認", rstr "検証"]]),
    ty := AssertionType.TEXT_EXISTS, kind := ParamKind.other "required_mark" }

/-- Pattern table entry 157. -/
def pat157 : PatEntry :=
  { creg := Except.ok (rcat [ralt [rstr "日付", rstr "日時", rstr "date", rstr "Date"], ralt [rstr "が", rstr "は"], ropt (RE.cls false [ClassItem.single '「']), RE.grp 1 (RE.rep1 false (RE.dot)), ropt (RE.cls false [ClassItem.single '」']), ralt [rstr "と", rstr "に"], ralt [rstr "設定", rstr "表示"], ralt [rstr "されて", rstr "して"], ralt [rstr "いる", rstr "いること"], ralt [rstr "確認", rstr "検証"]]),
    ty := AssertionType.TEXT_EXISTS, kind := ParamKind.other "date" }

/-- Pattern table entry 158. -/
def pat158 : PatEntry :=
  { creg := Except.ok (rcat [ralt [rstr "今日", rstr "本日", rstr "today", rstr "Today"], ralt [rstr "の", rstr "が"], ralt [rstr "日付", rstr "日時"], ralt [rstr "が", rstr "は"], ralt [rstr "正しく", rstr "適切に"], ralt [rstr "表示", rstr "設定"], ralt [rstr "されて", rstr "して"], ralt [rstr "いる", rstr "いること"], ralt [rstr "確認", rstr "検証"]]),
    ty := AssertionType.TEXT_EXISTS, kind := ParamKind.other "today_date" }

/-- Pattern table entry 159. -/
def pat159 : PatEntry :=
  { creg := Except.ok (rcat [ralt [rstr "時刻", rstr "時間", rstr "time", rstr "Time"], ralt [rstr "が", rstr "は"], ropt (RE.cls false [ClassItem.single '「']), RE.grp 1 (RE.rep1 false (RE.dot)), ropt (RE.cls false [ClassItem.single '」']), ralt [rstr "と", rstr "に"], ralt [rstr "設定", rstr "表示"], ralt [rstr "されて", rstr "して"], ralt [rstr "いる", rstr "いること"], ralt [rstr "確認", rstr "検証"]]),
    ty := AssertionType.TEXT_EXISTS, kind := ParamKind.other "time" }

/-- Pattern table entry 160. -/
def pat160 : PatEntry :=
  { creg := Except.ok (rcat [ralt [rstr "現在時刻", rstr "現在時間", rstr "current time"], ralt [rstr "が", rstr "は"], ralt [rstr "正しく", rstr "適切に"], ralt [rstr "表示", rstr "更新"], ralt [rstr "されて", rstr "して"], ralt [rstr "いる", rstr "いること"], ralt [rstr "確認", rstr "検証"]]),
    ty := AssertionType.TEXT_EXISTS, kind := ParamKind.other "current_time" }

/-- Pattern table entry 161. -/
def pat161 : PatEntry :=
  { creg := Except.ok (rcat [ralt [rstr "価格", rstr "金額", rstr "値段", rstr "price", rstr "Price"], ralt [rstr "が", rstr "は"], ropt (RE.cls false [ClassItem.single '「']), RE.grp 1 (RE.rep1 false (RE.dot)), ropt (RE.cls false [ClassItem.single '」']), ralt [rstr "円", rstr "ドル", rstr "dollar", rstr "USD", rstr "JPY"], ralt [rstr "で", rstr "と"], ralt [rstr "表示", rstr "設定"], ralt [rstr "されて", rstr "して"], ralt [rstr "いる", rstr "いること"], ralt [rstr "確認", rstr "検証"]]),
    ty := AssertionType.TEXT_EXISTS, kind := ParamKind.other "price" }

/-- Pattern table entry 162. -/
def pat162 : PatEntry :=
  { creg := Except.ok (rcat [ralt [rstr "合計", rstr "総額", rstr "total", rstr "Total"], ralt [rstr "が", rstr "は"], ralt [rstr "正しく", rstr "適切に"], ralt [rstr "計算", rstr "表示"], ralt [rstr "されて", rstr "して"], ralt [rstr "いる", rstr "いること"], ralt [rstr "確認", rstr "検証"]]),
    ty := AssertionType.TEXT_EXISTS, kind := ParamKind.other "total" }

/-- Pattern table entry 163. -/
def pat163 : PatEntry :=
  { creg := Except.ok (rcat [ralt [rstr "カウント", rstr "数", rstr "件数", rstr "count", rstr "Count"], ralt [rstr "が", rstr "は"], RE.grp 1 (RE.rep1 true (RE.cls false [ClassItem.digitClass])), ralt [rstr "に", rstr "と"], ralt [rstr "なって", rstr "等しく"], ralt [rstr "いる", rstr "いること"], ralt [rstr "確認", rstr "検証"]]),
    ty := AssertionType.TEXT_CONTAINS, kind := ParamKind.other "count" }

/-- Pattern table entry 164. -/
def pat164 : PatEntry :=
  { creg := Except.ok (rcat [ralt [rstr "残り", rstr "あと", rstr "remaining"], RE.grp 1 (RE.rep1 true (RE.cls false [ClassItem.digitClass])), ralt [rstr "個", rstr "件", rstr "つ"], ralt [rstr "である", rstr "になって"], ralt [rstr "いる", rstr "いること"], ralt [rstr "確認", rstr "検証"]]),
    ty := AssertionType.TEXT_CONTAINS, kind := ParamKind.other "remaining" }

/-- Pattern table entry 165. -/
def pat165 : PatEntry :=
  { creg := Except.ok (rcat [ralt [rstr "ログイン", rstr "サインイン", rstr "login", rstr "sign in"], ralt [rstr "状態", rstr "済み", rstr "中"], ralt [rstr "である", rstr "になって"], ralt [rstr "いる", rstr "いること"], ralt [rstr "確認", rstr "検証"]]),
    ty := AssertionType.TEXT_EXISTS, kind := ParamKind.other "logged_in" }

/-- Pattern table entry 166. -/
def pat166 : PatEntry :=
  { creg := Except.ok (rcat [ralt [rstr "ログアウト", rstr "サインアウト", rstr "logout", rstr "sign out"], ralt [rstr "状態", rstr "済み"], ralt [rstr "である", rstr "になって"], ralt [rstr "いる", rstr "いること"], ralt [rstr "確認", rstr "検証"]]),
    ty := AssertionType.TEXT_NOT_EXISTS, kind := ParamKind.other "logged_in" }

/-- Pattern table entry 167. -/
def pat167 : PatEntry :=
  { creg := Except.ok (rcat [ralt [rstr "ユーザー名", rstr "ユーザーID", rstr "username", rstr "Username"], ralt [rstr "が", rstr "は"], ropt (RE.cls false [ClassItem.single '「']), RE.grp 1 (RE.rep1 false (RE.dot)), ropt (RE.cls false [ClassItem.single '」']), ralt [rstr "と", rstr "で"], ralt [rstr "表示", rstr "設定"], ralt [rstr "されて", rstr "して"], ralt [rstr "いる", rstr "いること"], ralt [rstr "確認", rstr "検証"]]),
    ty := AssertionType.TEXT_EXISTS, kind := ParamKind.other "username" }

/-- Pattern table entry 168. -/
def pat168 : PatEntry :=
  { creg := Except.ok (rcat [ralt [rstr "アカウント", rstr "account", rstr "Account"], ralt [rstr "情報", rstr "名"], ralt [rstr "が", rstr "は"], ralt [rstr "正しく", rstr "適切に"], ralt [rstr "表示", rstr "設定"], ralt [rstr "されて", rstr "して"], ralt [rstr "いる", rstr "いること"], ralt [rstr "確認", rstr "検証"]]),
    ty := AssertionType.TEXT_EXISTS, kind := ParamKind.other "account" }

/-- Pattern table entry 169. -/
def pat169 : PatEntry :=
  { creg := Except.ok (rcat [ralt [rstr "ダウンロード", rstr "download", rstr "Download"], ralt [rstr "ボタン", rstr "リンク"], ralt [rstr "が", rstr "は"], ralt [rstr "利用可能", rstr "有効", rstr "クリック可能"], ralt [rstr "である", rstr "になって"], ralt [rstr "いる", rstr "いること"], ralt [rstr "確認", rstr "検証"]]),
    ty := AssertionType.ELEMENT_ENABLED, kind := ParamKind.other "download" }

/-- Pattern table entry 170. -/
def pat170 : PatEntry :=
  { creg := Except.ok (rcat [ralt [rstr "ファイル", rstr "file", rstr "File"], ropt (RE.cls false [ClassItem.single '「']), RE.grp 1 (RE.rep1 false (RE.dot)), ropt (RE.cls false [ClassItem.single '」']), ralt [rstr "が", rstr "を"], ralt [rstr "ダウンロード可能", rstr "取得可能"], ralt [rstr "である", rstr "になって"], ralt [rstr "いる", rstr "いること"], ralt [rstr "確認", rstr "検証"]]),
    ty := AssertionType.ELEMENT_EXISTS, kind := ParamKind.other "file_download" }

/-- Pattern table entry 171. -/
def pat171 : PatEntry :=
  { creg := Except.ok (rcat [ralt [rstr "アップロード", rstr "upload", rstr "Upload"], ralt [rstr "ボタン", rstr "フォーム"], ralt [rstr "が", rstr "は"], ralt [rstr "利用可能", rstr "有効"], ralt [rstr "である", rstr "になって"], ralt [rstr "いる", rstr "いること"], ralt [rstr "確認", rstr "検証"]]),
    ty := AssertionType.ELEMENT_ENABLED, kind := ParamKind.other "upload" }

/-- Pattern table entry 172. -/
def pat172 : PatEntry :=
  { creg := Except.ok (rcat [ralt [rstr "ファイル選択", rstr "file selection"], ralt [rstr "ボタン", rstr "フィールド"], ralt [rstr "が", rstr "は"], ralt [rstr "表示", rstr "利用可能"], ralt [rstr "である", rstr "になって"], ralt [rstr "いる", rstr "いること"], ralt [rstr "確認", rstr "検証"]]),
    ty := AssertionType.ELEMENT_EXISTS, kind := ParamKind.other "file_input" }

/-- Pattern table entry 173. -/
def pat173 : PatEntry :=
  { creg := Except.ok (rcat [ralt [rstr "進捗", rstr "プログレス", rstr "progress", rstr "Progress"], ralt [rstr "が", rstr "は"], RE.grp 1 (RE.rep1 true (RE.cls false [ClassItem.digitClass])), ralt [rstr "%", rstr "パーセント"], ralt [rstr "である", rstr "になって"], ralt [rstr "いる", rstr "いること"], ralt [rstr "確認", rstr "検証"]]),
    ty := AssertionType.TEXT_CONTAINS, kind := ParamKind.other "progress" }

/-- Pattern table entry 174. -/
def pat174 : PatEntry :=
  { creg := Except.ok (rcat [ralt [rstr "プログレスバー", rstr "進捗バー", rstr "progress bar"], ralt [rstr "が", rstr "は"], ralt [rstr "表示", rstr "更新"], ralt [rstr "されて", rstr "して"], ralt [rstr "いる", rstr "いること"], ralt [rstr "確認", rstr "検証"]]),
    ty := AssertionType.ELEMENT_EXISTS, kind := ParamKind.other "progress_bar" }

/-- Pattern table entry 175. -/
def pat175 : PatEntry :=
  { creg := Except.ok (rcat [ralt [rstr "情報", rstr "インフォ", rstr "info", rstr "Info"], ralt [rstr "メッセージ", rstr "表示"], ralt [rstr "が", rstr "は"], ralt [rstr "表示", rstr "出て"], ralt [rstr "いる", rstr "いること"], ralt [rstr "確認", rstr "検証"]]),
    ty := AssertionType.TEXT_EXISTS, kind := ParamKind.other "info" }

/-- Pattern table entry 176. -/
def pat176 : PatEntry :=
  { creg := Except.ok (rcat [ralt [rstr "ヒント", rstr "ヒント", rstr "hint", rstr "Hint", rstr "tip", rstr "Tip"], ralt [rstr "が", rstr "は"], ralt [rstr "表示", rstr "出て"], ralt [rstr "いる", rstr "いること"], ralt [rstr "確認", rstr "検証"]]),
    ty := AssertionType.TEXT_EXISTS, kind := ParamKind.other "hint" }

/-- Pattern table entry 177. -/
def pat177 : PatEntry :=
  { creg := Except.ok (rcat [ralt [rstr "バリデーション", rstr "検証", rstr "validation", rstr "Validation"], ralt [rstr "エラー", rstr "メッセージ"], ralt [rstr "が", rstr "は"], ralt [rstr "表示されて", rstr "出て"], ralt [rstr "いない", rstr "ない"], ralt [rstr "こと", rstr "ことを"], ralt [rstr "確認", rstr "検証"]]),
    ty := AssertionType.TEXT_NOT_EXISTS, kind := ParamKind.other "validation_error" }

/-- Pattern table entry 178. -/
def pat178 : PatEntry :=
  { creg := Except.ok (rcat [ralt [rstr "入力内容", rstr "フォーム", rstr "form"], ralt [rstr "が", rstr "は"], ralt [rstr "正しい", rstr "有効", rstr "valid"], ralt [rstr "である", rstr "になって"], ralt [rstr "いる", rstr "いること"], ralt [rstr "確認", rstr "検証"]]),
    ty := AssertionType.ELEMENT_EXISTS, kind := ParamKind.other "valid_form" }

/-- Pattern table entry 179. -/
def pat179 : PatEntry :=
  { creg := Except.ok (rcat [ralt [rstr "ソート", rstr "並び替え", rstr "sort", rstr "Sort"], ralt [rstr "が", rstr "は"], ralt [rstr "昇順", rstr "降順", rstr "ascending", rstr "descending"], ralt [rstr "に", rstr "で"], ralt [rstr "設定", rstr "適用"], ralt [rstr "されて", rstr "して"], ralt [rstr "いる", rstr "いること"], ralt [rstr "確認", rstr "検証"]]),
    ty := AssertionType.ELEMENT_EXISTS, kind := ParamKind.other "sorted" }

/-- Pattern table entry 180. -/
def pat180 : PatEntry :=
  { creg := Except.ok (rcat [ralt [rstr "項目", rstr "アイテム", rstr "items"], ralt [rstr "が", rstr "は"], ralt [rstr "正しく", rstr "適切に"], ralt [rstr "並んで", rstr "ソートされて"], ralt [rstr "いる", rstr "いること"], ralt [rstr "確認", rstr "検証"]]),
    ty := AssertionType.ELEMENT_EXISTS, kind := ParamKind.other "ordered" }

/-- Pattern table entry 181. -/
def pat181 : PatEntry :=
  { creg := Except.ok (rcat [ralt [rstr "フィルター", rstr "フィルタ", rstr "filter", rstr "Filter"], ralt [rstr "が", rstr "は"], ralt [rstr "適用", rstr "設定"], ralt [rstr "されて", rstr "して"], ralt [rstr "いる", rstr "いること"], ralt [rstr "確認", rstr "検証"]]),
    ty := AssertionType.ELEMENT_EXISTS, kind := ParamKind.other "filter" }

/-- Pattern table entry 182. -/
def pat182 : PatEntry :=
  { creg := Except.ok (rcat [ralt [rstr "検索結果", rstr "search results"], ralt [rstr "が", rstr "は"], RE.grp 1 (RE.rep1 true (RE.cls false [ClassItem.digitClass])), ralt [rstr "件", rstr "個", rstr "つ"], ralt [rstr "表示", rstr "ヒット"], ralt [rstr "されて", rstr "して"], ralt [rstr "いる", rstr "いること"], ralt [rstr "確認", rstr "検証"]]),
    ty := AssertionType.TEXT_CONTAINS, kind := ParamKind.other "search_results" }

/-- Pattern table entry 183. -/
def pat183 : PatEntry :=
  { creg := Except.ok (rcat [ralt [rstr "ページ", rstr "page", rstr "Page"], RE.grp 1 (RE.rep1 true (RE.cls false [ClassItem.digitClass])), ralt [rstr "が", rstr "を"], ralt [rstr "表示", rstr "選択"], ralt [rstr "されて", rstr "して"], ralt [rstr "いる", rstr "いること"], ralt [rstr "確認", rstr "検証"]]),
    ty := AssertionType.TEXT_CONTAINS, kind := ParamKind.other "page_number" }

/-- Pattern table entry 184. -/
def pat184 : PatEntry :=
  { creg := Except.ok (rcat [ralt [rstr "次のページ", rstr "前のページ", rstr "next", rstr "previous"], ralt [rstr "ボタン", rstr "リンク"], ralt [rstr "が", rstr "は"], ralt [rstr "利用可能", rstr "クリック可能"], ralt [rstr "である", rstr "になって"], ralt [rstr "いる", rstr "いること"], ralt [rstr "確認", rstr "検証"]]),
    ty := AssertionType.ELEMENT_ENABLED, kind := ParamKind.other "pagination" }

/-- Pattern table entry 185. -/
def pat185 : PatEntry :=
  { creg := Except.ok (rcat [ralt [rstr "言語", rstr "language", rstr "Language"], ralt [rstr "が", rstr "は"], ropt (RE.cls false [ClassItem.single '「']), RE.grp 1 (RE.rep1 false (RE.dot)), ropt (RE.cls false [ClassItem.single '」']), ralt [rstr "に", rstr "で"], ralt [rstr "設定", rstr "切り替え"], ralt [rstr "されて", rstr "して"], ralt [rstr "いる", rstr "いること"], ralt [rstr "確認", rstr "検証"]]),
    ty := AssertionType.TEXT_EXISTS, kind := ParamKind.other "language" }

/-- Pattern table entry 186. -/
def pat186 : PatEntry :=
  { creg := Except.ok (rcat [ralt [rstr "日本語", rstr "英語", rstr "中国語", rstr "Japanese", rstr "English", rstr "Chinese"], ralt [rstr "表示", rstr "版"], ralt [rstr "に", rstr "で"], ralt [rstr "なって", rstr "設定されて"], ralt [rstr "いる", rstr "いること"], ralt [rstr "確認", rstr "検証"]]),
    ty := AssertionType.TEXT_EXISTS, kind := ParamKind.other "locale" }

/-- The ordered pattern table `AssertionPatternMatcher.PATTERNS` (187 entries). -/
def PATTERNS : List PatEntry :=
  [pat000,
   pat001,
   pat002,
   pat003,
   pat004,
   pat005,
   pat006,
   pat007,
   pat008,
   pat009,
   pat010,
   pat011,
   pat012,
   pat013,
   pat014,
   pat015,
   pat016,
   pat017,
   pat018,
   pat019,
   pat020,
   pat021,
   pat022,
   pat023,
   pat024,
   pat025,
   pat026,
   pat027,
   pat028,
   pat029,
   pat030,
   pat031,
   pat032,
   pat033,
   pat034,
   pat035,
   pat036,
   pat037,
   pat038,
   pat039,
   pat040,
   pat041,
   pat042,
   pat043,
   pat044,
   pat045,
   pat046,
   pat047,
   pat048,
   pat049,
   pat050,
   pat051,
   pat052,
   pat053,
   pat054,
   pat055,
   pat056,
   pat057,
   pat058,
   pat059,
   pat060,
   pat061,
   pat062,
   pat063,
   pat064,
   pat065,
   pat066,
   pat067,
   pat068,
   pat069,
   pat070,
   pat071,
   pat072,
   pat073,
   pat074,
   pat075,
   pat076,
   pat077,
   pat078,
   pat079,
   pat080,
   pat081,
   pat082,
   pat083,
   pat084,
   pat085,
   pat086,
   pat087,
   pat088,
   pat089,
   pat090,
   pat091,
   pat092,
   pat093,
   pat094,
   pat095,
   pat096,
   pat097,
   pat098,
   pat099,
   pat100,
   pat101,
   pat102,
   pat103,
   pat104,
   pat105,
   pat106,
   pat107,
   pat108,
   pat109,
   pat110,
   pat111,
   pat112,
   pat113,
   pat114,
   pat115,
   pat116,
   pat117,
   pat118,
   pat119,
   pat120,
   pat121,
   pat122,
   pat123,
   pat124,
   pat125,
   pat126,
   pat127,
   pat128,
   pat129,
   pat130,
   pat131,
   pat132,
   pat133,
   pat134,
   pat135,
   pat136,
   pat137,
   pat138,
   pat139,
   pat140,
   pat141,
   pat142,
   pat143,
   pat144,
   pat145,
   pat146,
   pat147,
   pat148,
   pat149,
   pat150,
   pat151,
   pat152,
   pat153,
   pat154,
   pat155,
   pat156,
   pat157,
   pat158,
   pat159,
   pat160,
   pat161,
   pat162,
   pat163,
   pat164,
   pat165,
   pat166,
   pat167,
   pat168,
   pat169,
   pat170,
   pat171,
   pat172,
   pat173,
   pat174,
   pat175,
   pat176,
   pat177,
   pat178,
   pat179,
   pat180,
   pat181,
   pat182,
   pat183,
   pat184,
   pat185,
   pat186]

/-! ## AssertionPatternMatcher.parse and selector inference -/

/-- The dictionary `parse` returns: assertion type, optional selector,
optional expected value. -/
structure AssertionInfo where
  type : AssertionType
  selector : Option String
  expected : Option EVal
deriving Repr, DecidableEq

/-- Double-quote string helper for the selector templates. -/
def dq (s : String) : String := "\"" ++ s ++ "\""

/-- `AssertionPatternMatcher._text_to_selector`: convert a descriptive
phrase to a CSS selector via role keywords. -/
def textToSelector (t0 : String) : String :=
  let text := stripQuotes t0
  if strContains text "ボタン" then
    let e := stripQuotes (pyStripWs (pyReplace text "ボタン" ""))
    "button:has-text(" ++ dq e ++ "), input[type=" ++ dq "button" ++ "]:has-text(" ++
      dq e ++ "), input[type=" ++ dq "submit" ++ "]:has-text(" ++ dq e ++ ")"
  else if strContains text "リンク" then
    let e := stripQuotes (pyStripWs (pyReplace text "リンク" ""))
    "a:has-text(" ++ dq e ++ "):visible"
  else if strContains text "フィールド" || strContains text "入力欄" then
    let e := stripQuotes (pyStripWs (pyReplace (pyReplace text "フィールド" "") "入力欄" ""))
    "input[placeholder*=" ++ dq e ++ "], input[name*=" ++ dq e ++ "], label:has-text(" ++
      dq e ++ ") + input"
  else if strContains text "チェックボックス" then
    let e := stripQuotes (pyStripWs (pyReplace text "チェックボックス" ""))
    "input[type=" ++ dq "checkbox" ++ "][name*=" ++ dq e ++ "], label:has-text(" ++
      dq e ++ ") input[type=" ++ dq "checkbox" ++ "]"
  else if strContains (pyLower text) "button" then
    let e := stripQuotes (pyStripWs (pyReplace (pyLower text) "button" ""))
    "button:has-text(" ++ dq e ++ "), input[type=" ++ dq "button" ++ "]:has-text(" ++
      dq e ++ "), input[type=" ++ dq "submit" ++ "]:has-text(" ++ dq e ++ ")"
  else if strContains (pyLower text) "link" then
    let e := stripQuotes (pyStripWs (pyReplace (pyLower text) "link" ""))
    "a:has-text(" ++ dq e ++ "):visible"
  else if strContains text "按钮" || strContains text "按鈕" then
    let e := stripQuotes (pyStripWs (pyReplace (pyReplace text "按钮" "") "按鈕" ""))
    "button:has-text(" ++ dq e ++ "), input[type=" ++ dq "button" ++ "]:has-text(" ++
      dq e ++ "), input[type=" ++ dq "submit" ++ "]:has-text(" ++ dq e ++ ")"
  else if strContains text "链接" || strContains text "連結" then
    let e := stripQuotes (pyStripWs (pyReplace (pyReplace text "链接" "") "連結" ""))
    "a:has-text(" ++ dq e ++ "):visible"
  else
    ":has-text(" ++ dq text ++ ")"

/-- The `if`/`elif` chain `parse` runs on a successful match: build the
assertion dictionary according to the entry's parameter kind.  `none`
means no branch handled the kind (the loop then continues with the next
entry); `some (.error _)` is a raised exception (a missing capture or a
non-numeric count — unreachable for this table but kept faithful). -/
def applyEntry (instr : String) (e : PatEntry) (m : RMatch) :
    Option (Except PyErr AssertionInfo) :=
  let cs := instr.toList
  match e.kind with
  | .text =>
      match m.group cs 1 with
      | none => some (.error (.attrError "NoneType has no attribute strip"))
      | some g =>
          some (.ok { type := e.ty, selector := none,
                      expected := some (.s (stripQuotes (pyStripWs g))) })
  | .url =>
      match m.group cs 1 with
      | none => some (.error (.attrError "NoneType has no attribute strip"))
      | some g =>
          some (.ok { type := e.ty, selector := none,
                      expected := some (.s (stripQuotes (pyStripWs g))) })
  | .title =>
      match m.group cs 1 with
      | none => some (.error (.attrError "NoneType has no attribute strip"))
      | some g =>
          some (.ok { type := e.ty, selector := none,
                      expected := some (.s (stripQuotes (pyStripWs g))) })
  | .selector =>
      match m.group cs 1 with
      | none => some (.error (.attrError "NoneType has no attribute strip"))
      | some g =>
          some (.ok { type := e.ty,
                      selector := some (textToSelector (pyStripWs g)),
                      expected := none })
  | .selector_value =>
      match m.group cs 1, m.group cs 2 with
      | some g1, some g2 =>
          some (.ok { type := e.ty,
                      selector := some (textToSelector (pyStripWs g1)),
                      expected := some (.s (pyStripWs g2)) })
      | _, _ => some (.error (.attrError "NoneType has no attribute strip"))
  | .selector_count =>
      match m.group cs 1, m.group cs 2 with
      | some g1, some g2 =>
          (match pyIntOfString g2 with
           | .error err => some (.error err)
           | .ok n =>
               some (.ok { type := e.ty,
                           selector := some (textToSelector (pyStripWs g1)),
                           expected := some (.i n) }))
      | _, _ => some (.error (.attrError "NoneType has no attribute strip"))
  | .html_element =>
      match m.group cs 1 with
      | none => some (.error (.attrError "NoneType has no attribute strip"))
      | some g =>
          some (.ok { type := e.ty, selector := some (pyStripWs g),
                      expected := none })
  | .other _ => none

/-- The body of `parse`: walk the pattern table in order; `re.search`
each compiled pattern (an invalid pattern raises `re.error`); on the
first match whose parameter kind has a handling branch, build the
assertion dictionary; a match with an unhandled kind falls through to
the next entry. -/
def parseLoop (instr : String) : List PatEntry → Except PyErr (Option AssertionInfo)
  | [] => .ok none
  | e :: rest =>
    match e.creg with
    | .error msg => .error (.reError msg)
    | .ok r =>
      match reSearch r instr with
      | none => parseLoop instr rest
      | some m =>
        match applyEntry instr e m with
        | none => parseLoop instr rest
        | some (.error err) => .error err
        | some (.ok info) => .ok (some info)

/-- `AssertionPatternMatcher.parse(instruction)`. -/
def parse (instr : String) : Except PyErr (Option AssertionInfo) :=
  parseLoop instr PATTERNS

/-! ## Assertion and AssertionResult (assertions.py data model) -/

/-- The `Assertion` pydantic model (`attr` embeds the source field
`attribute`, which is a reserved word here). -/
structure Assertion where
  type : AssertionType
  selector : Option String := none
  expected : Option EVal := none
  attr : Option String := none
  timeout : Nat := 5000
  ignore_case : Bool := false
  wait_for : Bool := true
deriving Repr, DecidableEq

/-- The `AssertionResult` pydantic model.  `screenshot_path` is declared
but never populated; execution timing is modeled as zero. -/
structure AssertionResult where
  passed : Bool
  assertion : Assertion
  actual_value : Option EVal := none
  expected_value : Option EVal := none
  error_message : Option String := none
  screenshot_path : Option String := none
  execution_time_ms : Nat := 0
deriving Repr, DecidableEq

/-! ## AssertionExecutor

The executor is bound to one Playwright page.  The page boundary is an
oracle record: each field gives the outcome (value or raised exception)
of one kind of Playwright call, keyed by the selector argument the
evaluator passes.  `waitFirst` stands for
`locator.first().wait_for(timeout=...)` — in particular an oracle that
always returns an error also covers the fact that `Locator.first` is a
property, so calling it raises `TypeError`. -/

structure PageState where
  url : String
  title : Except PyErr String
  content : Except PyErr String
  locCount : Option String → Except PyErr Nat
  waitFirst : Option String → Nat → Except PyErr Unit
  waitVisible : Option String → Nat → Except PyErr Unit
  isVisible : Option String → Except PyErr Bool
  isChecked : Option String → Except PyErr Bool
  inputValue : Option String → Except PyErr String

/-- The assertion-independent part of an evaluator's result; the
dispatching wrapper attaches the原 assertion (`attach`). -/
structure ResCore where
  passed : Bool
  actual_value : Option EVal := none
  expected_value : Option EVal := none
  error_message : Option String := none
deriving Repr, DecidableEq

/-- Attach the assertion to an evaluator core result. -/
def attach (a : Assertion) (c : ResCore) : AssertionResult :=
  { passed := c.passed, assertion := a, actual_value := c.actual_value,
    expected_value := c.expected_value, error_message := c.error_message }

/-- Python `f"{opt}"` for an optional string (`str(None) = "None"`). -/
def optStr : Option String → String
  | none => "None"
  | some s => s

/-- The five selector strategies of `_assert_text_exists`. -/
def textSelectors (e : String) : List String :=
  ["text=" ++ dq e,
   "text=/" ++ e ++ "/i",
   "text*=" ++ dq e,
   ":text-is(" ++ dq e ++ ")",
   ":text(" ++ dq e ++ ")"]

/-- The selector loop of `_assert_text_exists`: each strategy optionally
waits (any exception there skips to the next strategy), then counts; the
first positive count wins, a zero count still updates the tracked count. -/
def tryTextSelectors (page : PageState) (wf : Bool) :
    List String → Bool × Nat → Bool × Nat
  | [], st => st
  | sel :: rest, (passed, count) =>
      if wf then
        match page.waitFirst (some sel) 1000 with
        | .error _ => tryTextSelectors page wf rest (passed, count)
        | .ok _ =>
            match page.locCount (some sel) with
            | .error _ => tryTextSelectors page wf rest (passed, count)
            | .ok c =>
                if 0 < c then (true, c) else tryTextSelectors page wf rest (passed, c)
      else
        match page.locCount (some sel) with
        | .error _ => tryTextSelectors page wf rest (passed, count)
        | .ok c =>
            if 0 < c then (true, c) else tryTextSelectors page wf rest (passed, c)

/-- `_assert_text_exists` (core).  After the selector strategies, a direct
case-insensitive substring search over the page content decides; that
fallback lower-cases both sides unconditionally, and raises (swallowed)
when `expected` is not a string. -/
def textExistsCore (page : PageState) (expd : Option EVal) (wf : Bool) : ResCore :=
  let e := pyStrOpt expd
  let st := tryTextSelectors page wf (textSelectors e) (false, 0)
  let res :=
    if st.1 then st
    else
      match page.content, expd with
      | .ok content, some (.s v) =>
          if strContains (pyLower content) (pyLower v) then (true, 1) else (false, st.2)
      | _, _ => (false, st.2)
  { passed := res.1,
    actual_value := some (.i (Int.ofNat res.2)),
    expected_value := some (.s ("テキスト " ++ apos ++ e ++ apos ++ " が1つ以上存在")),
    error_message :=
      if res.1 then none
      else some ("テキスト " ++ apos ++ e ++ apos ++ " が見つかりません") }

/-- The (wait-free) selector loop of `_assert_text_not_exists`. -/
def tryNotSelectors (page : PageState) : List String → Bool
  | [] => false
  | sel :: rest =>
      match page.locCount (some sel) with
      | .error _ => tryNotSelectors page rest
      | .ok c => if 0 < c then true else tryNotSelectors page rest

/-- `_assert_text_not_exists` (core): the first three strategies, then the
same case-insensitive page-content fallback, negated. -/
def textNotExistsCore (page : PageState) (expd : Option EVal) : ResCore :=
  let e := pyStrOpt expd
  let found0 := tryNotSelectors page ((textSelectors e).take 3)
  let found :=
    if found0 then true
    else
      match page.content, expd with
      | .ok content, some (.s v) => strContains (pyLower content) (pyLower v)
      | _, _ => false
  { passed := !found,
    actual_value := some (.i (if found then 1 else 0)),
    expected_value := some (.s ("テキスト " ++ apos ++ e ++ apos ++ " が存在しない")),
    error_message :=
      if !found then none
      else some ("テキスト " ++ apos ++ e ++ apos ++ " が見つかりました") }

/-- `_assert_element_exists` (core): optional visible-wait on the first
match within the assertion timeout, then a positive count; any raised
exception becomes a failed result with the evaluator's error prefix. -/
def elementExistsCore (page : PageState) (sel : Option String) (wf : Bool)
    (tmo : Nat) : ResCore :=
  let go : ResCore :=
    match page.locCount sel with
    | .error err =>
        { passed := false, error_message := some ("要素存在確認エラー: " ++ err.text) }
    | .ok c =>
        { passed := decide (0 < c),
          actual_value := some (.i (Int.ofNat c)),
          expected_value := some (.s ("要素 " ++ apos ++ optStr sel ++ apos ++ " が1つ以上存在")),
          error_message :=
            if 0 < c then none
            else some ("要素 " ++ apos ++ optStr sel ++ apos ++ " が見つかりません") }
  if wf then
    match page.waitFirst sel tmo with
    | .error err =>
        { passed := false, error_message := some ("要素存在確認エラー: " ++ err.text) }
    | .ok _ => go
  else go

/-- `_assert_element_not_exists` (core): zero count, no wait. -/
def elementNotExistsCore (page : PageState) (sel : Option String) : ResCore :=
  match page.locCount sel with
  | .error err =>
      { passed := false, error_message := some ("要素非存在確認エラー: " ++ err.text) }
  | .ok c =>
      { passed := decide (c = 0),
        actual_value := some (.i (Int.ofNat c)),
        expected_value := some (.s ("要素 " ++ apos ++ optStr sel ++ apos ++ " が存在しない")),
        error_message :=
          if c = 0 then none
          else some ("要素 " ++ apos ++ optStr sel ++ apos ++ " が見つかりました（" ++
                     toString c ++ "個）") }

/-- `_assert_element_visible` (core). -/
def elementVisibleCore (page : PageState) (sel : Option String) (wf : Bool)
    (tmo : Nat) : ResCore :=
  let go : ResCore :=
    match page.isVisible sel with
    | .error err =>
        { passed := false, error_message := some ("要素表示確認エラー: " ++ err.text) }
    | .ok v =>
        { passed := v,
          actual_value := some (.b v),
          expected_value := some (.s ("要素 " ++ apos ++ optStr sel ++ apos ++ " が表示されている")),
          error_message :=
            if v then none
            else some ("要素 " ++ apos ++ optStr sel ++ apos ++ " が表示されていません") }
  if wf then
    match page.waitVisible sel tmo with
    | .error err =>
        { passed := false, error_message := some ("要素表示確認エラー: " ++ err.text) }
    | .ok _ => go
  else go

/-- `_assert_element_hidden` (core): direct visibility read, negated. -/
def elementHiddenCore (page : PageState) (sel : Option String) : ResCore :=
  match page.isVisible sel with
  | .error err =>
      { passed := false, error_message := some ("要素非表示確認エラー: " ++ err.text) }
  | .ok v =>
      { passed := !v,
        actual_value := some (.b v),
        expected_value := some (.s ("要素 " ++ apos ++ optStr sel ++ apos ++ " が非表示")),
        error_message :=
          if v then some ("要素 " ++ apos ++ optStr sel ++ apos ++ " が表示されています")
          else none }

/-- `_assert_url_contains` (core): literal substring test on the page URL. -/
def urlContainsCore (page : PageState) (expd : Option EVal) : ResCore :=
  let cu := page.url
  let e := pyStrOpt expd
  { passed := strContains cu e,
    actual_value := some (.s cu),
    expected_value := some (.s ("URLに " ++ apos ++ e ++ apos ++ " が含まれる")),
    error_message :=
      if strContains cu e then none
      else some ("URLに " ++ apos ++ e ++ apos ++ " が含まれていません") }

/-- `_assert_url_equals` (core): exact equality, no normalization. -/
def urlEqualsCore (page : PageState) (expd : Option EVal) : ResCore :=
  let cu := page.url
  let e := pyStrOpt expd
  { passed := cu == e,
    actual_value := some (.s cu),
    expected_value := some (.s e),
    error_message := if cu == e then none else some "URLが一致しません" }

/-- `_assert_url_starts_with` (core): literal prefix test. -/
def urlStartsWithCore (page : PageState) (expd : Option EVal) : ResCore :=
  let cu := page.url
  let e := pyStrOpt expd
  { passed := pyStartsWith cu e,
    actual_value := some (.s cu),
    expected_value := some (.s ("URLが " ++ apos ++ e ++ apos ++ " で始まる")),
    error_message :=
      if pyStartsWith cu e then none
      else some ("URLが " ++ apos ++ e ++ apos ++ " で始まっていません") }

/-- `_assert_url_ends_with` (core): literal suffix test. -/
def urlEndsWithCore (page : PageState) (expd : Option EVal) : ResCore :=
  let cu := page.url
  let e := pyStrOpt expd
  { passed := pyEndsWith cu e,
    actual_value := some (.s cu),
    expected_value := some (.s ("URLが " ++ apos ++ e ++ apos ++ " で終わる")),
    error_message :=
      if pyEndsWith cu e then none
      else some ("URLが " ++ apos ++ e ++ apos ++ " で終わっていません") }

/-- `_assert_title_contains` (core). -/
def titleContainsCore (page : PageState) (expd : Option EVal) : ResCore :=
  match page.title with
  | .error err =>
      { passed := false, error_message := some ("タイトル包含確認エラー: " ++ err.text) }
  | .ok t =>
      let e := pyStrOpt expd
      { passed := strContains t e,
        actual_value := some (.s t),
        expected_value := some (.s ("タイトルに " ++ apos ++ e ++ apos ++ " が含まれる")),
        error_message :=
          if strContains t e then none
          else some ("タイトルに " ++ apos ++ e ++ apos ++ " が含まれていません") }

/-- `_assert_title_equals` (core). -/
def titleEqualsCore (page : PageState) (expd : Option EVal) : ResCore :=
  match page.title with
  | .error err =>
      { passed := false, error_message := some ("タイトル一致確認エラー: " ++ err.text) }
  | .ok t =>
      let e := pyStrOpt expd
      { passed := t == e,
        actual_value := some (.s t),
        expected_value := some (.s e),
        error_message := if t == e then none else some "タイトルが一致しません" }

/-- `_assert_element_count` (core): exact equality between the observed
count and `int(expected)`. -/
def elementCountCore (page : PageState) (sel : Option String)
    (expd : Option EVal) : ResCore :=
  match page.locCount sel with
  | .error err =>
      { passed := false, error_message := some ("要素数確認エラー: " ++ err.text) }
  | .ok c =>
      match pyIntOf expd with
      | .error err =>
          { passed := false, error_message := some ("要素数確認エラー: " ++ err.text) }
      | .ok n =>
          { passed := decide ((Int.ofNat c) = n),
            actual_value := some (.i (Int.ofNat c)),
            expected_value := some (.i n),
            error_message :=
              if (Int.ofNat c) = n then none
              else some ("要素数が一致しません（期待値: " ++ toString n ++
                         ", 実際: " ++ toString c ++ "）") }

/-- `_assert_input_value_equals` (core): exact string equality with the
element value. -/
def inputValueEqualsCore (page : PageState) (sel : Option String)
    (expd : Option EVal) : ResCore :=
  match page.inputValue sel with
  | .error err =>
      { passed := false, error_message := some ("入力値確認エラー: " ++ err.text) }
  | .ok v =>
      let e := pyStrOpt expd
      { passed := v == e,
        actual_value := some (.s v),
        expected_value := some (.s e),
        error_message := if v == e then none else some "入力値が一致しません" }

/-- `_assert_checkbox_checked` (core). -/
def checkboxCheckedCore (page : PageState) (sel : Option String) : ResCore :=
  match page.isChecked sel with
  | .error err =>
      { passed := false, error_message := some ("チェックボックス確認エラー: " ++ err.text) }
  | .ok v =>
      { passed := v,
        actual_value := some (.b v),
        expected_value := some (.b true),
        error_message :=
          if v then none else some "チェックボックスがチェックされていません" }

/-- `_assert_checkbox_unchecked` (core). -/
def checkboxUncheckedCore (page : PageState) (sel : Option String) : ResCore :=
  match page.isChecked sel with
  | .error err =>
      { passed := false, error_message := some ("チェックボックス確認エラー: " ++ err.text) }
  | .ok v =>
      { passed := !v,
        actual_value := some (.b v),
        expected_value := some (.b false),
        error_message :=
          if v then some "チェックボックスがチェックされています" else none }

/-! The sixteen evaluator methods, each the corresponding core applied to
exactly the assertion fields that evaluator consults, with the assertion
attached to the result.  No evaluator consults `ignore_case`,
`attribute`, or `screenshot_path`. -/

def assertTextExists (page : PageState) (a : Assertion) : AssertionResult :=
  attach a (textExistsCore page a.expected a.wait_for)

def assertTextNotExists (page : PageState) (a : Assertion) : AssertionResult :=
  attach a (textNotExistsCore page a.expected)

def assertElementExists (page : PageState) (a : Assertion) : AssertionResult :=
  attach a (elementExistsCore page a.selector a.wait_for a.timeout)

def assertElementNotExists (page : PageState) (a : Assertion) : AssertionResult :=
  attach a (elementNotExistsCore page a.selector)

def assertElementVisible (page : PageState) (a : Assertion) : AssertionResult :=
  attach a (elementVisibleCore page a.selector a.wait_for a.timeout)

def assertElementHidden (page : PageState) (a : Assertion) : AssertionResult :=
  attach a (elementHiddenCore page a.selector)

def assertUrlContains (page : PageState) (a : Assertion) : AssertionResult :=
  attach a (urlContainsCore page a.expected)

def assertUrlEquals (page : PageState) (a : Assertion) : AssertionResult :=
  attach a (urlEqualsCore page a.expected)

def assertUrlStartsWith (page : PageState) (a : Assertion) : AssertionResult :=
  attach a (urlStartsWithCore page a.expected)

def assertUrlEndsWith (page : PageState) (a : Assertion) : AssertionResult :=
  attach a (urlEndsWithCore page a.expected)

def assertTitleContains (page : PageState) (a : Assertion) : AssertionResult :=
  attach a (titleContainsCore page a.expected)

def assertTitleEquals (page : PageState) (a : Assertion) : AssertionResult :=
  attach a (titleEqualsCore page a.expected)

def assertElementCount (page : PageState) (a : Assertion) : AssertionResult :=
  attach a (elementCountCore page a.selector a.expected)

def assertInputValueEquals (page : PageState) (a : Assertion) : AssertionResult :=
  attach a (inputValueEqualsCore page a.selector a.expected)

def assertCheckboxChecked (page : PageState) (a : Assertion) : AssertionResult :=
  attach a (checkboxCheckedCore page a.selector)

def assertCheckboxUnchecked (page : PageState) (a : Assertion) : AssertionResult :=
  attach a (checkboxUncheckedCore page a.selector)

/-- The dispatch chain of `AssertionExecutor._execute_assertion`: the
sixteen implemented types map to their evaluator; every other declared
type has none. -/
def evaluatorFor : AssertionType → Option (PageState → Assertion → AssertionResult)
  | .TEXT_EXISTS => some assertTextExists
  | .TEXT_NOT_EXISTS => some assertTextNotExists
  | .ELEMENT_EXISTS => some assertElementExists
  | .ELEMENT_NOT_EXISTS => some assertElementNotExists
  | .ELEMENT_VISIBLE => some assertElementVisible
  | .ELEMENT_HIDDEN => some assertElementHidden
  | .URL_CONTAINS => some assertUrlContains
  | .URL_EQUALS => some assertUrlEquals
  | .URL_STARTS_WITH => some assertUrlStartsWith
  | .URL_ENDS_WITH => some assertUrlEndsWith
  | .TITLE_CONTAINS => some assertTitleContains
  | .TITLE_EQUALS => some assertTitleEquals
  | .ELEMENT_COUNT => some assertElementCount
  | .INPUT_VALUE_EQUALS => some assertInputValueEquals
  | .CHECKBOX_CHECKED => some assertCheckboxChecked
  | .CHECKBOX_UNCHECKED => some assertCheckboxUnchecked
  | _ => none

/-- `AssertionExecutor._execute_assertion`: dispatch on the type; an
unhandled type yields the failed "Unimplemented assertion type" result. -/
def executeAssertion (page : PageState) (a : Assertion) : AssertionResult :=
  match evaluatorFor a.type with
  | some f => f page a
  | none =>
      { passed := false, assertion := a,
        error_message := some ("Unimplemented assertion type: " ++ a.type.pyText) }

/-- `AssertionExecutor.execute`: the timing wrapper around
`_execute_assertion` (timing is modeled as zero; nothing inside the
model can escape to the wrapper's catch-all). -/
def executorExecute (page : PageState) (a : Assertion) : AssertionResult :=
  executeAssertion page a

/-! ## MockLLMManager.translate_to_actions (mock_llm.py)

The mock translator is a pure keyword cascade.  The earlier branches each
bind the module `re` locally; the select branch uses `re` without any such
binding having run in that call, so Python determines `re` to be an unassigned
local and raises `UnboundLocalError` the moment the branch executes. -/

/-- A Playwright action dictionary (union of the keys the translators and
the browser manager use). -/
structure Action where
  action_type : String
  selector : Option String := none
  url : Option String := none
  text : Option String := none
  timeout : Option Nat := none
  path : Option String := none
  value : Option String := none
deriving Repr, DecidableEq

/-- `https?://[^\s]+`. -/
def mockUrlRE : RE :=
  rcat [rstr "http", ropt (RE.ch (Char.ofNat 115)), rstr "://",
        RE.rep1 true (RE.cls true [ClassItem.spaceClass])]

/-- `「([^」]+)」|"([^"]+)"|([A-Za-z][A-Za-z\s]+)`. -/
def mockClickTextRE : RE :=
  ralt
    [rcat [RE.ch '「', RE.grp 1 (RE.rep1 true (RE.cls true [ClassItem.single '」'])), RE.ch '」'],
     rcat [RE.ch (Char.ofNat 34),
           RE.grp 2 (RE.rep1 true (RE.cls true [ClassItem.single (Char.ofNat 34)])),
           RE.ch (Char.ofNat 34)],
     RE.grp 3 (rcat [RE.cls false [ClassItem.range 'A' 'Z', ClassItem.range 'a' 'z'],
                     RE.rep1 true (RE.cls false [ClassItem.range 'A' 'Z',
                                                 ClassItem.range 'a' 'z',
                                                 ClassItem.spaceClass])])]

/-- `「([^」]+)」|"([^"]+)"|に\s*([^\s]+)\s*と|を\s*([^\s]+)\s*と`. -/
def mockTypeTextRE : RE :=
  ralt
    [rcat [RE.ch '「', RE.grp 1 (RE.rep1 true (RE.cls true [ClassItem.single '」'])), RE.ch '」'],
     rcat [RE.ch (Char.ofNat 34),
           RE.grp 2 (RE.rep1 true (RE.cls true [ClassItem.single (Char.ofNat 34)])),
           RE.ch (Char.ofNat 34)],
     rcat [RE.ch 'に', wsStar,
           RE.grp 3 (RE.rep1 true (RE.cls true [ClassItem.spaceClass])), wsStar, RE.ch 'と'],
     rcat [RE.ch 'を', wsStar,
           RE.grp 4 (RE.rep1 true (RE.cls true [ClassItem.spaceClass])), wsStar, RE.ch 'と']]

/-- `(\d+)\s*(?:秒|seconds?)`. -/
def mockWaitTimeRE : RE :=
  rcat [digitsGroup 1, wsStar, ralt [rstr "秒", rcat [rstr "second", ropt (RE.ch 's')]]]

/-- Python `g1 or g2 or ...` over optional match groups: the first
participating, nonempty group. -/
def firstTruthy : List (Option String) → Option String
  | [] => none
  | some s :: rest => if s ≠ "" then some s else firstTruthy rest
  | none :: rest => firstTruthy rest

/-- Decimal digits to a number (captures of `\d+`). -/
def digitsToNat (s : String) : Nat :=
  s.toList.foldl (fun n c => n * 10 + (c.toNat - 48)) 0

/-- `MockLLMManager.translate_to_actions`. -/
def mockTranslate (nl : String) : Except PyErr Action :=
  let lower := pyLower nl
  let cs := nl.toList
  if strContains nl "移動" || strContains lower "navigate" || strContains nl "に移動" then
    let url :=
      match reSearch mockUrlRE nl with
      | some m => m.whole cs
      | none => "https://example.com"
    .ok { action_type := "navigate", url := some url }
  else if strContains nl "クリック" || strContains lower "click" || strContains nl "押す" then
    let selector :=
      if strContains nl "ボタン" || strContains lower "button" then "button"
      else if strContains nl "リンク" || strContains lower "link" then "a"
      else if strContains nl "Add Element" then
        "button:has-text(" ++ apos ++ "Add Element" ++ apos ++ ")"
      else if strContains nl "Login" then
        "button[type=" ++ apos ++ "submit" ++ apos ++ "], input[type=" ++ apos ++ "submit" ++ apos ++ "]"
      else if strContains nl "Delete" then
        "button:has-text(" ++ apos ++ "Delete" ++ apos ++ ")"
      else
        match reSearch mockClickTextRE nl with
        | some m =>
            "*:has-text(" ++ apos ++
              optStr (firstTruthy [m.group cs 1, m.group cs 2, m.group cs 3]) ++ apos ++ ")"
        | none => "button, a, input[type=" ++ apos ++ "submit" ++ apos ++ "]"
    .ok { action_type := "click", selector := some selector }
  else if strContains nl "入力" || strContains lower "type" then
    let selector :=
      if strContains nl "ユーザー名" || strContains lower "username" then
        "input[name=" ++ apos ++ "username" ++ apos ++ "], input[id=" ++ apos ++ "username" ++ apos ++ "]"
      else if strContains nl "パスワード" || strContains lower "password" then
        "input[type=" ++ apos ++ "password" ++ apos ++ "]"
      else if strContains nl "検索" || strContains lower "search" then
        "input[type=" ++ apos ++ "search" ++ apos ++ "], input[name=" ++ apos ++ "q" ++ apos ++
          "], input[name=" ++ apos ++ "search" ++ apos ++ "], input[placeholder*=" ++ apos ++
          "search" ++ apos ++ " i]"
      else
        "input[type=" ++ apos ++ "text" ++ apos ++ "], input:not([type]), textarea"
    let text :=
      match reSearch mockTypeTextRE nl with
      | some m =>
          optStr (firstTruthy [m.group cs 1, m.group cs 2, m.group cs 3, m.group cs 4])
      | none => "test input"
    .ok { action_type := "type", selector := some selector, text := some text }
  else if strContains nl "待つ" || strContains lower "wait" then
    let tmo :=
      match reSearch mockWaitTimeRE nl with
      | some m =>
          match m.group cs 1 with
          | some d => digitsToNat d * 1000
          | none => 3000
      | none => 3000
    .ok { action_type := "wait", timeout := some tmo }
  else if strContains nl "スクリーンショット" || strContains lower "screenshot" then
    .ok { action_type := "screenshot", path := some "test_screenshot.png" }
  else if strContains nl "確認" || strContains lower "check" || strContains lower "verify" then
    .ok { action_type := "wait", timeout := some 1000 }
  else if strContains nl "戻る" || strContains lower "back" then
    .ok { action_type := "navigate", url := some "back" }
  else if strContains nl "選択" || strContains lower "select" then
    .error (.unboundLocal "re")
  else
    .ok { action_type := "click", selector := some "*" }

/-! ## Step / case / suite execution (runner.py, optimized_runner.py,
robust_runner.py)

Browser and translator calls are oracle records; Python exceptions are
`Except` errors.  Timestamps, logging, console rendering and the
inter-action sleeps (0.5 s / 0.3 s / 0.2 s) have no effect on the
recorded results and are not modeled. -/

/-- A step / case status string. -/
inductive Status where
  | running
  | passed
  | failed
  | error
deriving Repr, DecidableEq

/-- One step of a test case (missing keys default to `""`). -/
structure Step where
  instruction : String := ""
  description : String := ""
deriving Repr, DecidableEq

/-- The assertion-result dictionary stored in a step result. -/
structure StepAssertionRecord where
  type : AssertionType
  passed : Bool
  expected : Option EVal
  actual : Option EVal
  error_message : Option String
deriving Repr, DecidableEq

/-- A step result (the robust runner's step dictionary has no
`assertion_result` key; that field simply stays `none` there). -/
structure StepResult where
  index : Nat
  description : String
  natural_language : String
  status : Status
  action : Option Action := none
  assertion_result : Option StepAssertionRecord := none
  error : Option String := none
deriving Repr, DecidableEq

/-- `Assertion(**assertion_info)`: the parse dictionary with model
defaults for the remaining fields. -/
def assertionOfInfo (i : AssertionInfo) : Assertion :=
  { type := i.type, selector := i.selector, expected := i.expected }

/-- Oracles for one standard/optimized step: translator call, browser
action execution, browser-delegated assertion execution (each may
raise). -/
structure StepOracles where
  translate : String → Except PyErr Action
  execAction : Action → Except PyErr Unit
  execAssertion : Assertion → Except PyErr AssertionResult

/-- `TestRunner._execute_step`: empty instruction raises; the pattern
matcher decides assertion vs action; any exception caught at the end of
the method marks the step failed with `str(e)`. -/
def executeStep (o : StepOracles) (step : Step) (idx : Nat) : StepResult :=
  let base : StepResult :=
    { index := idx, description := step.description,
      natural_language := step.instruction, status := .running }
  if step.instruction = "" then
    { base with status := .failed, error := some "No instruction provided" }
  else
    match parse step.instruction with
    | .error e => { base with status := .failed, error := some e.text }
    | .ok (some info) =>
        let a := assertionOfInfo info
        match o.execAssertion a with
        | .error e => { base with status := .failed, error := some e.text }
        | .ok r =>
            { base with
              assertion_result := some
                { type := a.type, passed := r.passed, expected := r.expected_value,
                  actual := r.actual_value, error_message := r.error_message },
              status := if r.passed then .passed else .failed,
              error := if r.passed then none else r.error_message }
    | .ok none =>
        match o.translate step.instruction with
        | .error e => { base with status := .failed, error := some e.text }
        | .ok action =>
            match o.execAction action with
            | .error e =>
                { base with action := some action, status := .failed, error := some e.text }
            | .ok _ => { base with action := some action, status := .passed }

/-- `OptimizedTestRunner._execute_step`: the same logic as the standard
step executor (the source duplicates it; only the UI-settle sleep is
0.3 s instead of 0.5 s, which has no recorded effect). -/
def executeStepOptimized (o : StepOracles) (step : Step) (idx : Nat) : StepResult :=
  let base : StepResult :=
    { index := idx, description := step.description,
      natural_language := step.instruction, status := .running }
  if step.instruction = "" then
    { base with status := .failed, error := some "No instruction provided" }
  else
    match parse step.instruction with
    | .error e => { base with status := .failed, error := some e.text }
    | .ok (some info) =>
        let a := assertionOfInfo info
        match o.execAssertion a with
        | .error e => { base with status := .failed, error := some e.text }
        | .ok r =>
            { base with
              assertion_result := some
                { type := a.type, passed := r.passed, expected := r.expected_value,
                  actual := r.actual_value, error_message := r.error_message },
              status := if r.passed then .passed else .failed,
              error := if r.passed then none else r.error_message }
    | .ok none =>
        match o.translate step.instruction with
        | .error e => { base with status := .failed, error := some e.text }
        | .ok action =>
            match o.execAction action with
            | .error e =>
                { base with action := some action, status := .failed, error := some e.text }
            | .ok _ => { base with action := some action, status := .passed }

/-- Outcome of `asyncio.wait_for(execute_action(...), timeout)`. -/
inductive TimedOutcome where
  | ok
  | raised (e : PyErr)
  | timedOut
deriving Repr, DecidableEq

/-- Simplified `f"{action}"` rendering for the robust timeout message. -/
def actionRepr (a : Action) : String :=
  "action_type=" ++ a.action_type

/-- Oracles for one robust step. -/
structure RobustStepOracles where
  pageAvailable : Bool
  translate : String → Except PyErr Action
  execActionTimed : Action → TimedOutcome

/-- `RobustTestRunner._execute_step_robust`: checks the page, then hands
the instruction directly to the translator — the assertion pattern
matcher is never consulted — and runs the action under an explicit
timeout, converting a timeout into a regular failure. -/
def executeStepRobust (o : RobustStepOracles) (step : Step) (idx : Nat) : StepResult :=
  let base : StepResult :=
    { index := idx, description := step.description,
      natural_language := step.instruction, status := .running }
  if !o.pageAvailable then
    { base with status := .failed, error := some "Page is closed or unavailable" }
  else if step.instruction = "" then
    { base with status := .failed, error := some "No instruction provided" }
  else
    match o.translate step.instruction with
    | .error e => { base with status := .failed, error := some e.text }
    | .ok action =>
        match o.execActionTimed action with
        | .timedOut =>
            { base with action := some action, status := .failed,
                        error := some ("Action timed out: " ++ actionRepr action) }
        | .raised e =>
            { base with action := some action, status := .failed, error := some e.text }
        | .ok => { base with action := some action, status := .passed }

/-- One test case of a suite description. -/
structure TestCase where
  name : String := "Unknown"
  steps : List Step := []
deriving Repr, DecidableEq

/-- A case result. -/
structure CaseResult where
  name : String
  status : Status
  steps : List StepResult
  error : Option String := none
  screenshot : Option String := none
deriving Repr, DecidableEq

/-- Oracles for standard-runner case execution: the step executor (a
raising executor models a crash escaping `_execute_step`) and the
failure-screenshot helper (total: it has an internal fallback path). -/
structure CaseOracles where
  stepExec : Step → Nat → Except PyErr StepResult
  screenshot : String → Int → String

/-- Outcome of the standard case step loop. -/
structure CaseLoopOut where
  steps : List StepResult
  status : Status
  err : Option String
  shot : Option String

/-- The step loop of `TestRunner._execute_test_case`: run steps in order;
a failed step sets the case failed, takes the failure screenshot (step
index) and stops; an exception escaping the step executor sets the case
errored, takes the screenshot with index `-1` and stops. -/
def runStepsStd (cfgShot : Bool) (o : CaseOracles) (name : String) :
    List Step → Nat → List StepResult → CaseLoopOut
  | [], _, acc => { steps := acc.reverse, status := .running, err := none, shot := none }
  | s :: rest, idx, acc =>
      match o.stepExec s idx with
      | .error e =>
          { steps := acc.reverse, status := .error, err := some e.text,
            shot := if cfgShot then some (o.screenshot name (-1)) else none }
      | .ok sr =>
          if sr.status = .failed then
            { steps := (sr :: acc).reverse, status := .failed, err := none,
              shot := if cfgShot then some (o.screenshot name (Int.ofNat idx)) else none }
          else
            runStepsStd cfgShot o name rest (idx + 1) (sr :: acc)

/-- `TestRunner._execute_test_case` (also the optimized runner's copy):
the loop above, then a still-running status becomes passed. -/
def executeTestCase (cfgShot : Bool) (o : CaseOracles) (tc : TestCase) : CaseResult :=
  let r := runStepsStd cfgShot o tc.name tc.steps 0 []
  { name := tc.name,
    status := if r.status = .running then .passed else r.status,
    steps := r.steps, error := r.err, screenshot := r.shot }

/-- A suite description (one test file). -/
structure SuiteData where
  name : String := "Unknown"
  base_url : String := ""
  test_cases : List TestCase := []
deriving Repr, DecidableEq

/-- The suite summary counters. -/
structure Summary where
  total : Nat
  passed : Nat
  failed : Nat
  errors : Nat
deriving Repr, DecidableEq

/-- A suite result. -/
structure SuiteResult where
  test_name : String
  base_url : String
  test_cases : List CaseResult
  summary : Summary
deriving Repr, DecidableEq

/-- Oracles for standard-runner suite execution. -/
structure SuiteOracles extends CaseOracles where
  navigate : String → Except PyErr Unit

/-- Summary update of `_execute_test_suite`: one increment per case;
`passed` / `failed` statuses count there, anything else counts as an
error. -/
def summaryStep (s : Summary) (st : Status) : Summary :=
  { total := s.total + 1,
    passed := s.passed + (if st = .passed then 1 else 0),
    failed := s.failed + (if st = .failed then 1 else 0),
    errors := s.errors + (if st ≠ .passed ∧ st ≠ .failed then 1 else 0) }

/-- `TestRunner._execute_test_suite`: navigate to the base URL when one
is given (a navigation failure propagates to the caller), then execute
every case in order — the loop never stops on a failed or errored case —
accumulating the summary. -/
def executeTestSuite (cfgShot : Bool) (o : SuiteOracles) (d : SuiteData) :
    Except PyErr SuiteResult :=
  match (if d.base_url ≠ "" then o.navigate d.base_url else Except.ok ()) with
  | .error e => .error e
  | .ok _ =>
      .ok { test_name := d.name, base_url := d.base_url,
            test_cases := d.test_cases.map (executeTestCase cfgShot o.toCaseOracles),
            summary := (d.test_cases.map (executeTestCase cfgShot o.toCaseOracles)).foldl
              (fun s cr => summaryStep s cr.status) ⟨0, 0, 0, 0⟩ }

/-- The robust case step loop (`_execute_test_case_robust`): a failed
step stops the case as failed; an exception escaping the robust step
executor is converted — by the per-step crash boundary — into an extra
step entry with status `error` (its dictionary has only index / status /
error keys) and stops the case as errored. -/
def runStepsRobust (stepExec : Step → Nat → Except PyErr StepResult) :
    List Step → Nat → List StepResult → List StepResult × Status
  | [], _, acc => (acc.reverse, .running)
  | s :: rest, idx, acc =>
      match stepExec s idx with
      | .error e =>
          let errStep : StepResult :=
            { index := idx, description := "", natural_language := "",
              status := .error, error := some e.text }
          ((errStep :: acc).reverse, .error)
      | .ok sr =>
          if sr.status = .failed then ((sr :: acc).reverse, .failed)
          else runStepsRobust stepExec rest (idx + 1) (sr :: acc)

/-- `RobustTestRunner._execute_test_case_robust`. -/
def executeTestCaseRobust (stepExec : Step → Nat → Except PyErr StepResult)
    (tc : TestCase) : CaseResult :=
  let r := runStepsRobust stepExec tc.steps 0 []
  { name := tc.name,
    status := if r.2 = .running then .passed else r.2,
    steps := r.1 }

/-! ## RobustTestRunner._run_single_test_robust (page swap per file) -/

/-- The browser manager's page-related state: the active page (by id),
the id allocator for `context.new_page()`, and the closed pages. -/
structure BMState where
  page : Option Nat
  nextId : Nat
  closed : List Nat
deriving Repr, DecidableEq

/-- Oracles for one robust test file: test-file loading, page creation,
the whole-suite execution, result saving, and whether `page.close()`
succeeds (its failure is downgraded to a warning). -/
structure RobustFileOracles where
  loadRes : Except PyErr Unit
  newPageRes : Except PyErr Unit
  suiteRes : Except PyErr SuiteResult
  saveRes : Except PyErr Unit
  closeOk : Bool

/-- `RobustTestRunner._run_single_test_robust`: load the file, open a new
page and swap it in as the manager's active page, execute the suite,
restore the original page, save results; the `finally` block closes the
new page on every path on which it was created.  The restore statement
sits on the success path only: when suite execution raises, the function
re-raises with the new (now closed) page still installed as the active
page. -/
def runSingleTestRobust (o : RobustFileOracles) (st : BMState) :
    Except PyErr SuiteResult × BMState :=
  match o.loadRes with
  | .error e => (.error e, st)
  | .ok _ =>
    match o.newPageRes with
    | .error e => (.error e, st)
    | .ok _ =>
      let newPage := st.nextId
      let stSwapped : BMState :=
        { page := some newPage, nextId := st.nextId + 1, closed := st.closed }
      let closeNew : BMState → BMState := fun s =>
        if o.closeOk then { s with closed := newPage :: s.closed } else s
      match o.suiteRes with
      | .error e => (.error e, closeNew stSwapped)
      | .ok results =>
          let stRestored : BMState := { stSwapped with page := st.page }
          match o.saveRes with
          | .error e => (.error e, closeNew stRestored)
          | .ok _ => (.ok results, closeNew stRestored)

/-! ## CLI exit-code logic (`__main__.main`) -/

/-- What the CLI reads from one executed file's result object:
`result.get("summary", {})` — absent for the robust runner's file-level
error placeholder. -/
structure FileRunResult where
  summary : Option Summary
deriving Repr, DecidableEq

/-- `summary.get("failed", 0) > 0 or summary.get("errors", 0) > 0`. -/
def summaryBad : Option Summary → Bool
  | none => false
  | some s => decide (0 < s.failed) || decide (0 < s.errors)

/-- How the guarded runner section of `main` ends. -/
inductive RunOutcome where
  | completed (results : List FileRunResult)
  | interrupted
  | raised (e : PyErr)
deriving Repr

/-- The process exit code `main` produces: 1 when an unhandled exception
reached the top-level handler, or when files were selected and some
executed summary reports failures or errors; a keyboard interrupt and
every other path (including interactive mode, where no files are
selected) exit with 0. -/
def mainExitCode (filesSelected : Bool) (outcome : RunOutcome) : Nat :=
  match outcome with
  | .raised _ => 1
  | .interrupted => 0
  | .completed results =>
      if filesSelected && results.any (fun r => summaryBad r.summary) then 1 else 0

/-! ## Configuration model (config.py) -/

/-- `LLMConfig` (temperature and top-p are Python floats, embedded as
rationals, which is exact for every literal involved). -/
structure LLMConfig where
  model_name : String := "rinna/japanese-gpt-neox-3.6b"
  device : String := "auto"
  max_length : Nat := 512
  temperature : Rat := 7 / 10
  top_p : Rat := 9 / 10
deriving Repr, DecidableEq

/-- `PlaywrightConfig`. -/
structure PlaywrightConfig where
  browser : String := "chromium"
  headless : Bool := true
  timeout : Nat := 30000
  viewport : List (String × Int) := [("width", 1280), ("height", 720)]
deriving Repr, DecidableEq

/-- `TestConfig` (`output_dir` is a `pathlib.Path` in the source; the
path value is a string here, but its dumped form keeps the fact that the
object is a `Path`, not a `str`). -/
structure TestConfig where
  base_url : String := ""
  screenshot_on_failure : Bool := true
  output_dir : String := "outputs"
  retry_count : Nat := 3
deriving Repr, DecidableEq

/-- `KotobaConfig`. -/
structure KotobaConfig where
  llm : LLMConfig := {}
  playwright : PlaywrightConfig := {}
  test : TestConfig := {}
  log_level : String := "INFO"
deriving Repr, DecidableEq

/-- A Python value tree as handed to `yaml.dump`: scalars, mappings, and
a `pathlib.Path` object (which has no dedicated representer and falls
through to the full Dumper's catch-all object representer). -/
inductive YVal where
  | s (v : String)
  | i (v : Int)
  | b (v : Bool)
  | r (v : Rat)
  | m (kvs : List (String × YVal))
  | path (p : String)
deriving Repr

/-- `config.model_dump()` (pydantic v2, python mode): nested plain dicts,
with `output_dir` still a `Path` object. -/
def modelDump (c : KotobaConfig) : YVal :=
  .m [("llm", .m [("model_name", .s c.llm.model_name),
                  ("device", .s c.llm.device),
                  ("max_length", .i c.llm.max_length),
                  ("temperature", .r c.llm.temperature),
                  ("top_p", .r c.llm.top_p)]),
      ("playwright", .m [("browser", .s c.playwright.browser),
                         ("headless", .b c.playwright.headless),
                         ("timeout", .i c.playwright.timeout),
                         ("viewport", .m (c.playwright.viewport.map
                            (fun kv => (kv.1, YVal.i kv.2))))]),
      ("test", .m [("base_url", .s c.test.base_url),
                   ("screenshot_on_failure", .b c.test.screenshot_on_failure),
                   ("output_dir", .path c.test.output_dir),
                   ("retry_count", .i c.test.retry_count)]),
      ("log_level", .s c.log_level)]

/-- A YAML node tree as written by `yaml.dump` and read back by a
loader: plain scalar and mapping nodes, plus a node carrying the
python-specific tag `tag:yaml.org,2002:python/object/apply:<callable>`
that the full Dumper's catch-all object representer emits for a
reducible object (callable name plus the `__reduce__` argument
strings). -/
inductive YNode where
  | s (v : String)
  | i (v : Int)
  | b (v : Bool)
  | r (v : Rat)
  | m (kvs : List (String × YNode))
  | pyApply (callable : String) (args : List String)
deriving Repr

/-- `yaml.dump(value, f, default_flow_style=False, allow_unicode=True)`
with the full `Dumper`: scalars and dicts have standard representers; a
`pathlib.Path` object has no dedicated representer and falls through to
the `add_multi_representer(object, represent_object)` catch-all, which
serializes it via `__reduce__` under the tag
`!!python/object/apply:pathlib.PosixPath` with the path string as the
argument — every node is representable, so the dump always succeeds.
The emitted text parses back to the same node tree (the serialize/parse
identity is the library boundary, so the dump is modeled by the tree
itself).  The depth fuel keeps the recursion structural; configuration
trees have depth three, far below the bound used in `yamlDump`. -/
def yamlDumpF : Nat → YVal → YNode
  | _, .s v => .s v
  | _, .i v => .i v
  | _, .b v => .b v
  | _, .r v => .r v
  | _, .path p => .pyApply "pathlib.PosixPath" [p]
  | 0, .m _ => .m []
  | f + 1, .m kvs => .m (kvs.map (fun kv => (kv.1, yamlDumpF f kv.2)))

/-- Dump at ample depth. -/
def yamlDump (v : YVal) : YNode := yamlDumpF 100 v

/-- `save_config(config, path)`: create parent directories (no recorded
effect), then `yaml.dump(config.model_dump(), f, ...)` — which succeeds
for every configuration, writing the node tree. -/
def save_config (c : KotobaConfig) : Except PyErr YNode :=
  .ok (yamlDump (modelDump c))

/-- The tag of the first python-tagged node of a tree in document
order, if any.  `SafeLoader` has constructors only for standard tags
and raises `ConstructorError` at such a node. -/
def firstPyTagF : Nat → YNode → Option String
  | _, .pyApply c _ => some ("tag:yaml.org,2002:python/object/apply:" ++ c)
  | f + 1, .m kvs => kvs.findSome? (fun kv => firstPyTagF f kv.2)
  | _, _ => none

/-- Rebuild the Python value of a tree free of python tags (the
`pyApply` row is unreachable under the guard in `safe_load` and returns
a dummy). -/
def nodeVal : Nat → YNode → YVal
  | _, .s v => .s v
  | _, .i v => .i v
  | _, .b v => .b v
  | _, .r v => .r v
  | _, .pyApply _ _ => .s ""
  | 0, .m _ => .m []
  | f + 1, .m kvs => .m (kvs.map (fun kv => (kv.1, nodeVal f kv.2)))

/-- `yaml.safe_load`: the `SafeLoader` constructs standard-tagged nodes
and raises `ConstructorError` at the first node whose tag it has no
constructor for, such as the `python/object/apply` tag. -/
def safe_load (n : YNode) : Except PyErr YVal :=
  match firstPyTagF 100 n with
  | some tag => .error (.constructorError tag)
  | none => .ok (nodeVal 100 n)

/-- `load_config(config_path)` on an existing file whose content is the
node tree `doc`: `yaml.safe_load(f)` runs first and its exception
propagates out of `load_config`; the subsequent
`KotobaConfig(**config_data)` reconstruction only runs on the ok
branch, so the loader is modeled up to and including the
`yaml.safe_load` stage. -/
def load_config (doc : YNode) : Except PyErr YVal :=
  safe_load doc

/-! ## Shared helper definitions and lemmas -/

/-- Kinds with a handling branch in `parse`. -/
def handledKind : ParamKind → Bool
  | .text => true
  | .selector => true
  | .url => true
  | .title => true
  | .selector_value => true
  | .selector_count => true
  | .html_element => true
  | .other _ => false

/-- Whether a table entry failed to compile. -/
def cregIsErr (e : PatEntry) : Bool :=
  match e.creg with
  | .error _ => true
  | .ok _ => false

/-! ## Concrete fixtures used by the claim theorems and witnesses -/
/-- A page whose locator strategies find nothing, whose waits raise, and
whose rendered content is the upper-case text `SAY HELLO WORLD`. -/
def c9Page : PageState :=
  { url := "", title := .ok "", content := .ok "SAY HELLO WORLD",
    locCount := fun _ => .ok 0,
    waitFirst := fun _ _ => .error (.exc "TypeError"),
    waitVisible := fun _ _ => .ok (),
    isVisible := fun _ => .ok false,
    isChecked := fun _ => .ok false,
    inputValue := fun _ => .ok "" }

/-- The configuration the repository's own round-trip unit test
(`tests/test_config.py::test_save_config`) builds: custom model name and
temperature, custom browser, `headless=False`, custom log level, and the
default `output_dir` path. -/
def c5TestConfig : KotobaConfig :=
  { llm := { model_name := "custom-model", temperature := 8 / 10 },
    playwright := { browser := "webkit", headless := false },
    log_level := "WARNING" }

/-- The failing instruction for C6: a quoted option name plus the
selection keyword, containing none of the earlier cascade keywords. -/
def c6Instr : String := "\"Option 2\"を選択する"

/-- The assertion instruction used to witness parsing: it matches the
very first pattern of the table. -/
def c1Instr : String := "「ログイン」が表示されていることを確認する"

/-- The C2 instruction. -/
def c2Instr : String := "URLが\"success\"で終わることを確認する"

/-- The C3 instruction (an assertion instruction: quoted text plus
表示されていることを確認する). -/
def c3Instr : String := "「ログイン」が表示されていることを確認する"

/-- Concrete robust-step oracles: the page is live, translation uses the
mock translator, actions succeed. -/
def c3Oracles : RobustStepOracles :=
  { pageAvailable := true,
    translate := mockTranslate,
    execActionTimed := fun _ => .ok }

/-- A successful action step result (a click that worked). -/
def c7SuccessStep : StepResult :=
  { index := 0, description := "", natural_language := "step one",
    status := .passed, action := some { action_type := "click", selector := some "button" } }

/-- A failing action step result (the engine raised). -/
def c7FailStep : StepResult :=
  { index := 0, description := "", natural_language := "step two",
    status := .failed, action := some { action_type := "click", selector := some "#missing" },
    error := some "Element not found" }

/-- Suite oracles for C7: the step executor succeeds on `step one` and
fails on everything else; screenshots and navigation are stubs. -/
def c7Oracles : SuiteOracles :=
  { stepExec := fun s _ =>
      .ok (if s.instruction = "step one" then c7SuccessStep else c7FailStep),
    screenshot := fun _ _ => "failure_shot.png",
    navigate := fun _ => .ok () }

/-- The two-case suite of C7. -/
def c7Suite : SuiteData :=
  { name := "two-case",
    test_cases := [ { name := "case1", steps := [{ instruction := "step one" }] },
                    { name := "case2", steps := [{ instruction := "step two" }] } ] }

/-- A two-step case whose first step passes and second fails. -/
def c7TwoStepCase : TestCase :=
  { name := "halting", steps := [{ instruction := "step one" }, { instruction := "step two" }] }

/-- The browser-manager state before the C8 file: page 0 active. -/
def c8State : BMState := { page := some 0, nextId := 1, closed := [] }

/-- Oracles for a robust file run whose suite execution raises. -/
def c8FailOracles : RobustFileOracles :=
  { loadRes := .ok (), newPageRes := .ok (),
    suiteRes := .error (.exc "TypeError"), saveRes := .ok (), closeOk := true }

/-- Step oracles whose assertion executor raises (browser not started). -/
def c10StubOracles : StepOracles :=
  { translate := mockTranslate,
    execAction := fun _ => .ok (),
    execAssertion := fun _ =>
      .error (.runtimeError "Browser not started. Call start() first.") }

/-- A handled entry hands back its own type tag. -/
theorem applyEntry_ty (instr : String) (e : PatEntry) (m : RMatch)
    (info : AssertionInfo) (h : applyEntry instr e m = some (.ok info)) :
    info.type = e.ty ∧ handledKind e.kind = true := by
  unfold applyEntry at h
  cases hk : e.kind <;> simp only [hk] at h <;>
    (repeat' split at h) <;> simp_all [handledKind] <;> rw [← h]

/-- Whenever `parseLoop` returns an assertion dictionary, its type is the
type tag of some table entry whose parameter kind has a handling branch. -/
theorem parseLoop_handled (instr : String) :
    ∀ (ps : List PatEntry) (info : AssertionInfo),
      parseLoop instr ps = .ok (some info) →
      ∃ e, e ∈ ps ∧ e.ty = info.type ∧ handledKind e.kind = true := by
  intro ps
  induction ps with
  | nil => intro info h; simp [parseLoop] at h
  | cons e rest ih =>
      intro info h
      unfold parseLoop at h
      split at h
      · exact absurd h (by simp)
      · split at h
        · obtain ⟨e2, hmem, hrest⟩ := ih info h
          exact ⟨e2, List.mem_cons_of_mem _ hmem, hrest⟩
        · split at h
          · obtain ⟨e2, hmem, hrest⟩ := ih info h
            exact ⟨e2, List.mem_cons_of_mem _ hmem, hrest⟩
          · exact absurd h (by simp)
          · rename_i info2 happ
            obtain ⟨rfl⟩ : info2 = info := by simpa using h
            obtain ⟨h1, h2⟩ := applyEntry_ty instr e _ info happ
            exact ⟨e, List.mem_cons_self _ _, h1.symm, h2⟩

/-- `parseLoop` never returns `None` while the remaining table still
holds an uncompilable entry: either an earlier entry matches, or the
walk reaches the bad entry and its `re.error` is raised. -/
theorem parseLoop_ne_none :
    ∀ (ps : List PatEntry), ps.any cregIsErr = true →
      ∀ instr, parseLoop instr ps ≠ .ok none := by
  intro ps
  induction ps with
  | nil => intro h; simp at h
  | cons e rest ih =>
      intro hany instr h
      unfold parseLoop at h
      split at h
      · exact absurd h (by simp)
      · rename_i r hok
        have herr : cregIsErr e = false := by simp [cregIsErr, hok]
        have hrest : rest.any cregIsErr = true := by
          simpa [List.any_cons, herr] using hany
        split at h
        · exact ih hrest instr h
        · split at h
          · exact ih hrest instr h
          · exact absurd h (by simp)
          · exact absurd h (by simp)

set_option maxRecDepth 8000 in
/-- Every table entry with a handled parameter kind carries one of the
sixteen types the executor dispatch implements. -/
theorem patterns_handled_implemented :
    PATTERNS.all (fun e => !handledKind e.kind || (evaluatorFor e.ty).isSome) = true := by
  rfl

set_option maxRecDepth 8000 in
/-- The pattern table contains an uncompilable entry (#112). -/
theorem patterns_have_bad_entry : PATTERNS.any cregIsErr = true := by rfl

/-! ## Claim theorems -/

/-- C9: for every assertion and fixed page state, the outcome (passed
flag and error message) of the executor is identical under
`ignore_case := true` and `ignore_case := false` — no evaluator consults
the flag; and the whole-page-content fallbacks of the text evaluators
compare case-insensitively unconditionally, witnessed on a page whose
content is upper-case while the expected text is lower-case (and vice
versa). -/
theorem c9_ignore_case_immaterial :
    (∀ (page : PageState) (a : Assertion) (b : Bool),
        (executeAssertion page { a with ignore_case := b }).passed =
          (executeAssertion page a).passed ∧
        (executeAssertion page { a with ignore_case := b }).error_message =
          (executeAssertion page a).error_message) ∧
    (executeAssertion c9Page
        { type := .TEXT_EXISTS, expected := some (.s "hello world") }).passed = true ∧
    (executeAssertion c9Page
        { type := .TEXT_NOT_EXISTS, expected := some (.s "Say Hello") }).passed = false := by
  refine ⟨?_, rfl, rfl⟩
  intro page a b
  cases a with
  | mk t sel exp att tmo ic wf => cases t <;> exact ⟨rfl, rfl⟩

/-- Dumping an integer leaf yields an integer node at any fuel. -/
theorem dumpInt (fd : Nat) (n : Int) : yamlDumpF fd (YVal.i n) = YNode.i n := by
  cases fd <;> rfl

/-- An integer node carries no python tag at any fuel. -/
theorem noTagInt (fp : Nat) (n : Int) : firstPyTagF fp (YNode.i n) = none := by
  cases fp <;> rfl

/-- The dumped viewport mapping (integer leaves) carries no python tag. -/
theorem viewportNoTag (fd fp : Nat) (l : List (String × Int)) :
    ((l.map (fun kv => (kv.1, YVal.i kv.2))).map
        (fun kv => (kv.1, yamlDumpF fd kv.2))).findSome?
      (fun kv => firstPyTagF fp kv.2) = none := by
  induction l with
  | nil => rfl
  | cons kv rest ih =>
      simp only [List.map_cons, List.findSome?_cons, dumpInt, noTagInt]
      exact ih

/-- C5: the save/load round trip never succeeds, and the failure sits in
the load.  `save_config` succeeds for every configuration — the full
Dumper serializes the `pathlib.Path` that `model_dump()` keeps in
`output_dir` via its catch-all object representer as a
`!!python/object/apply:pathlib.PosixPath` node — but `load_config` on
the file it wrote always raises `ConstructorError`, because
`yaml.safe_load`'s `SafeLoader` has no constructor for that python tag;
in particular on the configuration of the repository's own round-trip
test. -/
theorem c5_round_trip_fails_in_safe_load :
    (∀ c : KotobaConfig,
        save_config c = .ok (yamlDump (modelDump c)) ∧
        load_config (yamlDump (modelDump c)) =
          .error (.constructorError
            "tag:yaml.org,2002:python/object/apply:pathlib.PosixPath")) ∧
    load_config (yamlDump (modelDump c5TestConfig)) =
      .error (.constructorError
        "tag:yaml.org,2002:python/object/apply:pathlib.PosixPath") := by
  refine ⟨fun c => ⟨rfl, ?_⟩, by rfl⟩
  simp only [load_config, safe_load, yamlDump, modelDump, yamlDumpF,
    firstPyTagF, List.findSome?, dumpInt, noTagInt, viewportNoTag]
  rfl

/-- C6: the mock translator's selection branch never returns the select
action — it raises `UnboundLocalError` for `re`, because the branch
calls `re.search` but every `import re` of that function sits in earlier
cascade branches, none of which ran. -/
theorem c6_select_branch_raises_unbound_re :
    strContains c6Instr "選択" = true ∧
    mockTranslate c6Instr = .error (.unboundLocal "re") := ⟨rfl, rfl⟩

/-- C4: the CLI exit code is 1 exactly when an unhandled exception
reached the top level, or files were selected and some executed result's
summary reports `failed>0` or `errors>0`; a keyboard interrupt and the
interactive path (no files selected) exit with code 0, and no other exit
code occurs. -/
theorem c4_exit_codes :
    (∀ (files : Bool) (o : RunOutcome),
        (mainExitCode files o = 1 ↔
          (∃ e, o = .raised e) ∨
          (∃ rs, o = .completed rs ∧ files = true ∧
            ∃ r ∈ rs, summaryBad r.summary = true)) ∧
        (mainExitCode files o = 0 ∨ mainExitCode files o = 1)) ∧
    (∀ files, mainExitCode files .interrupted = 0) ∧
    (∀ rs, mainExitCode false (.completed rs) = 0) ∧
    (∀ s, summaryBad (some s) = (decide (0 < s.failed) || decide (0 < s.errors))) := by
  refine ⟨?_, fun _ => rfl, fun _ => rfl, fun _ => rfl⟩
  intro files o
  constructor
  · cases o with
    | interrupted => simp [mainExitCode]
    | raised e => simp [mainExitCode]
    | completed rs =>
        simp only [mainExitCode]
        constructor
        · intro h
          right
          refine ⟨rs, rfl, ?_⟩
          have hcond : (files && rs.any (fun r => summaryBad r.summary)) = true := by
            by_contra hc
            simp [hc] at h
          rcases (Bool.and_eq_true _ _).mp hcond with ⟨h1, h2⟩
          exact ⟨h1, by simpa [List.any_eq_true] using h2⟩
        · rintro (⟨e, he⟩ | ⟨rs2, heq, hfiles, r, hmem, hbad⟩)
          · exact absurd he (by simp)
          · obtain ⟨rfl⟩ : rs2 = rs := by simpa using heq.symm
            have : rs.any (fun r => summaryBad r.summary) = true := by
              simp [List.any_eq_true]; exact ⟨r, hmem, hbad⟩
            simp [hfiles, this]
  · cases o with
    | interrupted => simp [mainExitCode]
    | raised e => simp [mainExitCode]
    | completed rs => simp only [mainExitCode]; split <;> simp

set_option maxRecDepth 8000 in
/-- C1: whenever `parse` returns an assertion dictionary, its type has an
implemented evaluator, so the dispatcher's "Unimplemented assertion
type" branch is unreachable for parse-produced assertions (the dispatch
takes the evaluator branch); and yet the pattern table itself does carry
entries tagged with the unimplemented types ELEMENT_ENABLED,
ELEMENT_DISABLED, ATTRIBUTE_EXISTS, INPUT_VALUE_CONTAINS and
TEXT_CONTAINS, none of which has an evaluator. -/
theorem c1_parse_emits_only_implemented :
    (∀ (instr : String) (info : AssertionInfo),
        parse instr = Except.ok (some info) →
        (evaluatorFor info.type).isSome = true ∧
        ∀ page : PageState, ∃ f, evaluatorFor info.type = some f ∧
          executeAssertion page (assertionOfInfo info) =
            f page (assertionOfInfo info)) ∧
    (PATTERNS.any (fun e => decide (e.ty = .ELEMENT_ENABLED)) = true ∧
     PATTERNS.any (fun e => decide (e.ty = .ELEMENT_DISABLED)) = true ∧
     PATTERNS.any (fun e => decide (e.ty = .ATTRIBUTE_EXISTS)) = true ∧
     PATTERNS.any (fun e => decide (e.ty = .INPUT_VALUE_CONTAINS)) = true ∧
     PATTERNS.any (fun e => decide (e.ty = .TEXT_CONTAINS)) = true) ∧
    ((evaluatorFor .ELEMENT_ENABLED).isNone = true ∧
     (evaluatorFor .ELEMENT_DISABLED).isNone = true ∧
     (evaluatorFor .ATTRIBUTE_EXISTS).isNone = true ∧
     (evaluatorFor .INPUT_VALUE_CONTAINS).isNone = true ∧
     (evaluatorFor .TEXT_CONTAINS).isNone = true) := by
  refine ⟨?_, ⟨rfl, rfl, rfl, rfl, rfl⟩, rfl, rfl, rfl, rfl, rfl⟩
  intro instr info h
  obtain ⟨e, hmem, hty, hk⟩ := parseLoop_handled instr PATTERNS info h
  have hall := List.all_eq_true.mp patterns_handled_implemented e hmem
  rw [hk] at hall
  have hsome : (evaluatorFor e.ty).isSome = true := by simpa using hall
  rw [hty] at hsome
  refine ⟨hsome, ?_⟩
  intro page
  obtain ⟨f, hf⟩ := Option.isSome_iff_exists.mp hsome
  refine ⟨f, hf, ?_⟩
  show (match evaluatorFor (assertionOfInfo info).type with
        | some f => f page (assertionOfInfo info)
        | none => _) = f page (assertionOfInfo info)
  have : (assertionOfInfo info).type = info.type := rfl
  rw [this, hf]

/-- C1 witness: parsing the concrete assertion instruction yields a
TEXT_EXISTS dictionary whose type the dispatcher implements. -/
theorem c1_witness :
    (evaluatorFor AssertionType.TEXT_EXISTS).isSome = true :=
  (c1_parse_emits_only_implemented.1 c1Instr
    { type := .TEXT_EXISTS, selector := none, expected := some (.s "ログイン") }
    (by rfl)).1

/-- C2 counterexample: on the given instruction `parse` returns an
assertion of type URL_CONTAINS — not URL_ENDS_WITH as claimed — because
the flexible URL pattern at table index 10 (which maps the で終わる
phrasing to URL_CONTAINS) matches first. -/
theorem c2_counterexample :
    parse c2Instr =
      Except.ok (some { type := AssertionType.URL_CONTAINS, selector := none,
                        expected := some (EVal.s "success") }) ∧
    AssertionType.URL_CONTAINS ≠ AssertionType.URL_ENDS_WITH := by
  exact ⟨by rfl, by decide⟩

/-- C2 amended: the instruction parses to URL_CONTAINS with expected
`success` after quote stripping; the table entry at index 10 is a
URL_CONTAINS entry whose phrasing alternatives include で終わる, and the
dedicated URL_ENDS_WITH entry sits later, at index 14, so first-match
ordering decides. -/
theorem c2_amended_url_contains :
    parse c2Instr =
      Except.ok (some { type := AssertionType.URL_CONTAINS, selector := none,
                        expected := some (EVal.s "success") }) ∧
    (PATTERNS.get? 10).map (fun e => (e.ty, e.kind)) =
      some (AssertionType.URL_CONTAINS, ParamKind.url) ∧
    (PATTERNS.get? 14).map (fun e => (e.ty, e.kind)) =
      some (AssertionType.URL_ENDS_WITH, ParamKind.url) := by
  exact ⟨by rfl, by rfl, by rfl⟩

/-- C3 counterexample: the Robust Runner's step executor does not give
the instruction to the pattern matcher.  On an instruction for which
`parse` returns an assertion, the robust step still translates it (the
mock turns the 確認 phrasing into a 1000 ms wait action) and records an
action, never an assertion. -/
theorem c3_counterexample_robust_skips_matcher :
    parse c3Instr =
      Except.ok (some { type := AssertionType.TEXT_EXISTS, selector := none,
                        expected := some (EVal.s "ログイン") }) ∧
    (executeStepRobust c3Oracles { instruction := c3Instr } 0).action =
      some { action_type := "wait", timeout := some 1000 } ∧
    (executeStepRobust c3Oracles { instruction := c3Instr } 0).assertion_result =
      none := by
  exact ⟨by rfl, by rfl, by rfl⟩

/-- C3 amended: in the Standard and Optimized runners a step whose
instruction parses to an assertion is executed as exactly that assertion
(no action is recorded, and the assertion record mirrors the executor
result); `parse` can never decline with `None` — any instruction not
matched earlier raises the `re.error` of the uncompilable table entry —
so the translator path of those two runners is unreachable; the Robust
runner records no assertion result on any step and executes every
translatable step as exactly one action. -/
theorem c3_amended_dispatch :
    (∀ (o : StepOracles) (s : Step) (idx : Nat) (info : AssertionInfo)
        (r : AssertionResult),
        s.instruction ≠ "" →
        parse s.instruction = .ok (some info) →
        o.execAssertion (assertionOfInfo info) = .ok r →
        (executeStep o s idx).action = none ∧
        (executeStep o s idx).assertion_result =
          some { type := info.type, passed := r.passed, expected := r.expected_value,
                 actual := r.actual_value, error_message := r.error_message }) ∧
    (∀ (o : StepOracles) (s : Step) (idx : Nat) (info : AssertionInfo)
        (r : AssertionResult),
        s.instruction ≠ "" →
        parse s.instruction = .ok (some info) →
        o.execAssertion (assertionOfInfo info) = .ok r →
        (executeStepOptimized o s idx).action = none ∧
        (executeStepOptimized o s idx).assertion_result =
          some { type := info.type, passed := r.passed, expected := r.expected_value,
                 actual := r.actual_value, error_message := r.error_message }) ∧
    (∀ instr, parse instr ≠ .ok none) ∧
    (∀ (o : RobustStepOracles) (s : Step) (idx : Nat),
        (executeStepRobust o s idx).assertion_result = none) ∧
    (∀ (o : RobustStepOracles) (s : Step) (idx : Nat) (a : Action),
        o.pageAvailable = true →
        s.instruction ≠ "" →
        o.translate s.instruction = .ok a →
        (executeStepRobust o s idx).action = some a) := by
  refine ⟨?_, ?_, ?_, ?_, ?_⟩
  · intro o s idx info r hne hp hr
    simp only [executeStep, if_neg hne, hp, hr]
    exact ⟨trivial, rfl⟩
  · intro o s idx info r hne hp hr
    simp only [executeStepOptimized, if_neg hne, hp, hr]
    exact ⟨trivial, rfl⟩
  · exact fun instr => parseLoop_ne_none PATTERNS patterns_have_bad_entry instr
  · intro o s idx
    unfold executeStepRobust
    repeat' split
    all_goals rfl
  · intro o s idx a hpage hne ht
    simp only [executeStepRobust, hpage, Bool.not_true, Bool.false_eq_true,
      if_false, if_neg hne, ht]
    split <;> rfl

/-- C3 amended witness: a concrete standard-runner step whose
instruction parses to TEXT_EXISTS is executed as that assertion. -/
theorem c3_amended_witness :
    (executeStep
        { translate := mockTranslate,
          execAction := fun _ => .ok (),
          execAssertion := fun _ =>
            .ok { passed := true,
                  assertion := { type := .TEXT_EXISTS, expected := some (.s "ログイン") } } }
        { instruction := c3Instr } 0).action = none :=
  (c3_amended_dispatch.1
    { translate := mockTranslate,
      execAction := fun _ => .ok (),
      execAssertion := fun _ =>
        .ok { passed := true,
              assertion := { type := .TEXT_EXISTS, expected := some (.s "ログイン") } } }
    { instruction := c3Instr } 0
    { type := .TEXT_EXISTS, selector := none, expected := some (.s "ログイン") }
    { passed := true,
      assertion := { type := .TEXT_EXISTS, expected := some (.s "ログイン") } }
    (by decide) (by rfl) (by rfl)).1

/-! ## C7 / C8 / C10 -/

/-- Non-failed accumulator steps stay non-failed in the loop output, and
only the last recorded step can be the failed one. -/
theorem runStepsStd_dropLast (cfg : Bool) (o : CaseOracles) (name : String) :
    ∀ (steps : List Step) (idx : Nat) (acc : List StepResult),
      (∀ x ∈ acc, x.status ≠ .failed) →
      ∀ sr ∈ (runStepsStd cfg o name steps idx acc).steps.dropLast,
        sr.status ≠ .failed := by
  intro steps
  induction steps with
  | nil =>
      intro idx acc hacc sr hmem
      exact hacc sr (List.mem_reverse.mp (List.dropLast_subset _ hmem))
  | cons s rest ih =>
      intro idx acc hacc sr hmem
      unfold runStepsStd at hmem
      split at hmem
      · exact hacc sr (List.mem_reverse.mp (List.dropLast_subset _ hmem))
      · rename_i sr2 _
        split at hmem
        · rename_i hfail
          rw [List.reverse_cons, List.dropLast_concat] at hmem
          exact hacc sr (List.mem_reverse.mp hmem)
        · rename_i hnofail
          refine ih (idx + 1) (sr2 :: acc) ?_ sr hmem
          intro x hx
          cases hx with
          | head => exact fun hc => hnofail (by simpa using hc)
          | tail _ hx2 => exact hacc x hx2

/-- The summary fold adds one to `total` per case. -/
theorem foldl_summary_total :
    ∀ (l : List CaseResult) (s : Summary),
      (l.foldl (fun s cr => summaryStep s cr.status) s).total = s.total + l.length := by
  intro l
  induction l with
  | nil => intro s; rfl
  | cons cr rest ih =>
      intro s
      show (rest.foldl (fun s cr => summaryStep s cr.status) (summaryStep s cr.status)).total =
        s.total + (rest.length + 1)
      rw [ih]
      simp [summaryStep]
      omega

/-- C7: the two-case one-passing-one-failing suite summarizes to
`{total := 2, passed := 1, failed := 1, errors := 0}`; a case never keeps
a failed step anywhere but in last position (it halts at the first
failure); and a suite's summary always counts every case — execution
continues past failed and errored cases. -/
theorem c7_suite_aggregation :
    ((executeTestSuite true c7Oracles c7Suite).map (fun r => r.summary) =
      .ok { total := 2, passed := 1, failed := 1, errors := 0 }) ∧
    (∀ (cfg : Bool) (o : CaseOracles) (tc : TestCase),
        ∀ sr ∈ (executeTestCase cfg o tc).steps.dropLast, sr.status ≠ .failed) ∧
    (∀ (cfg : Bool) (o : SuiteOracles) (d : SuiteData) (r : SuiteResult),
        executeTestSuite cfg o d = .ok r →
        r.summary.total = d.test_cases.length) := by
  refine ⟨by rfl, ?_, ?_⟩
  · intro cfg o tc sr hmem
    exact runStepsStd_dropLast cfg o tc.name tc.steps 0 [] (by simp) sr hmem
  · intro cfg o d r h
    unfold executeTestSuite at h
    split at h
    · exact absurd h (by simp)
    · rw [← Except.ok.inj h]
      dsimp only
      rw [foldl_summary_total]
      simp

/-- C7 witness: in the concrete two-step case the first (passing) step is
recorded before the halting failure, and it is not failed. -/
theorem c7_witness : c7SuccessStep.status ≠ .failed :=
  c7_suite_aggregation.2.1 true c7Oracles.toCaseOracles c7TwoStepCase
    c7SuccessStep (by decide)

/-- C8 counterexample: when suite execution raises, the file run ends
with the newly created page (id 1) still installed as the browser
manager's active page — not the prior page 0 — refuting the claim that
the active-page field is restored on the failure path. -/
theorem c8_counterexample_page_not_restored :
    (runSingleTestRobust c8FailOracles c8State).2.page = some 1 ∧
    c8State.page = some 0 ∧ (some 1 : Option Nat) ≠ some 0 := by
  exact ⟨rfl, rfl, by decide⟩

/-- C8 amended: the prior page is restored whenever suite execution
returns (also when only result saving then fails), and the new page is
closed on every path on which it was created; but on the
suite-execution-failure path the new page — though closed — remains the
active page. -/
theorem c8_page_swap :
    (∀ (o : RobustFileOracles) (st : BMState) (r : SuiteResult),
        o.suiteRes = .ok r →
        ((runSingleTestRobust o st).2).page = st.page) ∧
    (∀ (o : RobustFileOracles) (st : BMState) (r : SuiteResult),
        o.loadRes = .ok () → o.newPageRes = .ok () → o.suiteRes = .ok r →
        o.closeOk = true →
        ((runSingleTestRobust o st).2).closed = st.nextId :: st.closed) ∧
    (∀ (o : RobustFileOracles) (st : BMState) (e : PyErr),
        o.loadRes = .ok () → o.newPageRes = .ok () → o.suiteRes = .error e →
        o.closeOk = true →
        (runSingleTestRobust o st).2 =
          { page := some st.nextId, nextId := st.nextId + 1,
            closed := st.nextId :: st.closed }) := by
  refine ⟨?_, ?_, ?_⟩
  · intro o st r h
    unfold runSingleTestRobust
    simp only [h]
    (repeat' split) <;> rfl
  · intro o st r h1 h2 h3 h4
    unfold runSingleTestRobust
    simp only [h1, h2, h3, h4]
    split <;> rfl
  · intro o st e h1 h2 h3 h4
    unfold runSingleTestRobust
    simp only [h1, h2, h3, h4]
    rfl

/-- C8 witness: with a succeeding suite the prior page is restored and
the new page is closed. -/
theorem c8_witness :
    ((runSingleTestRobust
        { loadRes := .ok (), newPageRes := .ok (),
          suiteRes := .ok { test_name := "t", base_url := "", test_cases := [],
                            summary := ⟨0, 0, 0, 0⟩ },
          saveRes := .ok (), closeOk := true } c8State).2).page = c8State.page :=
  c8_page_swap.1
    { loadRes := .ok (), newPageRes := .ok (),
      suiteRes := .ok { test_name := "t", base_url := "", test_cases := [],
                        summary := ⟨0, 0, 0, 0⟩ },
      saveRes := .ok (), closeOk := true } c8State
    { test_name := "t", base_url := "", test_cases := [], summary := ⟨0, 0, 0, 0⟩ }
    rfl

/-- C10: the Standard and Optimized step executors (and even the Robust
one) only ever finish a step as passed or failed — never as "error" —
and every exception path (empty instruction, a raised `re.error` from
parsing, a raised assertion-execution error) ends in status failed
carrying the exception message; a step with status "error" is produced
exclusively by the Robust Runner's per-step crash boundary, which turns
an exception escaping the step executor into an extra error-status step
entry. -/
theorem c10_step_error_status :
    (∀ (o : StepOracles) (s : Step) (idx : Nat),
        (executeStep o s idx).status = .passed ∨
        (executeStep o s idx).status = .failed) ∧
    (∀ (o : StepOracles) (s : Step) (idx : Nat),
        (executeStepOptimized o s idx).status = .passed ∨
        (executeStepOptimized o s idx).status = .failed) ∧
    (∀ (o : RobustStepOracles) (s : Step) (idx : Nat),
        (executeStepRobust o s idx).status = .passed ∨
        (executeStepRobust o s idx).status = .failed) ∧
    (∀ (o : StepOracles) (s : Step) (idx : Nat),
        s.instruction = "" →
        (executeStep o s idx).status = .failed ∧
        (executeStep o s idx).error = some "No instruction provided") ∧
    (∀ (o : StepOracles) (s : Step) (idx : Nat) (e : PyErr),
        s.instruction ≠ "" →
        parse s.instruction = .error e →
        (executeStep o s idx).status = .failed ∧
        (executeStep o s idx).error = some e.text) ∧
    (∀ (o : StepOracles) (s : Step) (idx : Nat) (info : AssertionInfo) (e : PyErr),
        s.instruction ≠ "" →
        parse s.instruction = .ok (some info) →
        o.execAssertion (assertionOfInfo info) = .error e →
        (executeStep o s idx).status = .failed ∧
        (executeStep o s idx).error = some e.text) ∧
    (∀ (stepExec : Step → Nat → Except PyErr StepResult) (name : String)
        (s : Step) (rest : List Step) (e : PyErr),
        stepExec s 0 = .error e →
        executeTestCaseRobust stepExec { name := name, steps := s :: rest } =
          { name := name, status := .error,
            steps := [{ index := 0, description := "", natural_language := "",
                        status := .error, error := some e.text }] }) := by
  refine ⟨?_, ?_, ?_, ?_, ?_, ?_, ?_⟩
  · intro o s idx
    unfold executeStep
    split
    · simp
    · split
      · simp
      · rename_i info _
        cases hres : o.execAssertion (assertionOfInfo info) with
        | error e => simp [hres]
        | ok r => cases hr : r.passed <;> simp [hres, hr]
      · cases htr : o.translate s.instruction with
        | error e => simp [htr]
        | ok a =>
            cases hea : o.execAction a with
            | error e => simp [htr, hea]
            | ok u => simp [htr, hea]
  · intro o s idx
    unfold executeStepOptimized
    split
    · simp
    · split
      · simp
      · rename_i info _
        cases hres : o.execAssertion (assertionOfInfo info) with
        | error e => simp [hres]
        | ok r => cases hr : r.passed <;> simp [hres, hr]
      · cases htr : o.translate s.instruction with
        | error e => simp [htr]
        | ok a =>
            cases hea : o.execAction a with
            | error e => simp [htr, hea]
            | ok u => simp [htr, hea]
  · intro o s idx
    unfold executeStepRobust
    split
    · simp
    · split
      · simp
      · cases htr : o.translate s.instruction with
        | error e => simp [htr]
        | ok a => cases hto : o.execActionTimed a <;> simp [htr, hto]
  · intro o s idx h
    simp only [executeStep, if_pos h]
    exact ⟨trivial, trivial⟩
  · intro o s idx e hne hp
    simp only [executeStep, if_neg hne, hp]
    exact ⟨trivial, trivial⟩
  · intro o s idx info e hne hp hr
    simp only [executeStep, if_neg hne, hp, hr]
    exact ⟨trivial, trivial⟩
  · intro stepExec name s rest e h
    simp only [executeTestCaseRobust, runStepsRobust, h]
    rfl

/-- C10 witness: an empty instruction fails the standard step with the
ValueError message. -/
theorem c10_witness :
    (executeStep c10StubOracles { instruction := "" } 0).status = .failed :=
  (c10_step_error_status.2.2.2.1 c10StubOracles { instruction := "" } 0 rfl).1

end Kotoba

